import Mathlib

/-!
# The gitlab.nvim Go server: comment positions and handler responses

A shallow embedding of the request handlers of `cmd/comment.go`,
`cmd/app/draft_notes.go`, `cmd/app/merge_requests.go`, `cmd/job.go`,
`cmd/reviewer.go`, `cmd/revisions.go` and of `handleError` (`cmd/app/client.go`),
of the routes, `pingHandler`, `checkServer` and `StartServer` of
`cmd/app/server.go`, together with the library functions they call (`crypto/sha1`,
`fmt.Sprintf`, `strconv.Atoi`, `strings.TrimPrefix`, `errors.Is`). The middleware
chain that `CreateRouter` builds its routes from and the shutdown coordinator are
declared outside these files and are modelled from the specification.

Conventions of the embedding:

* a Go `int` is an `Int`, a byte is a `Nat` below 256, a Go `string` is a `String`
  and its bytes are its UTF-8 encoding;
* a Go pointer (`*int`, `*LineRange`, ...) is an `Option`; dereferencing `none` ends
  the run with `Ending.panicked`;
* an `http.ResponseWriter` is the response writer of the `net/http` server: a record
  of the headers set, the status codes passed to `WriteHeader`, and the JSON values
  encoded to it; it panics on a status code outside 100 to 999 and refuses a body
  after a status that allows none;
* the upstream GitLab client is a record of functions, each returning the Go result
  tuple (value, response, error); every handler run records the calls it made;
* recursion that Go does not bound (`handleError` calling itself) takes a fuel
  argument and ends with `Ending.outOfFuel` when the fuel is used up.
-/

set_option maxRecDepth 100000

namespace Gitlab

/-! ## Strings and bytes -/

/-- UTF-8 encoding of one code point, as the bytes of a Go string hold it. -/
def utf8EncodeChar (c : Nat) : List Nat :=
  if c < 0x80 then [c]
  else if c < 0x800 then [0xC0 + c / 64, 0x80 + c % 64]
  else if c < 0x10000 then [0xE0 + c / 4096, 0x80 + c / 64 % 64, 0x80 + c % 64]
  else [0xF0 + c / 262144, 0x80 + c / 4096 % 64, 0x80 + c / 64 % 64, 0x80 + c % 64]

/-- Go conversion `[]byte(s)`. -/
def bytesOf (s : String) : List Nat :=
  (s.data.map (fun c => utf8EncodeChar c.toNat)).flatten

/-! ## crypto/sha1 -/

namespace sha1

/-- Rotate a 32-bit word left by `n` bits. -/
def rotl32 (x n : Nat) : Nat := ((x <<< n) ||| (x >>> (32 - n))) % 2 ^ 32

/-- Big-endian bytes of a 32-bit word. -/
def be32 (x : Nat) : List Nat :=
  [x / 2 ^ 24 % 256, x / 2 ^ 16 % 256, x / 2 ^ 8 % 256, x % 256]

/-- Big-endian bytes of a 64-bit word. -/
def be64 (x : Nat) : List Nat := be32 (x / 2 ^ 32 % 2 ^ 32) ++ be32 (x % 2 ^ 32)

/-- Message padding: a one bit, zeros up to 56 modulo 64, then the bit length. -/
def pad (msg : List Nat) : List Nat :=
  msg ++ 0x80 :: List.replicate ((119 - msg.length % 64) % 64) 0 ++ be64 (8 * msg.length)

/-- The first `k` 64-byte blocks of a byte sequence. -/
def chunks : Nat → List Nat → List (List Nat)
  | 0, _ => []
  | k + 1, bs => bs.take 64 :: chunks k (bs.drop 64)

/-- The `i`-th big-endian 32-bit word of a block. -/
def word (b : List Nat) (i : Nat) : Nat :=
  ((b.getD (4 * i) 0 * 256 + b.getD (4 * i + 1) 0) * 256 + b.getD (4 * i + 2) 0) * 256
    + b.getD (4 * i + 3) 0

/-- The 80-word message schedule of a block. -/
def schedule (b : List Nat) : List Nat :=
  (List.range 64).foldl
    (fun w i =>
      w ++ [rotl32 (w.getD (i + 13) 0 ^^^ w.getD (i + 8) 0 ^^^ w.getD (i + 2) 0 ^^^ w.getD i 0) 1])
    ((List.range 16).map (word b))

/-- The five 32-bit chaining words. -/
structure Digest where
  h0 : Nat
  h1 : Nat
  h2 : Nat
  h3 : Nat
  h4 : Nat
deriving DecidableEq, Repr

/-- One of the 80 rounds; `tw` is the round number and its schedule word. -/
def round (s : Digest) (tw : Nat × Nat) : Digest :=
  let t := tw.1
  let f := if t < 20 then (s.h1 &&& s.h2) ||| ((s.h1 ^^^ 0xFFFFFFFF) &&& s.h3)
    else if t < 40 then s.h1 ^^^ s.h2 ^^^ s.h3
    else if t < 60 then (s.h1 &&& s.h2) ||| (s.h1 &&& s.h3) ||| (s.h2 &&& s.h3)
    else s.h1 ^^^ s.h2 ^^^ s.h3
  let k := if t < 20 then 0x5A827999 else if t < 40 then 0x6ED9EBA1
    else if t < 60 then 0x8F1BBCDC else 0xCA62C1D6
  { h0 := (rotl32 s.h0 5 + f + s.h4 + k + tw.2) % 2 ^ 32, h1 := s.h0, h2 := rotl32 s.h1 30,
    h3 := s.h2, h4 := s.h3 }

/-- Compression of one block into the chaining words. -/
def block (h : Digest) (b : List Nat) : Digest :=
  let s := (schedule b).enum.foldl round h
  { h0 := (h.h0 + s.h0) % 2 ^ 32, h1 := (h.h1 + s.h1) % 2 ^ 32, h2 := (h.h2 + s.h2) % 2 ^ 32,
    h3 := (h.h3 + s.h3) % 2 ^ 32, h4 := (h.h4 + s.h4) % 2 ^ 32 }

/-- Initial chaining words. -/
def init : Digest :=
  { h0 := 0x67452301, h1 := 0xEFCDAB89, h2 := 0x98BADCFE, h3 := 0x10325476, h4 := 0xC3D2E1F0 }

/-- Go `sha1.Sum(data)`: the 20-byte SHA-1 checksum of the data. -/
def Sum (data : List Nat) : List Nat :=
  let p := pad data
  let d := (chunks (p.length / 64) p).foldl block init
  be32 d.h0 ++ be32 d.h1 ++ be32 d.h2 ++ be32 d.h3 ++ be32 d.h4

end sha1

/-! ## fmt.Sprintf, for the verbs the sources use -/

namespace fmt

/-- Digit table of the lowercase hexadecimal verb. -/
def ldigits : List Char := "0123456789abcdef".data

/-- Verb `%x` on a byte array: two lowercase hexadecimal digits per byte. -/
def fmtSbx (bs : List Nat) : List Char :=
  (bs.map (fun b => [ldigits.getD (b / 16 % 16) '0', ldigits.getD (b % 16) '0'])).flatten

/-- Verb `%d` on an `int`: signed decimal. -/
def fmtInteger : Int → List Char
  | Int.ofNat m => Nat.toDigits 10 m
  | Int.negSucc m => '-' :: Nat.toDigits 10 (m + 1)

/-- An operand of `Sprintf`. -/
inductive Arg
  | bytes (b : List Nat)
  | int (i : Int)
  | str (s : String)
deriving DecidableEq, Repr

/-- Formatting loop of `Sprintf`: `%x` consumes a byte-array operand, `%d` an
integer operand, `%s` a string operand, every other character is copied. -/
def doPrintf : List Char → List Arg → List Char
  | '%' :: 'x' :: rest, Arg.bytes b :: args => fmtSbx b ++ doPrintf rest args
  | '%' :: 'd' :: rest, Arg.int i :: args => fmtInteger i ++ doPrintf rest args
  | '%' :: 's' :: rest, Arg.str s :: args => s.data ++ doPrintf rest args
  | c :: rest, args => c :: doPrintf rest args
  | [], _ => []

/-- Go `fmt.Sprintf(format, args...)`. -/
def Sprintf (format : String) (args : List Arg) : String :=
  String.mk (doPrintf format.data args)

end fmt

/-! ## strings and strconv -/

namespace strings

/-- Go `strings.TrimPrefix(s, p)`: `s` without the leading `p`, or `s` itself. -/
def TrimPrefix (s p : String) : String :=
  if p.data.isPrefixOf s.data then String.mk (s.data.drop p.data.length) else s

end strings

/-- A non-nil Go `error`; the interface has the single method `Error() string`. -/
structure GoError where
  Error : String
deriving DecidableEq, Repr

namespace errors

/-- Go `errors.New(text)`. -/
def New (text : String) : GoError := { Error := text }

end errors

/-- Texts that declarations outside the sources decide: the `Error` methods of
`GenericError` and `InvalidRequestError`, and the rendering of a
`strconv.NumError` for an input. -/
structure ErrorTexts where
  genericError : String → String
  invalidRequestError : String
  atoiSyntax : String → String
  atoiRange : String → String

/-- The error `GenericError{endpoint: endpoint}`. -/
def GenericError (T : ErrorTexts) (endpoint : String) : GoError :=
  { Error := T.genericError endpoint }

/-- The error `InvalidRequestError{}`. -/
def InvalidRequestError (T : ErrorTexts) : GoError :=
  { Error := T.invalidRequestError }

namespace strconv

/-- The two ways a conversion fails, Go `strconv.ErrSyntax` and `strconv.ErrRange`. -/
inductive Failure
  | ErrSyntax
  | ErrRange
deriving DecidableEq, Repr

/-- The loop of `strconv.ParseUint` in base 10 on 64 bits, from the value `n` read so
far: a byte that is not a digit is a syntax error, a value that passes 2^64 - 1 is a
range error, whichever comes first. -/
def digitsValue : List Char → Nat → Except Failure Nat
  | [], n => Except.ok n
  | ch :: rest, n =>
    if 48 ≤ ch.toNat ∧ ch.toNat ≤ 57 then
      if n ≥ (2 ^ 64 - 1) / 10 + 1 then Except.error Failure.ErrRange
      else if n * 10 + (ch.toNat - 48) > 2 ^ 64 - 1 then Except.error Failure.ErrRange
      else digitsValue rest (n * 10 + (ch.toNat - 48))
    else Except.error Failure.ErrSyntax

/-- Go `strconv.Atoi(s)` on a 64-bit platform: an optional sign and one or more
decimal digits, within the range of `int`. On the strings the fast path of `Atoi`
takes (fewer than 19 bytes) the loop cannot pass 2^64 - 1, so the one definition
covers both paths. -/
def Atoi (T : ErrorTexts) (s : String) : Except GoError Int :=
  let digits := match s.data with
    | '-' :: rest => rest
    | '+' :: rest => rest
    | cs => cs
  let neg := s.data.head? = some '-'
  if digits = [] then Except.error { Error := T.atoiSyntax s }
  else match digitsValue digits 0 with
    | Except.error Failure.ErrSyntax => Except.error { Error := T.atoiSyntax s }
    | Except.error Failure.ErrRange => Except.error { Error := T.atoiRange s }
    | Except.ok n =>
      if neg then
        if n ≤ 2 ^ 63 then Except.ok (-(n : Int)) else Except.error { Error := T.atoiRange s }
      else
        if n < 2 ^ 63 then Except.ok (n : Int) else Except.error { Error := T.atoiRange s }

end strconv

/-! ## The GitLab client library types the handlers use -/

/-- Go `gitlab.Response`: the status code of the upstream HTTP response. -/
structure Response where
  StatusCode : Int
deriving DecidableEq, Repr

/-- Go `gitlab.Note`. -/
structure Note where
  ID : Int
deriving DecidableEq, Repr

/-- Go `gitlab.Discussion`. -/
structure Discussion where
  ID : String
  Notes : List Note
deriving DecidableEq, Repr

/-- Go `gitlab.DraftNote`. -/
structure DraftNote where
  ID : Int
  Note : String
deriving DecidableEq, Repr

/-- Go `gitlab.BasicUser`. -/
structure BasicUser where
  ID : Int
deriving DecidableEq, Repr

/-- Go `gitlab.MergeRequest`. -/
structure MergeRequest where
  IID : Int
  SourceBranch : String
  Reviewers : List BasicUser
deriving DecidableEq, Repr

/-- Go `gitlab.MergeRequestDiffVersion`. -/
structure MergeRequestDiffVersion where
  ID : Int
deriving DecidableEq, Repr

/-- Go `gitlab.LinePositionOptions`. -/
structure LinePositionOptions where
  LineCode : Option String
  Type_ : Option String
deriving DecidableEq, Repr

/-- Go `gitlab.LineRangeOptions`. -/
structure LineRangeOptions where
  Start : Option LinePositionOptions
  End : Option LinePositionOptions
deriving DecidableEq, Repr

/-- Go `gitlab.PositionOptions` (the image fields, which the sources never set, are
left out). -/
structure PositionOptions where
  BaseSHA : Option String
  HeadSHA : Option String
  StartSHA : Option String
  NewPath : Option String
  OldPath : Option String
  PositionType : Option String
  NewLine : Option Int
  OldLine : Option Int
  LineRange : Option LineRangeOptions
deriving DecidableEq, Repr

/-- Go `gitlab.CreateMergeRequestDiscussionOptions`. -/
structure CreateMergeRequestDiscussionOptions where
  Body : Option String
  Position : Option PositionOptions
deriving DecidableEq, Repr

/-- Go `gitlab.UpdateMergeRequestDiscussionNoteOptions`. -/
structure UpdateMergeRequestDiscussionNoteOptions where
  Body : Option String
deriving DecidableEq, Repr

/-- Go `gitlab.ListDraftNotesOptions`. -/
structure ListDraftNotesOptions where
deriving DecidableEq, Repr

/-- Go `gitlab.CreateDraftNoteOptions`. -/
structure CreateDraftNoteOptions where
  Note : Option String
  InReplyToDiscussionID : Option String
  Position : Option PositionOptions
deriving DecidableEq, Repr

/-- Go `gitlab.UpdateDraftNoteOptions`. -/
structure UpdateDraftNoteOptions where
  Note : Option String
  Position : Option PositionOptions
deriving DecidableEq, Repr

/-- Go `gitlab.ListProjectMergeRequestsOptions`: the two fields the sources read. -/
structure ListProjectMergeRequestsOptions where
  State : Option String
  Scope : Option String
deriving DecidableEq, Repr

/-- Go `gitlab.UpdateMergeRequestOptions`: the field the sources set. -/
structure UpdateMergeRequestOptions where
  ReviewerIDs : Option (List Int)
deriving DecidableEq, Repr

/-- Go `gitlab.GetMergeRequestDiffVersionsOptions`. -/
structure GetMergeRequestDiffVersionsOptions where
deriving DecidableEq, Repr

/-- The `io.Reader` a trace file comes as: its contents, or the error reading gives. -/
inductive Reader
  | contents (file : String)
  | failing (err : GoError)
deriving DecidableEq, Repr

/-- The result tuple of an upstream call: the value (a `none` where Go has a nil
pointer), the response and the error. -/
structure Reply (α : Type) where
  value : α
  res : Option Response
  err : Option GoError
deriving DecidableEq, Repr

/-- Resolved project, `ProjectInfo` of client.go. -/
structure ProjectInfo where
  ProjectId : String
  MergeId : Int
deriving DecidableEq, Repr

/-- An upstream operation with the arguments it was invoked with. -/
inductive Call
  | CreateMergeRequestDiscussion (pid : String) (mergeRequest : Int)
      (opt : CreateMergeRequestDiscussionOptions)
  | DeleteMergeRequestDiscussionNote (pid : String) (mergeRequest : Int) (discussion : String)
      (note : Int)
  | UpdateMergeRequestDiscussionNote (pid : String) (mergeRequest : Int) (discussion : String)
      (note : Int) (opt : UpdateMergeRequestDiscussionNoteOptions)
  | ListDraftNotes (pid : String) (mergeRequest : Int) (opt : ListDraftNotesOptions)
  | CreateDraftNote (pid : String) (mergeRequest : Int) (opt : CreateDraftNoteOptions)
  | DeleteDraftNote (pid : String) (mergeRequest : Int) (note : Int)
  | UpdateDraftNote (pid : String) (mergeRequest : Int) (note : Int)
      (opt : UpdateDraftNoteOptions)
  | ListProjectMergeRequests (pid : String) (opt : ListProjectMergeRequestsOptions)
  | GetTraceFile (pid : String) (jobID : Int)
  | UpdateMergeRequest (pid : String) (mergeRequest : Int) (opt : UpdateMergeRequestOptions)
  | GetMergeRequestDiffVersions (pid : String) (mergeRequest : Int)
      (opt : GetMergeRequestDiffVersionsOptions)
deriving DecidableEq, Repr

/-- The upstream capabilities the handlers consume (`HandlerClient` of comment.go,
`DraftNoteManager`, `MergeRequestLister` and the client of the `api` receiver). -/
structure Client where
  CreateMergeRequestDiscussion :
    String → Int → CreateMergeRequestDiscussionOptions → Reply (Option Discussion)
  DeleteMergeRequestDiscussionNote : String → Int → String → Int → Reply Unit
  UpdateMergeRequestDiscussionNote :
    String → Int → String → Int → UpdateMergeRequestDiscussionNoteOptions → Reply (Option Note)
  ListDraftNotes : String → Int → ListDraftNotesOptions → Reply (List DraftNote)
  CreateDraftNote : String → Int → CreateDraftNoteOptions → Reply (Option DraftNote)
  DeleteDraftNote : String → Int → Int → Reply Unit
  UpdateDraftNote : String → Int → Int → UpdateDraftNoteOptions → Reply (Option DraftNote)
  ListProjectMergeRequests :
    String → ListProjectMergeRequestsOptions → Reply (List MergeRequest)
  GetTraceFile : String → Int → Reply (Option Reader)
  UpdateMergeRequest : String → Int → UpdateMergeRequestOptions → Reply (Option MergeRequest)
  GetMergeRequestDiffVersions :
    String → Int → GetMergeRequestDiffVersionsOptions → Reply (List MergeRequestDiffVersion)

/-! ## Requests and responses -/

/-- What a handler finds in the request body: reading it fails, the bytes do not
decode into the handler's request type, or they decode to a value of it. -/
inductive Body (α : Type)
  | unreadable (err : GoError)
  | malformed (err : GoError)
  | json (v : α)
deriving DecidableEq, Repr

/-- An inbound request, with its body seen through the handler's request type `α`. -/
structure Request (α : Type) where
  Method : String
  Path : String
  Body : Body α
deriving DecidableEq, Repr

/-- Success envelope. -/
structure SuccessResponse where
  Message : String
  Status : Int
deriving DecidableEq, Repr

/-- Failure envelope. -/
structure ErrorResponse where
  Message : String
  Details : String
  Status : Int
deriving DecidableEq, Repr

/-- The `CommentResponse` of comment.go. -/
structure CommentResponse extends SuccessResponse where
  Comment : Option Note
  Discussion : Option Discussion
deriving DecidableEq, Repr

/-- The `DraftNoteResponse` of draft_notes.go. -/
structure DraftNoteResponse extends SuccessResponse where
  DraftNote : Option DraftNote
deriving DecidableEq, Repr

/-- The `ListDraftNotesResponse` of draft_notes.go. -/
structure ListDraftNotesResponse extends SuccessResponse where
  DraftNotes : List DraftNote
deriving DecidableEq, Repr

/-- The `ListMergeRequestResponse` of merge_requests.go. -/
structure ListMergeRequestResponse extends SuccessResponse where
  MergeRequests : List MergeRequest
deriving DecidableEq, Repr

/-- The `JobTraceResponse` of job.go. -/
structure JobTraceResponse extends SuccessResponse where
  File : String
deriving DecidableEq, Repr

/-- The `RevisionsResponse` of revisions.go. -/
structure RevisionsResponse extends SuccessResponse where
  Revisions : List MergeRequestDiffVersion
deriving DecidableEq, Repr

/-- The `ReviewerUpdateResponse` of reviewer.go. -/
structure ReviewerUpdateResponse extends SuccessResponse where
  Reviewers : List BasicUser
deriving DecidableEq, Repr

/-- A value written to the response body: the JSON encoding of one of the response
structs, or plain text. -/
inductive Written
  | error (r : ErrorResponse)
  | success (r : SuccessResponse)
  | comment (r : CommentResponse)
  | draftNote (r : DraftNoteResponse)
  | listDraftNotes (r : ListDraftNotesResponse)
  | listMergeRequest (r : ListMergeRequestResponse)
  | jobTrace (r : JobTraceResponse)
  | revisions (r : RevisionsResponse)
  | reviewerUpdate (r : ReviewerUpdateResponse)
  | text (s : String)
deriving DecidableEq, Repr

/-- The success envelope of a written value, `none` for the failure envelope and
for plain text. -/
def Written.envelope : Written → Option SuccessResponse
  | Written.error _ => none
  | Written.success r => some r
  | Written.comment r => some r.toSuccessResponse
  | Written.draftNote r => some r.toSuccessResponse
  | Written.listDraftNotes r => some r.toSuccessResponse
  | Written.listMergeRequest r => some r.toSuccessResponse
  | Written.jobTrace r => some r.toSuccessResponse
  | Written.revisions r => some r.toSuccessResponse
  | Written.reviewerUpdate r => some r.toSuccessResponse
  | Written.text _ => none

namespace http

/-- Go `http.ErrBodyNotAllowed`. -/
def ErrBodyNotAllowed : GoError :=
  errors.New "http: request method or response status code does not allow body"

end http

/-- The `http.ResponseWriter` a handler writes to. `codes` lists the status codes
passed to `WriteHeader` (the first one is the status of the response), `body` the
values encoded so far. `pending` scripts the outcome of the coming `Write` calls
(`none`: accepted) and `thereafter` the outcome of every call after those. -/
structure ResponseWriter where
  header : List (String × String)
  codes : List Int
  body : List Written
  pending : List (Option GoError)
  thereafter : Option GoError
deriving DecidableEq, Repr

namespace ResponseWriter

/-- A writer nothing has been written to and that accepts every write. -/
def fresh : ResponseWriter :=
  { header := [], codes := [], body := [], pending := [], thereafter := none }

/-- Go `w.Header().Set(key, value)`. -/
def SetHeader (w : ResponseWriter) (key value : String) : ResponseWriter :=
  { w with header := (key, value) :: w.header.filter (fun kv => kv.1 ≠ key) }

/-- Go `w.WriteHeader(code)`: `none` is the panic of `checkWriteHeaderCode` on a
code below 100 or above 999. A call after the header was written is superfluous: it
does not check the code and does not change the status; it is recorded in `codes`
all the same. -/
def WriteHeader (w : ResponseWriter) (code : Int) : Option ResponseWriter :=
  if w.codes = [] ∧ ¬ (100 ≤ code ∧ code ≤ 999) then none
  else some { w with codes := w.codes ++ [code] }

/-- The status code of the response: the one of the first `WriteHeader`. -/
def status (w : ResponseWriter) : Option Int := w.codes.head?

/-- The function `bodyAllowedForStatus` of `net/http`: informational responses, 204
and 304 carry no body. An informational code is recorded by `WriteHeader` like any
other code, as `net/http` did before it sent 1xx headers on their own (Go 1.19);
the statements below about a response are about statuses from 200 on. -/
def bodyAllowedForStatus (status : Int) : Bool :=
  !(decide (100 ≤ status) && decide (status ≤ 199)) && status != 204 && status != 304

/-- The status of the response allows a body. -/
def bodyAllowed (w : ResponseWriter) : Bool :=
  match w.status with
  | some status => bodyAllowedForStatus status
  | none => true

/-- The outcome the writer gives to the next `Write`. -/
def next (w : ResponseWriter) : Option GoError :=
  match w.pending with
  | o :: _ => o
  | [] => w.thereafter

/-- Go `json.NewEncoder(w).Encode(v)`: one `Write` of the encoding of `v`. A `Write`
before any `WriteHeader` sends status 200 first; a `Write` after a status that
allows no body is refused with `http.ErrBodyNotAllowed` and does not reach the
connection. -/
def Encode (w : ResponseWriter) (v : Written) : ResponseWriter × Option GoError :=
  let w1 := if w.codes = [] then { w with codes := [200] } else w
  if w1.bodyAllowed then
    match w1.next with
    | none => ({ w1 with body := w1.body ++ [v], pending := w1.pending.tail }, none)
    | some err => ({ w1 with pending := w1.pending.tail }, some err)
  else (w1, some http.ErrBodyNotAllowed)

/-- Go `fmt.Fprintln(w, s)`: one `Write` of `s` and a newline. -/
def Fprintln (w : ResponseWriter) (s : String) : ResponseWriter × Option GoError :=
  w.Encode (Written.text (s ++ "\n"))

/-- The value of a header, `w.Header().Get(key)`. -/
def GetHeader (w : ResponseWriter) (key : String) : Option String :=
  w.header.lookup key

end ResponseWriter

/-- How a run of Go code ends. -/
inductive Ending
  | returned
  | panicked (reason : String)
  | outOfFuel
deriving DecidableEq, Repr

/-- The panic of `WriteHeader` on a status code outside 100 to 999. -/
def invalidWriteHeaderCode : Ending :=
  Ending.panicked "invalid WriteHeader code"

/-- A handler run: how it ended, the response writer as the run left it, and the
upstream calls made, in order. -/
structure Run where
  ending : Ending
  w : ResponseWriter
  calls : List Call
deriving DecidableEq, Repr

/-- A run of `handleError`, by a handler that had made the calls `calls`. -/
def Run.after (p : Ending × ResponseWriter) (calls : List Call) : Run :=
  { ending := p.1, w := p.2, calls := calls }

/-- The function `handleError` of client.go. -/
def handleError : Nat → ResponseWriter → GoError → String → Int → Ending × ResponseWriter
  | 0, w, _, _, _ => (Ending.outOfFuel, w)
  | fuel + 1, w, err, message, status =>
    match w.WriteHeader status with
    | none => (invalidWriteHeaderCode, w)
    | some w =>
      let response : ErrorResponse :=
        { Message := message, Details := err.Error, Status := status }
      match w.Encode (Written.error response) with
      | (w, none) => (Ending.returned, w)
      | (w, some err) => handleError fuel w err "Could not encode error response" 500

/-- The exported `HandleError` that comment.go calls; its declaration is outside
the sources and it is taken to be `handleError` of client.go. -/
def HandleError (fuel : Nat) (w : ResponseWriter) (err : GoError) (message : String)
    (status : Int) : Ending × ResponseWriter :=
  handleError fuel w err message status

/-- The closing lines of every handler: encode the response, and report a failure
to encode through `handleError`. -/
def encodeResponse (fuel : Nat) (w : ResponseWriter) (response : Written)
    (calls : List Call) : Run :=
  match w.Encode response with
  | (w, none) => { ending := Ending.returned, w := w, calls := calls }
  | (w, some err) => Run.after (handleError fuel w err "Could not encode response" 500) calls

/-- The panic of dereferencing a nil pointer. -/
def nilDereference : Ending :=
  Ending.panicked "runtime error: invalid memory address or nil pointer dereference"

/-- The panic of indexing past the end of a slice. -/
def indexOutOfRange : Ending :=
  Ending.panicked "runtime error: index out of range"

/-! ## cmd/comment.go -/

/-- The `LinePosition` of comment.go: a position in a line range. -/
structure LinePosition where
  Type_ : String
  OldLine : Int
  NewLine : Int
deriving DecidableEq, Repr

/-- The `LineRange` of comment.go: the two boundaries are pointers. -/
structure LineRange where
  StartRange : Option LinePosition
  EndRange : Option LinePosition
deriving DecidableEq, Repr

/-- The `PostCommentRequest` of comment.go. -/
structure PostCommentRequest where
  Comment : String
  FileName : String
  NewLine : Option Int
  OldLine : Option Int
  HeadCommitSHA : String
  BaseCommitSHA : String
  StartCommitSHA : String
  Type_ : String
  LineRange : Option LineRange
deriving DecidableEq, Repr

/-- The `DeleteCommentRequest` of comment.go. -/
structure DeleteCommentRequest where
  NoteId : Int
  DiscussionId : String
deriving DecidableEq, Repr

/-- The `EditCommentRequest` of comment.go. -/
structure EditCommentRequest where
  Comment : String
  NoteId : Int
  DiscussionId : String
  Resolved : Bool
deriving DecidableEq, Repr

/-- The function `DeleteComment` of comment.go. -/
def DeleteComment (T : ErrorTexts) (fuel : Nat) (c : Client) (d : ProjectInfo)
    (w : ResponseWriter) (r : Request DeleteCommentRequest) : Run :=
  let w := w.SetHeader "Content-Type" "application/json"
  match r.Body with
  | Body.unreadable err => Run.after (HandleError fuel w err "Could not read request body" 400) []
  | Body.malformed err =>
    Run.after (HandleError fuel w err "Could not read JSON from request" 400) []
  | Body.json deleteCommentRequest =>
    let reply := c.DeleteMergeRequestDiscussionNote d.ProjectId d.MergeId
      deleteCommentRequest.DiscussionId deleteCommentRequest.NoteId
    let calls := [Call.DeleteMergeRequestDiscussionNote d.ProjectId d.MergeId
      deleteCommentRequest.DiscussionId deleteCommentRequest.NoteId]
    match reply.err with
    | some err => Run.after (HandleError fuel w err "Could not delete comment" 500) calls
    | none =>
      match reply.res with
      | none => { ending := nilDereference, w := w, calls := calls }
      | some res =>
        if res.StatusCode ≥ 300 then
          Run.after (HandleError fuel w (GenericError T "/comment")
            "Gitlab returned non-200 status" res.StatusCode) calls
        else
          match w.WriteHeader 200 with
          | none => { ending := invalidWriteHeaderCode, w := w, calls := calls }
          | some w =>
            let response : SuccessResponse :=
              { Message := "Comment deleted successfully", Status := 200 }
            encodeResponse fuel w (Written.success response) calls

/-- Lines 129 to 172 of `PostComment`: the options `opt` as these lines leave them,
and whether the lines ran to their end (`false` when computing a line code
dereferences a nil boundary of the line range, after the position was attached). -/
def PostComment.opt (postCommentRequest : PostCommentRequest) :
    CreateMergeRequestDiscussionOptions × Bool :=
  let opt : CreateMergeRequestDiscussionOptions :=
    { Body := some postCommentRequest.Comment, Position := none }
  if postCommentRequest.FileName ≠ "" then
    let position : PositionOptions :=
      { PositionType := some postCommentRequest.Type_,
        StartSHA := some postCommentRequest.StartCommitSHA,
        HeadSHA := some postCommentRequest.HeadCommitSHA,
        BaseSHA := some postCommentRequest.BaseCommitSHA,
        NewPath := some postCommentRequest.FileName,
        OldPath := some postCommentRequest.FileName,
        NewLine := postCommentRequest.NewLine,
        OldLine := postCommentRequest.OldLine,
        LineRange := none }
    let opt := { opt with Position := some position }
    match postCommentRequest.LineRange with
    | none => (opt, true)
    | some lineRange =>
      let format := "%x_%d_%d"
      match lineRange.StartRange with
      | none => (opt, false)
      | some startRange =>
        let start_filename_sha1 := fmt.Sprintf format
          [fmt.Arg.bytes (sha1.Sum (bytesOf postCommentRequest.FileName)),
            fmt.Arg.int startRange.OldLine, fmt.Arg.int startRange.NewLine]
        match lineRange.EndRange with
        | none => (opt, false)
        | some endRange =>
          let end_filename_sha1 := fmt.Sprintf format
            [fmt.Arg.bytes (sha1.Sum (bytesOf postCommentRequest.FileName)),
              fmt.Arg.int endRange.OldLine, fmt.Arg.int endRange.NewLine]
          ({ opt with Position := some { position with
            LineRange := some
              { Start := some { Type_ := some startRange.Type_,
                                LineCode := some start_filename_sha1 },
                End := some { Type_ := some endRange.Type_,
                              LineCode := some end_filename_sha1 } } } }, true)
  else (opt, true)

/-- The function `PostComment` of comment.go. -/
def PostComment (T : ErrorTexts) (fuel : Nat) (c : Client) (d : ProjectInfo)
    (w : ResponseWriter) (r : Request PostCommentRequest) : Run :=
  let w := w.SetHeader "Content-Type" "application/json"
  match r.Body with
  | Body.unreadable err => Run.after (HandleError fuel w err "Could not read request body" 400) []
  | Body.malformed err =>
    Run.after (HandleError fuel w err "Could not unmarshal data from request body" 400) []
  | Body.json postCommentRequest =>
    match PostComment.opt postCommentRequest with
    | (_, false) => { ending := nilDereference, w := w, calls := [] }
    | (opt, true) =>
      let reply := c.CreateMergeRequestDiscussion d.ProjectId d.MergeId opt
      let calls := [Call.CreateMergeRequestDiscussion d.ProjectId d.MergeId opt]
      match reply.err with
      | some err => Run.after (HandleError fuel w err "Could not create comment" 400) calls
      | none =>
        match reply.res with
        | none => { ending := nilDereference, w := w, calls := calls }
        | some res =>
          if res.StatusCode ≥ 300 then
            Run.after (HandleError fuel w (GenericError T "/comment")
              "Gitlab returned non-200 status" res.StatusCode) calls
          else
            match w.WriteHeader 200 with
            | none => { ending := invalidWriteHeaderCode, w := w, calls := calls }
            | some w =>
              match reply.value with
              | none => { ending := nilDereference, w := w, calls := calls }
              | some discussion =>
                match discussion.Notes with
                | [] => { ending := indexOutOfRange, w := w, calls := calls }
                | note :: _ =>
                  let response : CommentResponse :=
                    { Message := "Comment created successfully", Status := 200,
                      Comment := some note, Discussion := some discussion }
                  encodeResponse fuel w (Written.comment response) calls

/-- The function `EditComment` of comment.go. -/
def EditComment (T : ErrorTexts) (fuel : Nat) (c : Client) (d : ProjectInfo)
    (w : ResponseWriter) (r : Request EditCommentRequest) : Run :=
  let w := w.SetHeader "Content-Type" "application/json"
  match r.Body with
  | Body.unreadable err => Run.after (HandleError fuel w err "Could not read request body" 400) []
  | Body.malformed err =>
    Run.after (HandleError fuel w err "Could not unmarshal data from request body" 400) []
  | Body.json editCommentRequest =>
    let options : UpdateMergeRequestDiscussionNoteOptions :=
      { Body := some editCommentRequest.Comment }
    let reply := c.UpdateMergeRequestDiscussionNote d.ProjectId d.MergeId
      editCommentRequest.DiscussionId editCommentRequest.NoteId options
    let calls := [Call.UpdateMergeRequestDiscussionNote d.ProjectId d.MergeId
      editCommentRequest.DiscussionId editCommentRequest.NoteId options]
    match reply.err with
    | some err => Run.after (HandleError fuel w err "Could not update comment" 500) calls
    | none =>
      match reply.res with
      | none => { ending := nilDereference, w := w, calls := calls }
      | some res =>
        if res.StatusCode ≥ 300 then
          Run.after (HandleError fuel w (GenericError T "/comment")
            "Gitlab returned non-200 status" res.StatusCode) calls
        else
          match w.WriteHeader 200 with
          | none => { ending := invalidWriteHeaderCode, w := w, calls := calls }
          | some w =>
            let response : CommentResponse :=
              { Message := "Comment updated successfully", Status := 200,
                Comment := reply.value, Discussion := none }
            encodeResponse fuel w (Written.comment response) calls

/-! ## cmd/app/draft_notes.go -/

/-- Modelled from the spec: the boundary pair of a line range in `PositionData`.
Section 3 (DiffPosition): a line-range boundary pair, each boundary carrying its
own old/new line numbers. -/
structure BoundaryPair where
  StartRange : LinePosition
  EndRange : LinePosition
deriving DecidableEq, Repr

/-- Modelled from the spec: the struct `PositionData`, declared outside the sources
and embedded in `PostDraftNoteRequest`. Section 3 (DiffPosition): file path, three
commit references (base/head/start), a position type tag, and either single old/new
line numbers or a line-range boundary pair. -/
structure PositionData where
  FileName : String
  NewLine : Option Int
  OldLine : Option Int
  HeadCommitSHA : String
  BaseCommitSHA : String
  StartCommitSHA : String
  Type_ : String
  LineRange : Option BoundaryPair
deriving DecidableEq, Repr

/-- The `PostDraftNoteRequest` of draft_notes.go. -/
structure PostDraftNoteRequest extends PositionData where
  Comment : String
  DiscussionId : String
deriving DecidableEq, Repr

/-- The `UpdateDraftNoteRequest` of draft_notes.go. -/
structure UpdateDraftNoteRequest where
  Note : String
  Position : PositionOptions
deriving DecidableEq, Repr

/-- The `DraftNoteWithPosition` of draft_notes.go. -/
structure DraftNoteWithPosition where
  PositionData : PositionData
deriving DecidableEq, Repr

/-- The method `GetPositionData` of `DraftNoteWithPosition`. -/
def DraftNoteWithPosition.GetPositionData (draftNote : DraftNoteWithPosition) :
    Gitlab.PositionData :=
  draftNote.PositionData

/-- Modelled from the spec: the function `buildCommentPosition`, declared outside
the sources. Section 4.6: a single-line position is described by the file path, the
three commit references and the old/new line numbers; in a range each of the two
boundaries carries a line code, the hash of the file path formatted with that
boundary's old and new line in the template hex-hash, underscore, old-line,
underscore, new-line. -/
def buildCommentPosition (commentWithPositionData : DraftNoteWithPosition) : PositionOptions :=
  let positionData := commentWithPositionData.GetPositionData
  { PositionType := some positionData.Type_,
    StartSHA := some positionData.StartCommitSHA,
    HeadSHA := some positionData.HeadCommitSHA,
    BaseSHA := some positionData.BaseCommitSHA,
    NewPath := some positionData.FileName,
    OldPath := some positionData.FileName,
    NewLine := positionData.NewLine,
    OldLine := positionData.OldLine,
    LineRange := positionData.LineRange.map (fun lineRange =>
      { Start := some
          { Type_ := some lineRange.StartRange.Type_,
            LineCode := some (fmt.Sprintf "%x_%d_%d"
              [fmt.Arg.bytes (sha1.Sum (bytesOf positionData.FileName)),
                fmt.Arg.int lineRange.StartRange.OldLine,
                fmt.Arg.int lineRange.StartRange.NewLine]) },
        End := some
          { Type_ := some lineRange.EndRange.Type_,
            LineCode := some (fmt.Sprintf "%x_%d_%d"
              [fmt.Arg.bytes (sha1.Sum (bytesOf positionData.FileName)),
                fmt.Arg.int lineRange.EndRange.OldLine,
                fmt.Arg.int lineRange.EndRange.NewLine]) } }) }

/-- The method `listDraftNotes` of `draftNoteService`. -/
def listDraftNotes {α : Type} (T : ErrorTexts) (fuel : Nat) (c : Client) (d : ProjectInfo)
    (w : ResponseWriter) (_ : Request α) : Run :=
  let opt : ListDraftNotesOptions := {}
  let reply := c.ListDraftNotes d.ProjectId d.MergeId opt
  let calls := [Call.ListDraftNotes d.ProjectId d.MergeId opt]
  match reply.err with
  | some err => Run.after (handleError fuel w err "Could not get draft notes" 500) calls
  | none =>
    match reply.res with
    | none => { ending := nilDereference, w := w, calls := calls }
    | some res =>
      if res.StatusCode ≥ 300 then
        Run.after (handleError fuel w (GenericError T "/mr/draft_notes/")
          "Could not get draft notes" res.StatusCode) calls
      else
        match w.WriteHeader 200 with
        | none => { ending := invalidWriteHeaderCode, w := w, calls := calls }
        | some w =>
          let response : ListDraftNotesResponse :=
            { Message := "Draft notes fetched successfully", Status := 200,
              DraftNotes := reply.value }
          encodeResponse fuel w (Written.listDraftNotes response) calls

/-- Lines 132 to 144 of `postDraftNote`: the options sent upstream. -/
def postDraftNote.opt (postDraftNoteRequest : PostDraftNoteRequest) : CreateDraftNoteOptions :=
  let opt : CreateDraftNoteOptions :=
    { Note := some postDraftNoteRequest.Comment, InReplyToDiscussionID := none,
      Position := none }
  let opt := if postDraftNoteRequest.DiscussionId ≠ "" then
      { opt with InReplyToDiscussionID := some postDraftNoteRequest.DiscussionId }
    else opt
  if postDraftNoteRequest.FileName ≠ "" then
    let draftNoteWithPosition : DraftNoteWithPosition :=
      { PositionData := postDraftNoteRequest.toPositionData }
    { opt with Position := some (buildCommentPosition draftNoteWithPosition) }
  else opt

/-- The method `postDraftNote` of `draftNoteService`. -/
def postDraftNote (T : ErrorTexts) (fuel : Nat) (c : Client) (d : ProjectInfo)
    (w : ResponseWriter) (r : Request PostDraftNoteRequest) : Run :=
  match r.Body with
  | Body.unreadable err => Run.after (handleError fuel w err "Could not read request body" 400) []
  | Body.malformed err =>
    Run.after (handleError fuel w err "Could not unmarshal data from request body" 400) []
  | Body.json postDraftNoteRequest =>
    let opt := postDraftNote.opt postDraftNoteRequest
    let reply := c.CreateDraftNote d.ProjectId d.MergeId opt
    let calls := [Call.CreateDraftNote d.ProjectId d.MergeId opt]
    match reply.err with
    | some err => Run.after (handleError fuel w err "Could not create draft note" 500) calls
    | none =>
      match reply.res with
      | none => { ending := nilDereference, w := w, calls := calls }
      | some res =>
        if res.StatusCode ≥ 300 then
          Run.after (handleError fuel w (GenericError T "/mr/draft_notes/")
            "Could not create draft note" res.StatusCode) calls
        else
          match w.WriteHeader 200 with
          | none => { ending := invalidWriteHeaderCode, w := w, calls := calls }
          | some w =>
            let response : DraftNoteResponse :=
              { Message := "Draft note created successfully", Status := 200,
                DraftNote := reply.value }
            encodeResponse fuel w (Written.draftNote response) calls

/-- The method `deleteDraftNote` of `draftNoteService`. -/
def deleteDraftNote {α : Type} (T : ErrorTexts) (fuel : Nat) (c : Client) (d : ProjectInfo)
    (w : ResponseWriter) (r : Request α) : Run :=
  let suffix := strings.TrimPrefix r.Path "/mr/draft_notes/"
  match strconv.Atoi T suffix with
  | Except.error err => Run.after (handleError fuel w err "Could not parse draft note ID" 400) []
  | Except.ok id =>
    let reply := c.DeleteDraftNote d.ProjectId d.MergeId id
    let calls := [Call.DeleteDraftNote d.ProjectId d.MergeId id]
    match reply.err with
    | some err => Run.after (handleError fuel w err "Could not delete draft note" 500) calls
    | none =>
      match reply.res with
      | none => { ending := nilDereference, w := w, calls := calls }
      | some res =>
        if res.StatusCode ≥ 300 then
          Run.after (handleError fuel w
            (GenericError T (fmt.Sprintf "/mr/draft_notes/%d" [fmt.Arg.int id]))
            "Could not delete draft note" res.StatusCode) calls
        else
          match w.WriteHeader 200 with
          | none => { ending := invalidWriteHeaderCode, w := w, calls := calls }
          | some w =>
            let response : SuccessResponse := { Message := "Draft note deleted", Status := 200 }
            encodeResponse fuel w (Written.success response) calls

/-- The method `updateDraftNote` of `draftNoteService`. -/
def updateDraftNote (T : ErrorTexts) (fuel : Nat) (c : Client) (d : ProjectInfo)
    (w : ResponseWriter) (r : Request UpdateDraftNoteRequest) : Run :=
  let suffix := strings.TrimPrefix r.Path "/mr/draft_notes/"
  match strconv.Atoi T suffix with
  | Except.error err => Run.after (handleError fuel w err "Could not parse draft note ID" 400) []
  | Except.ok id =>
    match r.Body with
    | Body.unreadable err =>
      Run.after (handleError fuel w err "Could not read request body" 400) []
    | Body.malformed err =>
      Run.after (handleError fuel w err "Could not unmarshal data from request body" 400) []
    | Body.json updateDraftNoteRequest =>
      if updateDraftNoteRequest.Note = "" then
        Run.after (handleError fuel w (errors.New "Draft note text missing")
          "Must provide draft note text" 400) []
      else
        let opt : UpdateDraftNoteOptions :=
          { Note := some updateDraftNoteRequest.Note,
            Position := some updateDraftNoteRequest.Position }
        let reply := c.UpdateDraftNote d.ProjectId d.MergeId id opt
        let calls := [Call.UpdateDraftNote d.ProjectId d.MergeId id opt]
        match reply.err with
        | some err => Run.after (handleError fuel w err "Could not update draft note" 500) calls
        | none =>
          match reply.res with
          | none => { ending := nilDereference, w := w, calls := calls }
          | some res =>
            if res.StatusCode ≥ 300 then
              Run.after (handleError fuel w
                (GenericError T (fmt.Sprintf "/mr/draft_notes/%d" [fmt.Arg.int id]))
                "Could not update draft note" res.StatusCode) calls
            else
              match w.WriteHeader 200 with
              | none => { ending := invalidWriteHeaderCode, w := w, calls := calls }
              | some w =>
                let response : DraftNoteResponse :=
                  { Message := "Draft note updated", Status := 200, DraftNote := reply.value }
                encodeResponse fuel w (Written.draftNote response) calls

/-! ## cmd/app/merge_requests.go -/

/-- The method `ServeHTTP` of `mergeRequestListerService`. -/
def mergeRequestListerService.ServeHTTP (T : ErrorTexts) (fuel : Nat) (c : Client)
    (d : ProjectInfo) (w : ResponseWriter) (r : Request ListProjectMergeRequestsOptions) : Run :=
  let w := w.SetHeader "Content-Type" "application/json"
  if r.Method ≠ "POST" then
    let w := w.SetHeader "Access-Control-Allow-Methods" "POST"
    Run.after (handleError fuel w (InvalidRequestError T) "Expected POST" 405) []
  else
    match r.Body with
    | Body.unreadable err =>
      Run.after (handleError fuel w err "Could not read request body" 400) []
    | Body.malformed err =>
      Run.after (handleError fuel w err "Could not read JSON from request" 400) []
    | Body.json listMergeRequestRequest =>
      let listMergeRequestRequest := if listMergeRequestRequest.State = none then
          { listMergeRequestRequest with State := some "opened" }
        else listMergeRequestRequest
      let listMergeRequestRequest := if listMergeRequestRequest.Scope = none then
          { listMergeRequestRequest with Scope := some "all" }
        else listMergeRequestRequest
      let reply := c.ListProjectMergeRequests d.ProjectId listMergeRequestRequest
      let calls := [Call.ListProjectMergeRequests d.ProjectId listMergeRequestRequest]
      match reply.err with
      | some err => Run.after (handleError fuel w err "Failed to list merge requests" 500) calls
      | none =>
        match reply.res with
        | none => { ending := nilDereference, w := w, calls := calls }
        | some res =>
          if res.StatusCode ≥ 300 then
            Run.after (handleError fuel w (GenericError T "/merge_requests")
              "Failed to list merge requests" res.StatusCode) calls
          else if reply.value.length = 0 then
            Run.after (handleError fuel w (errors.New "No merge requests found")
              "No merge requests found" 404) calls
          else
            match w.WriteHeader 200 with
            | none => { ending := invalidWriteHeaderCode, w := w, calls := calls }
            | some w =>
              let response : ListMergeRequestResponse :=
                { Message := "Merge requests fetched successfully", Status := 0,
                  MergeRequests := reply.value }
              encodeResponse fuel w (Written.listMergeRequest response) calls

/-! ## cmd/job.go -/

/-- The `JobTraceRequest` of job.go. -/
structure JobTraceRequest where
  JobId : Int
deriving DecidableEq, Repr

/-- The method `jobHandler` of `api`. -/
def jobHandler (T : ErrorTexts) (fuel : Nat) (c : Client) (d : ProjectInfo)
    (w : ResponseWriter) (r : Request JobTraceRequest) : Run :=
  let w := w.SetHeader "Content-Type" "application/json"
  if r.Method ≠ "GET" then
    let w := w.SetHeader "Access-Control-Allow-Methods" "GET"
    Run.after (handleError fuel w (InvalidRequestError T) "Expected GET" 405) []
  else
    match r.Body with
    | Body.unreadable err =>
      Run.after (handleError fuel w err "Could not read request body" 400) []
    | Body.malformed err =>
      Run.after (handleError fuel w err "Could not unmarshal data from request body" 400) []
    | Body.json jobTraceRequest =>
      let reply := c.GetTraceFile d.ProjectId jobTraceRequest.JobId
      let calls := [Call.GetTraceFile d.ProjectId jobTraceRequest.JobId]
      match reply.err with
      | some err =>
        Run.after (handleError fuel w err "Could not get trace file for job" 500) calls
      | none =>
        match reply.res with
        | none => { ending := nilDereference, w := w, calls := calls }
        | some res =>
          if res.StatusCode ≥ 300 then
            Run.after (handleError fuel w (GenericError T "/job")
              "Could not get trace file for job" res.StatusCode) calls
          else
            match reply.value with
            | none => { ending := nilDereference, w := w, calls := calls }
            | some (Reader.failing err) =>
              Run.after (handleError fuel w err "Could not read job trace file" 400) calls
            | some (Reader.contents file) =>
              let response : JobTraceResponse :=
                { Status := 200, Message := "Log file read", File := file }
              encodeResponse fuel w (Written.jobTrace response) calls

/-! ## cmd/reviewer.go -/

/-- The `ReviewerUpdateRequest` of reviewer.go. -/
structure ReviewerUpdateRequest where
  Ids : List Int
deriving DecidableEq, Repr

/-- The method `reviewersHandler` of `api`. -/
def reviewersHandler (T : ErrorTexts) (fuel : Nat) (c : Client) (d : ProjectInfo)
    (w : ResponseWriter) (r : Request ReviewerUpdateRequest) : Run :=
  let w := w.SetHeader "Content-Type" "application/json"
  if r.Method ≠ "PUT" then
    let w := w.SetHeader "Access-Control-Allow-Methods" "PUT"
    Run.after (handleError fuel w (InvalidRequestError T) "Expected PUT" 405) []
  else
    match r.Body with
    | Body.unreadable err =>
      Run.after (handleError fuel w err "Could not read request body" 400) []
    | Body.malformed err =>
      Run.after (handleError fuel w err "Could not read JSON from request" 400) []
    | Body.json reviewerUpdateRequest =>
      let opt : UpdateMergeRequestOptions := { ReviewerIDs := some reviewerUpdateRequest.Ids }
      let reply := c.UpdateMergeRequest d.ProjectId d.MergeId opt
      let calls := [Call.UpdateMergeRequest d.ProjectId d.MergeId opt]
      match reply.err with
      | some err =>
        Run.after (handleError fuel w err "Could not modify merge request reviewers" 500) calls
      | none =>
        match reply.res with
        | none => { ending := nilDereference, w := w, calls := calls }
        | some res =>
          if res.StatusCode ≥ 300 then
            Run.after (handleError fuel w (GenericError T "/mr/reviewer")
              "Could not modify merge request reviewers" res.StatusCode) calls
          else
            match w.WriteHeader 200 with
            | none => { ending := invalidWriteHeaderCode, w := w, calls := calls }
            | some w =>
              match reply.value with
              | none => { ending := nilDereference, w := w, calls := calls }
              | some mr =>
                let response : ReviewerUpdateResponse :=
                  { Message := "Reviewers updated", Status := 200, Reviewers := mr.Reviewers }
                encodeResponse fuel w (Written.reviewerUpdate response) calls

/-! ## cmd/revisions.go -/

/-- The method `revisionsHandler` of `api`. -/
def revisionsHandler {α : Type} (T : ErrorTexts) (fuel : Nat) (c : Client) (d : ProjectInfo)
    (w : ResponseWriter) (r : Request α) : Run :=
  let w := w.SetHeader "Content-Type" "application/json"
  if r.Method ≠ "GET" then
    let w := w.SetHeader "Access-Control-Allow-Methods" "GET"
    Run.after (handleError fuel w (InvalidRequestError T) "Expected GET" 405) []
  else
    let opt : GetMergeRequestDiffVersionsOptions := {}
    let reply := c.GetMergeRequestDiffVersions d.ProjectId d.MergeId opt
    let calls := [Call.GetMergeRequestDiffVersions d.ProjectId d.MergeId opt]
    match reply.err with
    | some err => Run.after (handleError fuel w err "Could not get diff version info" 500) calls
    | none =>
      match reply.res with
      | none => { ending := nilDereference, w := w, calls := calls }
      | some res =>
        if res.StatusCode ≥ 300 then
          Run.after (handleError fuel w (GenericError T "/mr/revisions")
            "Could not get diff version info" res.StatusCode) calls
        else
          match w.WriteHeader 200 with
          | none => { ending := invalidWriteHeaderCode, w := w, calls := calls }
          | some w =>
            let response : RevisionsResponse :=
              { Message := "Revisions fetched successfully", Status := 200,
                Revisions := reply.value }
            encodeResponse fuel w (Written.revisions response) calls

/-! ## Test doubles, after the fakes of comment_test.go and merge_mr_test.go -/

/-- The error texts used where a concrete run is evaluated. -/
def testTexts : ErrorTexts :=
  { genericError := fun endpoint => "An error occured on the " ++ endpoint ++ " endpoint",
    invalidRequestError := "Invalid request type",
    atoiSyntax := fun s => "strconv.Atoi: parsing \"" ++ s ++ "\": invalid syntax",
    atoiRange := fun s => "strconv.Atoi: parsing \"" ++ s ++ "\": value out of range" }

/-- A reply with the zero value, the given status code and no error. -/
def replyStatus {α : Type} (value : α) (status : Int) : Reply α :=
  { value := value, res := some { StatusCode := status }, err := none }

/-- A reply that is a transport error: no value, no response. -/
def replyErr {α : Type} (value : α) (err : GoError) : Reply α :=
  { value := value, res := none, err := some err }

/-- A client every operation of which succeeds with status 200, as the fakes of the
tests do (`createMergeRequestDiscussion` returns a discussion with one note). -/
def fakeClient : Client :=
  { CreateMergeRequestDiscussion := fun _ _ _ =>
      replyStatus (some { ID := "", Notes := [{ ID := 0 }] }) 200,
    DeleteMergeRequestDiscussionNote := fun _ _ _ _ => replyStatus () 200,
    UpdateMergeRequestDiscussionNote := fun _ _ _ _ _ => replyStatus (some { ID := 0 }) 200,
    ListDraftNotes := fun _ _ _ => replyStatus [] 200,
    CreateDraftNote := fun _ _ _ => replyStatus (some { ID := 0, Note := "" }) 200,
    DeleteDraftNote := fun _ _ _ => replyStatus () 200,
    UpdateDraftNote := fun _ _ _ _ => replyStatus (some { ID := 0, Note := "" }) 200,
    ListProjectMergeRequests := fun _ _ =>
      replyStatus [{ IID := 1, SourceBranch := "", Reviewers := [] }] 200,
    GetTraceFile := fun _ _ => replyStatus (some (Reader.contents "")) 200,
    UpdateMergeRequest := fun _ _ _ =>
      replyStatus (some { IID := 1, SourceBranch := "", Reviewers := [] }) 200,
    GetMergeRequestDiffVersions := fun _ _ _ => replyStatus [] 200 }

/-- A client every operation of which answers with the given status code and no
value, as the `Non200` fakes of the tests do. -/
def fakeClientStatus (status : Int) : Client :=
  { CreateMergeRequestDiscussion := fun _ _ _ => replyStatus none status,
    DeleteMergeRequestDiscussionNote := fun _ _ _ _ => replyStatus () status,
    UpdateMergeRequestDiscussionNote := fun _ _ _ _ _ => replyStatus none status,
    ListDraftNotes := fun _ _ _ => replyStatus [] status,
    CreateDraftNote := fun _ _ _ => replyStatus none status,
    DeleteDraftNote := fun _ _ _ => replyStatus () status,
    UpdateDraftNote := fun _ _ _ _ => replyStatus none status,
    ListProjectMergeRequests := fun _ _ => replyStatus [] status,
    GetTraceFile := fun _ _ => replyStatus none status,
    UpdateMergeRequest := fun _ _ _ => replyStatus none status,
    GetMergeRequestDiffVersions := fun _ _ _ => replyStatus [] status }

/-- A client every operation of which fails with the given error, as the `Err`
fakes of the tests do. -/
def fakeClientErr (err : GoError) : Client :=
  { CreateMergeRequestDiscussion := fun _ _ _ => replyErr none err,
    DeleteMergeRequestDiscussionNote := fun _ _ _ _ => replyErr () err,
    UpdateMergeRequestDiscussionNote := fun _ _ _ _ _ => replyErr none err,
    ListDraftNotes := fun _ _ _ => replyErr [] err,
    CreateDraftNote := fun _ _ _ => replyErr none err,
    DeleteDraftNote := fun _ _ _ => replyErr () err,
    UpdateDraftNote := fun _ _ _ _ => replyErr none err,
    ListProjectMergeRequests := fun _ _ => replyErr [] err,
    GetTraceFile := fun _ _ => replyErr none err,
    UpdateMergeRequest := fun _ _ _ => replyErr none err,
    GetMergeRequestDiffVersions := fun _ _ _ => replyErr [] err }

/-- The project of the test runs. -/
def testProject : ProjectInfo := { ProjectId := "1", MergeId := 2 }

/-- The zero value `PostCommentRequest{}`. -/
def emptyPostCommentRequest : PostCommentRequest :=
  { Comment := "", FileName := "", NewLine := none, OldLine := none, HeadCommitSHA := "",
    BaseCommitSHA := "", StartCommitSHA := "", Type_ := "", LineRange := none }

/-- The zero value `gitlab.PositionOptions{}`. -/
def emptyPositionOptions : PositionOptions :=
  { BaseSHA := none, HeadSHA := none, StartSHA := none, NewPath := none, OldPath := none,
    PositionType := none, NewLine := none, OldLine := none, LineRange := none }

/-- The zero value `PostDraftNoteRequest{}`. -/
def emptyPostDraftNoteRequest : PostDraftNoteRequest :=
  { Comment := "", DiscussionId := "", FileName := "", NewLine := none, OldLine := none,
    HeadCommitSHA := "", BaseCommitSHA := "", StartCommitSHA := "", Type_ := "",
    LineRange := none }

/-- The zero value `LinePosition{}`. -/
def emptyLinePosition : LinePosition := { Type_ := "", OldLine := 0, NewLine := 0 }

/-! ## Predicates on replies and runs -/

/-- The upstream call returned no error and a response with status code `s`. -/
def Reply.answered {α : Type} (reply : Reply α) (s : Int) : Prop :=
  reply.err = none ∧ reply.res = some { StatusCode := s }

instance {α : Type} (reply : Reply α) (s : Int) : Decidable (reply.answered s) := by
  unfold Reply.answered
  infer_instance

/-- The run of a handler, started on the writer `w`, that reports an upstream
status `s`: it returned after one upstream call, the status of the response is `s`,
and the one value written is the failure envelope with the given message, the text
of the `GenericError` tagged `endpoint` for details, and status `s`. -/
def Run.reportsStatus (run : Run) (T : ErrorTexts) (w : ResponseWriter)
    (endpoint message : String) (s : Int) : Prop :=
  run.ending = Ending.returned ∧ run.calls.length = 1 ∧ run.w.status = some s ∧
    run.w.body = w.body ++
      [Written.error
        { Message := message, Details := (GenericError T endpoint).Error, Status := s }]

instance (run : Run) (T : ErrorTexts) (w : ResponseWriter) (endpoint message : String)
    (s : Int) : Decidable (run.reportsStatus T w endpoint message s) := by
  unfold Run.reportsStatus
  infer_instance

/-! ## Handlers chosen by the method of the request -/

/-- The request as a handler sees it that decodes the body, once read, with
`decode`. -/
def Request.view {α β : Type} (r : Request α) (decode : α → Gitlab.Body β) : Request β :=
  { Method := r.Method, Path := r.Path,
    Body := match r.Body with
      | Gitlab.Body.unreadable err => Gitlab.Body.unreadable err
      | Gitlab.Body.malformed err => Gitlab.Body.malformed err
      | Gitlab.Body.json v => decode v }

/-- The body of a request to the comment endpoint, as each of its three handlers
decodes it. -/
structure CommentBodies where
  post : Body PostCommentRequest
  delete : Body DeleteCommentRequest
  edit : Body EditCommentRequest
deriving DecidableEq, Repr

/-- The function `CommentHandler` of comment.go. -/
def CommentHandler (T : ErrorTexts) (fuel : Nat) (c : Client) (d : ProjectInfo)
    (w : ResponseWriter) (r : Request CommentBodies) : Run :=
  if r.Method = "DELETE" then DeleteComment T fuel c d w (r.view CommentBodies.delete)
  else if r.Method = "POST" then PostComment T fuel c d w (r.view CommentBodies.post)
  else if r.Method = "PATCH" then EditComment T fuel c d w (r.view CommentBodies.edit)
  else
    match w.WriteHeader 405 with
    | none => { ending := invalidWriteHeaderCode, w := w, calls := [] }
    | some w => { ending := Ending.returned, w := w, calls := [] }

/-- The body of a request to the draft-note endpoint, as the two handlers that read
it decode it. -/
structure DraftNoteBodies where
  post : Body PostDraftNoteRequest
  update : Body UpdateDraftNoteRequest
deriving DecidableEq, Repr

/-- The method `ServeHTTP` of `draftNoteService`. -/
def draftNoteService.ServeHTTP (T : ErrorTexts) (fuel : Nat) (c : Client) (d : ProjectInfo)
    (w : ResponseWriter) (r : Request DraftNoteBodies) : Run :=
  let w := w.SetHeader "Content-Type" "application/json"
  if r.Method = "GET" then listDraftNotes T fuel c d w r
  else if r.Method = "POST" then postDraftNote T fuel c d w (r.view DraftNoteBodies.post)
  else if r.Method = "PATCH" then updateDraftNote T fuel c d w (r.view DraftNoteBodies.update)
  else if r.Method = "DELETE" then deleteDraftNote T fuel c d w r
  else
    let w := w.SetHeader "Access-Control-Allow-Methods"
      (fmt.Sprintf "%s, %s, %s, %s"
        [fmt.Arg.str "DELETE", fmt.Arg.str "POST", fmt.Arg.str "PATCH", fmt.Arg.str "GET"])
    Run.after (handleError fuel w (InvalidRequestError T)
      "Expected DELETE, GET, POST or PATCH" 405) []

/-! ## The middleware chain

`middleware` and the stages `withMr`, `withMethodCheck`, `withPayloadValidation` and
`withLogging` are called by `CreateRouter` (server.go) and by the tests, and are
declared outside the sources. -/

/-- A handler of a chain: it runs on the project information of the shared context,
the response writer and the request. -/
abbrev Handler (α : Type) := ProjectInfo → ResponseWriter → Request α → Run

/-- The run of a stage that made the calls `calls` and then ran its next handler. -/
def Run.precededBy (run : Run) (calls : List Call) : Run :=
  { run with calls := calls ++ run.calls }

/-- Modelled from the spec: the function `middleware`, declared outside the sources.
Section 4.1: it accepts a terminal handler and an ordered list of stage constructors
and returns a single composed handler; section 3 (Chain): execution order is the
reverse of declaration order, the stage declared first runs closest to the terminal
handler. -/
def middleware {H : Type} (h : H) (middlewares : List (H → H)) : H :=
  middlewares.foldl (fun h mw => mw h) h

/-- Modelled from the spec: the stage `withLogging`, declared outside the sources.
Section 4.1: a logging stage writes records around the inner call and must not
swallow or alter what the inner handlers produce; the log sink is outside the
model, so the stage is its next handler. -/
def withLogging {α : Type} (next : Handler α) : Handler α :=
  fun d w r => next d w r

/-- Modelled from the spec: the stage `withMethodCheck`, declared outside the
sources. Section 4.2: given the set of allowed methods, it rejects any other method
with a "method not allowed" response before the body is read, and the response
advertises the allowed methods. The texts are those resolve_discussion_test.go
expects (`Invalid request type`, `Expected: GET`). -/
def withMethodCheck {α : Type} (fuel : Nat) (methods : List String) (next : Handler α) :
    Handler α :=
  fun d w r =>
    if r.Method ∈ methods then next d w r
    else
      let w := w.SetHeader "Access-Control-Allow-Methods" (", ".intercalate methods)
      Run.after (handleError fuel w (errors.New ("Expected: " ++ ", ".intercalate methods))
        "Invalid request type" 405) []

/-- Modelled from the spec: the shape registered for a method in `methodToPayload`,
as far as the structural check goes: the required field of a decoded payload that is
empty, if there is one. -/
abbrev PayloadShape (α : Type) := α → Option String

/-- Modelled from the spec: the stage `withPayloadValidation`, declared outside the
sources. Section 4.2: it decodes the body against the shape registered for the
method of the request; when the method has no registered shape, validation is
skipped; a decoding failure is reported as "invalid payload" with the underlying
error; an empty required field is raised as the same "invalid payload" with a
field-specific message. The texts are those resolve_discussion_test.go expects
(`Invalid payload`, `DiscussionID is required`, status 400). -/
def withPayloadValidation {α : Type} (fuel : Nat)
    (methodToPayload : List (String × PayloadShape α)) (next : Handler α) : Handler α :=
  fun d w r =>
    match methodToPayload.lookup r.Method with
    | none => next d w r
    | some shape =>
      match r.Body with
      | Body.unreadable err => Run.after (handleError fuel w err "Invalid payload" 400) []
      | Body.malformed err => Run.after (handleError fuel w err "Invalid payload" 400) []
      | Body.json payload =>
        match shape payload with
        | some field =>
          Run.after (handleError fuel w (errors.New (field ++ " is required"))
            "Invalid payload" 400) []
        | none => next d w r

/-- Modelled from the spec: the local git metadata `git.GitData`, declared outside
the sources; of it the chain uses the name of the local branch. -/
structure GitData where
  BranchName : String
deriving DecidableEq, Repr

/-- Modelled from the spec: the query by which `withMr` lists the open merge
requests of the project (section 4.3: "list open changes for this project"), with
the state and scope `mergeRequestListerService.ServeHTTP` defaults to. -/
def withMr.options : ListProjectMergeRequestsOptions :=
  { State := some "opened", Scope := some "all" }

/-- Modelled from the spec: the stage `withMr`, declared outside the sources.
Section 4.3: if the merge-request identifier of the context is not already pinned
(it is the zero value of `ProjectInfo.MergeId`), the stage queries the upstream for
the open merge requests of the project and selects the entry whose source branch is
the locally known branch; if no entry matches it fails with a "not found" condition;
if the upstream call fails or returns a non-success status it propagates that as an
upstream error; otherwise the next handler runs and sees the identifier. The
messages are those of `mergeRequestListerService.ServeHTTP` (merge_requests.go) for
the same three conditions. -/
def withMr {α : Type} (T : ErrorTexts) (fuel : Nat) (gitInfo : GitData) (c : Client)
    (next : Handler α) : Handler α :=
  fun d w r =>
    if d.MergeId ≠ 0 then next d w r
    else
      let reply := c.ListProjectMergeRequests d.ProjectId withMr.options
      let calls := [Call.ListProjectMergeRequests d.ProjectId withMr.options]
      match reply.err with
      | some err => Run.after (handleError fuel w err "Failed to list merge requests" 500) calls
      | none =>
        match reply.res with
        | none => { ending := nilDereference, w := w, calls := calls }
        | some res =>
          if res.StatusCode ≥ 300 then
            Run.after (handleError fuel w (GenericError T r.Path)
              "Failed to list merge requests" res.StatusCode) calls
          else
            match reply.value.find? (fun mr => mr.SourceBranch = gitInfo.BranchName) with
            | none =>
              Run.after (handleError fuel w (errors.New "No merge requests found")
                "No merge requests found" 404) calls
            | some mr => (next { d with MergeId := mr.IID } w r).precededBy calls

/-- Modelled from the spec: the `DiscussionResolveRequest` that
resolve_discussion_test.go sends, declared outside the sources. -/
structure DiscussionResolveRequest where
  DiscussionID : String
  Resolved : Bool
deriving DecidableEq, Repr

/-- Modelled from the spec: the structural check of a `DiscussionResolveRequest`
(section 4.2: a required identifier field being empty); the test
`Requires a discussion ID` names the field `DiscussionID`. -/
def DiscussionResolveRequest.shape : PayloadShape DiscussionResolveRequest :=
  fun payload => if payload.DiscussionID = "" then some "DiscussionID" else none

/-! ## Recording handlers, to observe the order in which a chain runs -/

/-- A handler that records names: it maps the names recorded so far to the names
recorded when it is done. -/
abbrev Recorder := List String → List String

/-- A terminal handler that records its name. -/
def Recorder.terminal (name : String) : Recorder :=
  fun log => log ++ [name]

/-- A stage that records its name and calls its next handler. -/
def Recorder.pass (name : String) (next : Recorder) : Recorder :=
  fun log => next (log ++ [name])

/-- A stage that records its name and answers without calling its next handler. -/
def Recorder.stop (name : String) (_ : Recorder) : Recorder :=
  fun log => log ++ [name]

/-! ## cmd/app/server.go -/

/-- A stage of a chain, as `CreateRouter` declares it: for the two validation stages
the methods they are given (for `withPayloadValidation` with the request type
registered for each). -/
inductive Stage
  | withMr
  | withPayloadValidation (methodToPayload : List (String × String))
  | withMethodCheck (methods : List String)
  | withLogging
deriving DecidableEq, Repr

/-- What `CreateRouter` registers for a pattern: a service wrapped by `middleware`
in the stages listed in the order of declaration, or a handler function registered
as it is. -/
inductive Registration
  | chain (service : String) (stages : List Stage)
  | direct (handler : String)
deriving DecidableEq, Repr

/-- The routes of `CreateRouter`, in the order of registration (server.go, lines 94
to 239). -/
def CreateRouter.routes : List (String × Registration) :=
  [ ("/mr/approve", Registration.chain "mergeRequestApproverService"
      [Stage.withMr, Stage.withMethodCheck ["POST"], Stage.withLogging]),
    ("/mr/comment", Registration.chain "commentService"
      [Stage.withMr,
        Stage.withPayloadValidation [("POST", "PostCommentRequest"),
          ("DELETE", "DeleteCommentRequest"), ("PATCH", "EditCommentRequest")],
        Stage.withMethodCheck ["POST", "DELETE", "PATCH"], Stage.withLogging]),
    ("/mr/merge", Registration.chain "mergeRequestAccepterService"
      [Stage.withMr, Stage.withPayloadValidation [("POST", "AcceptMergeRequestRequest")],
        Stage.withMethodCheck ["POST"], Stage.withLogging]),
    ("/mr/discussions/list", Registration.chain "discussionsListerService"
      [Stage.withPayloadValidation [("POST", "DiscussionsRequest")],
        Stage.withMethodCheck ["POST"], Stage.withMr, Stage.withLogging]),
    ("/mr/discussions/resolve", Registration.chain "discussionsResolutionService"
      [Stage.withMr, Stage.withPayloadValidation [("PUT", "DiscussionResolveRequest")],
        Stage.withMethodCheck ["PUT"], Stage.withLogging]),
    ("/mr/info", Registration.chain "infoService"
      [Stage.withMr, Stage.withMethodCheck ["GET"], Stage.withLogging]),
    ("/mr/assignee", Registration.chain "assigneesService"
      [Stage.withMr, Stage.withPayloadValidation [("PUT", "AssigneeUpdateRequest")],
        Stage.withMethodCheck ["PUT"], Stage.withLogging]),
    ("/mr/summary", Registration.chain "summaryService" [Stage.withMr, Stage.withLogging]),
    ("/mr/reviewer", Registration.chain "reviewerService" [Stage.withMr, Stage.withLogging]),
    ("/mr/revisions", Registration.chain "revisionsService" [Stage.withMr, Stage.withLogging]),
    ("/mr/reply", Registration.chain "replyService" [Stage.withMr, Stage.withLogging]),
    ("/mr/label", Registration.chain "labelService" [Stage.withMr, Stage.withLogging]),
    ("/mr/revoke", Registration.chain "mergeRequestRevokerService"
      [Stage.withMr, Stage.withLogging]),
    ("/mr/awardable/note/", Registration.chain "emojiService"
      [Stage.withMr, Stage.withLogging]),
    ("/mr/draft_notes/", Registration.chain "draftNoteService"
      [Stage.withMr,
        Stage.withPayloadValidation [("POST", "PostDraftNoteRequest"),
          ("PATCH", "UpdateDraftNoteRequest")],
        Stage.withMethodCheck ["GET", "POST", "PATCH", "DELETE"], Stage.withLogging]),
    ("/mr/draft_notes/publish", Registration.chain "draftNotePublisherService"
      [Stage.withMr, Stage.withPayloadValidation [("POST", "DraftNotePublishRequest")],
        Stage.withMethodCheck ["POST"], Stage.withLogging]),
    ("/pipeline", Registration.chain "pipelineService" [Stage.withLogging]),
    ("/pipeline/trigger/", Registration.chain "pipelineService" [Stage.withLogging]),
    ("/users/me", Registration.chain "meService" [Stage.withLogging]),
    ("/attachment", Registration.chain "attachmentService"
      [Stage.withPayloadValidation [("POST", "AttachmentRequest")],
        Stage.withMethodCheck ["POST"], Stage.withLogging]),
    ("/create_mr", Registration.chain "mergeRequestCreatorService"
      [Stage.withPayloadValidation [("POST", "CreateMrRequest")],
        Stage.withMethodCheck ["POST"], Stage.withLogging]),
    ("/job", Registration.chain "traceFileService" [Stage.withLogging]),
    ("/project/members", Registration.chain "projectMemberService" [Stage.withLogging]),
    ("/merge_requests", Registration.chain "mergeRequestListerService" [Stage.withLogging]),
    ("/merge_requests_by_username", Registration.chain "mergeRequestListerByUsernameService"
      [Stage.withLogging]),
    ("/shutdown", Registration.direct "shutdownHandler"),
    ("/ping", Registration.direct "pingHandler") ]

/-- The stage validates the method or the payload of the request. -/
def Stage.validates : Stage → Bool
  | Stage.withPayloadValidation _ => true
  | Stage.withMethodCheck _ => true
  | _ => false

/-- In a declaration of stages, no validation stage is declared before `withMr`
(so that, stages running in the reverse of their declaration, every validation has
run when `withMr` runs). -/
def mrDeclaredFirst (stages : List Stage) : Bool :=
  (stages.takeWhile (fun s => s ≠ Stage.withMr)).all (fun s => !s.validates)

/-- The patterns whose chain contains `withMr` with a validation stage declared
before it. -/
def CreateRouter.mrAfterValidation : List String :=
  (CreateRouter.routes.filter (fun route =>
    match route.2 with
    | Registration.chain _ stages => Stage.withMr ∈ stages && !mrDeclaredFirst stages
    | Registration.direct _ => false)).map Prod.fst

/-- The function `pingHandler` of server.go. -/
def pingHandler {α : Type} (w : ResponseWriter) (_ : Request α) : Run :=
  match w.WriteHeader 200 with
  | none => { ending := invalidWriteHeaderCode, w := w, calls := [] }
  | some w => { ending := Ending.returned, w := (w.Fprintln "pong").1, calls := [] }

namespace time

/-- Go `time.Microsecond`, in nanoseconds. -/
def Microsecond : Nat := 1000

/-- Go `time.Second`, in nanoseconds. -/
def Second : Nat := 1000000000

end time

/-- The result of one `http.Get`: the response, nil when the request failed, and the
error. -/
structure GetResult where
  resp : Option Response
  err : Option GoError
deriving DecidableEq, Repr

/-- A run of `checkServer`: how it ended, the error it returned (`none` for nil), the
number of `http.Get` calls made and the total time slept, in nanoseconds. -/
structure CheckRun where
  ending : Ending
  result : Option GoError
  attempts : Nat
  slept : Nat
deriving DecidableEq, Repr

/-- The loop of `checkServer` with `n` iterations left, at iteration `i`; `get i` is
what the `http.Get` of iteration `i` returns. -/
def checkServer.loop (get : Nat → GetResult) : Nat → Nat → Nat → CheckRun
  | 0, i, slept =>
    { ending := Ending.returned, result := some (errors.New "Could not start server!"),
      attempts := i, slept := slept }
  | n + 1, i, slept =>
    match (get i).resp with
    | none => { ending := nilDereference, result := none, attempts := i + 1, slept := slept }
    | some resp =>
      if resp.StatusCode = 200 ∧ (get i).err = none then
        { ending := Ending.returned, result := none, attempts := i + 1, slept := slept }
      else checkServer.loop get n (i + 1) (slept + 100 * time.Microsecond)

/-- The function `checkServer` of server.go. -/
def checkServer (get : Nat → GetResult) : CheckRun :=
  checkServer.loop get 10 0 0

/-- What the process has printed and whether it has exited (`exit` is the status of
`os.Exit`), or how it crashed. -/
structure Process where
  ending : Ending
  stdout : List String
  stderr : List String
  exit : Option Int
deriving DecidableEq, Repr

/-- Lines 50 to 58 of `StartServer`: the readiness check after the listener is
created, up to the line that announces the port (`fmt.Println` puts a space between
its two operands and a newline at the end). -/
def StartServer.readiness (port : Int) (get : Nat → GetResult) : Process :=
  let run := checkServer get
  match run.ending with
  | Ending.returned =>
    match run.result with
    | some err =>
      { ending := Ending.returned, stdout := [],
        stderr := [fmt.Sprintf "Server did not respond: %s\n" [fmt.Arg.str err.Error]],
        exit := some 1 }
    | none =>
      { ending := Ending.returned,
        stdout := [fmt.Sprintf "Server started on port:  %d\n" [fmt.Arg.int port]],
        stderr := [], exit := none }
  | ending => { ending := ending, stdout := [], stderr := [], exit := none }

/-! ## Further predicates and test doubles -/

/-- The run of a handler or stage, started on the writer `w`, that rejects the
request by itself: it returned without an upstream call, the status of the response
is `s`, and the one value written is the failure envelope with the given message,
details and status `s`. -/
def Run.rejects (run : Run) (w : ResponseWriter) (message details : String) (s : Int) : Prop :=
  run.ending = Ending.returned ∧ run.calls = [] ∧ run.w.status = some s ∧
    run.w.body = w.body ++
      [Written.error { Message := message, Details := details, Status := s }]

instance (run : Run) (w : ResponseWriter) (message details : String) (s : Int) :
    Decidable (run.rejects w message details s) := by
  unfold Run.rejects
  infer_instance

/-- A project whose merge request is not resolved yet. -/
def unresolvedProject : ProjectInfo := { ProjectId := "1", MergeId := 0 }

/-- A client that lists the given merge requests with status 200, and otherwise is
`fakeClient`. -/
def listingClient (mergeRequests : List MergeRequest) : Client :=
  { fakeClient with ListProjectMergeRequests := fun _ _ => replyStatus mergeRequests 200 }

/-- A terminal handler that answers with the merge-request id it finds in the
context. -/
def echoMergeId {α : Type} : Handler α :=
  fun d w _ =>
    { ending := Ending.returned,
      w := (w.Fprintln (fmt.Sprintf "%d" [fmt.Arg.int d.MergeId])).1, calls := [] }

/-- A request body of the comment endpoint with zero values. -/
def emptyCommentBodies : CommentBodies :=
  { post := Body.json emptyPostCommentRequest,
    delete := Body.json { NoteId := 0, DiscussionId := "" },
    edit := Body.json { Comment := "", NoteId := 0, DiscussionId := "", Resolved := false } }

/-- A request body of the draft-note endpoint with zero values. -/
def emptyDraftNoteBodies : DraftNoteBodies :=
  { post := Body.json emptyPostDraftNoteRequest,
    update := Body.json { Note := "", Position := emptyPositionOptions } }

/-! ## The end of the server -/

/-- An error value as `errors.Is` sees it: its identity (a sentinel error such as
`http.ErrServerClosed` is one value), its text, and for a wrapping error the error
it unwraps to. -/
inductive ErrorValue
  | plain (identity : Nat) (text : String)
  | wrapping (identity : Nat) (text : String) (inner : ErrorValue)
deriving DecidableEq, Repr

/-- The identity of an error value. -/
def ErrorValue.identity : ErrorValue → Nat
  | ErrorValue.plain identity _ => identity
  | ErrorValue.wrapping identity _ _ => identity

/-- The method `Error` of an error value. -/
def ErrorValue.Error : ErrorValue → String
  | ErrorValue.plain _ text => text
  | ErrorValue.wrapping _ text _ => text

/-- Go `errors.Is(err, target)` for non-nil errors: `err` or an error of its unwrap
chain is `target`. -/
def errors.Is : ErrorValue → ErrorValue → Bool
  | ErrorValue.plain identity _, target => identity == target.identity
  | ErrorValue.wrapping identity _ inner, target =>
    identity == target.identity || errors.Is inner target

/-- An error value followed by the errors that repeated `Unwrap` calls give. -/
def ErrorValue.unwrapChain : ErrorValue → List ErrorValue
  | ErrorValue.plain identity text => [ErrorValue.plain identity text]
  | ErrorValue.wrapping identity text inner =>
    ErrorValue.wrapping identity text inner :: inner.unwrapChain

namespace http

/-- Go `http.ErrServerClosed`. -/
def ErrServerClosed : ErrorValue := ErrorValue.plain 1 "http: Server closed"

end http

/-- Lines 38 to 48 of `StartServer`: what the goroutine does once `server.Serve(l)`
has returned `err` (`none` for nil). -/
def StartServer.served (err : Option ErrorValue) : Process :=
  match err with
  | none => { ending := Ending.returned, stdout := [], stderr := [], exit := none }
  | some err =>
    if errors.Is err http.ErrServerClosed then
      { ending := Ending.returned, stdout := [], stderr := [], exit := some 0 }
    else
      { ending := Ending.returned, stdout := [],
        stderr := [fmt.Sprintf "Server did not respond: %s\n" [fmt.Arg.str err.Error]],
        exit := some 1 }

/-! ## The shutdown coordinator

The type `shutdown` with `WatchForShutdown` and `shutdownHandler` is used by
`StartServer` and `CreateRouter` and declared outside the sources. -/

/-- Modelled from the spec: the states of the shutdown coordinator, section 4.5:
`Running → Draining → Stopped`. -/
inductive ShutdownPhase
  | Running
  | Draining
  | Stopped
deriving DecidableEq, Repr

/-- Modelled from the spec: a termination trigger, section 4.5: a process-level
termination signal, or an explicit shutdown request delivered over the dispatch
mechanism. -/
inductive Trigger
  | signal
  | request
deriving DecidableEq, Repr

/-- Modelled from the spec: what the coordinator reacts to: a trigger, or the
listener reporting that it has closed. -/
inductive ShutdownEvent
  | trigger (t : Trigger)
  | listenerClosed
deriving DecidableEq, Repr

/-- Modelled from the spec: the `ShutdownState` of section 3, with the number of
times the listener was asked to close and the number of process-exit calls. -/
structure ShutdownState where
  phase : ShutdownPhase
  listenerCloses : Nat
  exits : Nat
deriving DecidableEq, Repr

/-- Modelled from the spec: the coordinator when the server starts. -/
def ShutdownState.init : ShutdownState :=
  { phase := ShutdownPhase.Running, listenerCloses := 0, exits := 0 }

/-- Modelled from the spec: one transition of the coordinator, section 4.5: a trigger
moves `Running` to `Draining` and asks the listener to stop accepting connections;
when the listener reports that it has closed the coordinator moves to `Stopped` and
causes the process to exit; a trigger while already `Draining` or `Stopped` is a
no-op, and only one transition out of `Running` ever occurs. -/
def ShutdownState.step (s : ShutdownState) : ShutdownEvent → ShutdownState
  | ShutdownEvent.trigger _ =>
    match s.phase with
    | ShutdownPhase.Running =>
      { s with phase := ShutdownPhase.Draining, listenerCloses := s.listenerCloses + 1 }
    | _ => s
  | ShutdownEvent.listenerClosed =>
    match s.phase with
    | ShutdownPhase.Stopped => s
    | _ => { s with phase := ShutdownPhase.Stopped, exits := s.exits + 1 }

/-- Modelled from the spec: the coordinator after a sequence of events. -/
def ShutdownState.run (s : ShutdownState) (events : List ShutdownEvent) : ShutdownState :=
  events.foldl ShutdownState.step s

/-! ## Decimal integers -/

/-- The string is a decimal integer: an optional sign followed by one or more
decimal digits. -/
def isDecimalInteger (s : String) : Bool :=
  let digits := match s.data with
    | '-' :: rest => rest
    | '+' :: rest => rest
    | cs => cs
  digits ≠ [] && digits.all (fun ch => 48 ≤ ch.toNat && ch.toNat ≤ 57)

/-- A writer that refuses every write: the connection is gone. -/
def brokenWriter : ResponseWriter :=
  { header := [], codes := [], body := [], pending := [],
    thereafter := some (errors.New "write: broken pipe") }

/-! ## Decimal rendering -/

/-- Value of a digit character. -/
theorem digitChar_toNat (k : Nat) (hk : k < 10) : (Nat.digitChar k).toNat = 48 + k := by
  interval_cases k <;> rfl

/-- Reading back, by Horner's rule, the digits that `Nat.toDigitsCore` puts in front
of `ds` continues the reading of `ds` from `n`. -/
theorem foldl_toDigitsCore (fuel : Nat) :
    ∀ (n : Nat) (ds : List Char), n < fuel →
      (Nat.toDigitsCore 10 fuel n ds).foldl (fun a ch => 10 * a + (ch.toNat - 48)) 0
        = ds.foldl (fun a ch => 10 * a + (ch.toNat - 48)) n := by
  induction fuel with
  | zero => intro n ds h; omega
  | succ fuel ih =>
    intro n ds h
    have hd : (Nat.digitChar (n % 10)).toNat - 48 = n % 10 := by
      rw [digitChar_toNat _ (Nat.mod_lt _ (by decide))]; omega
    simp only [Nat.toDigitsCore]
    split
    · rename_i h0
      simp only [List.foldl_cons, hd]
      congr 1
      omega
    · rename_i h0
      rw [ih (n / 10) _ (by omega)]
      simp only [List.foldl_cons, hd]
      congr 1
      omega

/-- Every character `Nat.toDigitsCore` adds is a decimal digit. -/
theorem mem_toDigitsCore (fuel : Nat) :
    ∀ (n : Nat) (ds : List Char) (ch : Char), ch ∈ Nat.toDigitsCore 10 fuel n ds →
      ch ∈ ds ∨ (48 ≤ ch.toNat ∧ ch.toNat ≤ 57) := by
  induction fuel with
  | zero => intro n ds ch h; exact Or.inl (by simpa [Nat.toDigitsCore] using h)
  | succ fuel ih =>
    intro n ds ch h
    have hd : (Nat.digitChar (n % 10)).toNat = 48 + n % 10 :=
      digitChar_toNat _ (Nat.mod_lt _ (by decide))
    have hlt : n % 10 < 10 := Nat.mod_lt _ (by decide)
    simp only [Nat.toDigitsCore] at h
    split at h
    · rcases List.mem_cons.1 h with h | h
      · subst h; right; omega
      · exact Or.inl h
    · rcases ih _ _ _ h with h | h
      · rcases List.mem_cons.1 h with h | h
        · subst h; right; omega
        · exact Or.inl h
      · exact Or.inr h

/-- The decimal digits of a natural number determine it. -/
theorem toDigits_injective (m n : Nat) (h : Nat.toDigits 10 m = Nat.toDigits 10 n) : m = n := by
  have hm := foldl_toDigitsCore (m + 1) m [] (by omega)
  have hn := foldl_toDigitsCore (n + 1) n [] (by omega)
  simp only [Nat.toDigits] at h
  rw [h, hn] at hm
  simpa using hm.symm

/-- The decimal digits of a natural number are digit characters. -/
theorem mem_toDigits (n : Nat) (ch : Char) (h : ch ∈ Nat.toDigits 10 n) :
    48 ≤ ch.toNat ∧ ch.toNat ≤ 57 := by
  rcases mem_toDigitsCore _ _ _ _ h with h | h
  · simp at h
  · exact h

/-- No underscore occurs in the `%d` rendering of an integer. -/
theorem underscore_not_mem_fmtInteger (i : Int) : '_' ∉ fmt.fmtInteger i := by
  intro h
  cases i with
  | ofNat m =>
    have := mem_toDigits m _ h
    simp at this
  | negSucc m =>
    rcases List.mem_cons.1 h with h | h
    · simp at h
    · have := mem_toDigits _ _ h
      simp at this

/-- The `%d` rendering determines the integer. -/
theorem fmtInteger_injective (i j : Int) (h : fmt.fmtInteger i = fmt.fmtInteger j) : i = j := by
  cases i with
  | ofNat m =>
    cases j with
    | ofNat n => exact congrArg Int.ofNat (toDigits_injective m n h)
    | negSucc n =>
      have hmem : '-' ∈ Nat.toDigits 10 m := by
        have : '-' ∈ fmt.fmtInteger (Int.ofNat m) := by rw [h]; exact List.mem_cons_self _ _
        exact this
      have := mem_toDigits m _ hmem
      simp at this
  | negSucc m =>
    cases j with
    | ofNat n =>
      have hmem : '-' ∈ Nat.toDigits 10 n := by
        have : '-' ∈ fmt.fmtInteger (Int.ofNat n) := by rw [← h]; exact List.mem_cons_self _ _
        exact this
      have := mem_toDigits n _ hmem
      simp at this
    | negSucc n =>
      have h1 : Nat.toDigits 10 (m + 1) = Nat.toDigits 10 (n + 1) := (List.cons.inj h).2
      have := toDigits_injective _ _ h1
      have hmn : m = n := by omega
      rw [hmn]

/-- The `%d` rendering is the decimal notation of the integer. -/
theorem fmtInteger_eq_toString (i : Int) : String.mk (fmt.fmtInteger i) = toString i := by
  cases i <;> rfl

/-- Two lists split at an underscore that occurs in neither left part agree part by part. -/
theorem append_underscore_inj : ∀ (l₁ l₂ r₁ r₂ : List Char), '_' ∉ l₁ → '_' ∉ l₂ →
    l₁ ++ '_' :: r₁ = l₂ ++ '_' :: r₂ → l₁ = l₂ ∧ r₁ = r₂
  | [], [], _, _, _, _, h => ⟨rfl, (List.cons.inj h).2⟩
  | [], b :: l₂, _, _, _, h2, h => by
    have := (List.cons.inj h).1
    exact absurd (this ▸ List.mem_cons_self _ _) h2
  | a :: l₁, [], _, _, h1, _, h => by
    have := (List.cons.inj h).1
    exact absurd (this ▸ List.mem_cons_self _ _) h1
  | a :: l₁, b :: l₂, r₁, r₂, h1, h2, h => by
    have hc := List.cons.inj h
    have ih := append_underscore_inj l₁ l₂ r₁ r₂
      (fun hm => h1 (List.mem_cons_of_mem _ hm)) (fun hm => h2 (List.mem_cons_of_mem _ hm)) hc.2
    exact ⟨by rw [hc.1, ih.1], ih.2⟩

/-- Length of the `%x` rendering: two characters per byte. -/
theorem length_fmtSbx (bs : List Nat) : (fmt.fmtSbx bs).length = 2 * bs.length := by
  induction bs with
  | nil => rfl
  | cons b bs ih =>
    simp only [fmt.fmtSbx, List.map_cons, List.flatten_cons, List.length_append,
      List.length_cons, List.length_nil] at ih ⊢
    omega

/-- A digit of the hexadecimal table. -/
theorem ldigits_getD_mem (k : Nat) (hk : k < 16) :
    fmt.ldigits.getD k '0' ∈ "0123456789abcdef".data := by
  interval_cases k <;> decide

/-- The `%x` rendering consists of lowercase hexadecimal digits. -/
theorem mem_fmtSbx (bs : List Nat) (ch : Char) (h : ch ∈ fmt.fmtSbx bs) :
    ch ∈ "0123456789abcdef".data := by
  simp only [fmt.fmtSbx, List.mem_flatten, List.mem_map] at h
  obtain ⟨l, ⟨b, _, rfl⟩, hch⟩ := h
  rcases List.mem_cons.1 hch with h | h
  · rw [h]; exact ldigits_getD_mem _ (Nat.mod_lt _ (by decide))
  · rcases List.mem_cons.1 h with h | h
    · rw [h]; exact ldigits_getD_mem _ (Nat.mod_lt _ (by decide))
    · simp at h

/-- The checksum has twenty bytes. -/
theorem length_Sum (data : List Nat) : (sha1.Sum data).length = 20 := by
  simp [sha1.Sum, sha1.be32]

/-- The checksum of the standard test message `abc`. -/
theorem Sum_abc : String.mk (fmt.fmtSbx (sha1.Sum (bytesOf "abc")))
    = "a9993e364706816aba3e25717850c26c9cd0d89d" := by
  decide

/-- The checksum of the empty message. -/
theorem Sum_empty : String.mk (fmt.fmtSbx (sha1.Sum (bytesOf "")))
    = "da39a3ee5e6b4b0d3255bfef95601890afd80709" := by
  decide

/-- The line-code template, formatted. -/
theorem Sprintf_line_code (b : List Nat) (o n : Int) :
    fmt.Sprintf "%x_%d_%d" [fmt.Arg.bytes b, fmt.Arg.int o, fmt.Arg.int n]
      = String.mk (fmt.fmtSbx b ++ '_' :: (fmt.fmtInteger o ++ '_' :: fmt.fmtInteger n)) := by
  simp [fmt.Sprintf, fmt.doPrintf]

/-- The line-code template, formatted, in the notation of strings. -/
theorem Sprintf_line_code_string (b : List Nat) (o n : Int) :
    fmt.Sprintf "%x_%d_%d" [fmt.Arg.bytes b, fmt.Arg.int o, fmt.Arg.int n]
      = String.mk (fmt.fmtSbx b) ++ "_" ++ toString o ++ "_" ++ toString n := by
  rw [Sprintf_line_code, ← fmtInteger_eq_toString o, ← fmtInteger_eq_toString n]
  apply String.ext
  simp [String.data_append]

/-! ## Runs -/

/-- The calls of a run that ends in `handleError`. -/
theorem Run.after_calls (p : Ending × ResponseWriter) (calls : List Call) :
    (Run.after p calls).calls = calls := rfl

/-- The writer of a run that ends in `handleError`. -/
theorem Run.after_w (p : Ending × ResponseWriter) (calls : List Call) :
    (Run.after p calls).w = p.2 := rfl

/-- The ending of a run that ends in `handleError`. -/
theorem Run.after_ending (p : Ending × ResponseWriter) (calls : List Call) :
    (Run.after p calls).ending = p.1 := rfl

/-- Encoding the response makes no upstream call. -/
theorem encodeResponse_calls (fuel : Nat) (w : ResponseWriter) (v : Written)
    (calls : List Call) : (encodeResponse fuel w v calls).calls = calls := by
  unfold encodeResponse
  split <;> rfl

/-- The calls of `PostComment` on a decoded request: the one upstream call with the
options built, or none when building them panics. -/
theorem PostComment_calls (T : ErrorTexts) (fuel : Nat) (c : Client) (d : ProjectInfo)
    (w : ResponseWriter) (method path : String) (req : PostCommentRequest) :
    (PostComment T fuel c d w { Method := method, Path := path, Body := Body.json req }).calls
      = if (PostComment.opt req).2 = true then
          [Call.CreateMergeRequestDiscussion d.ProjectId d.MergeId (PostComment.opt req).1]
        else [] := by
  unfold PostComment
  simp only
  rcases PostComment.opt req with ⟨opt, _ | _⟩
  · rfl
  · simp only [if_true]
    repeat' split
    all_goals first | rfl | exact encodeResponse_calls _ _ _ _

/-- The calls of `postDraftNote` on a decoded request. -/
theorem postDraftNote_calls (T : ErrorTexts) (fuel : Nat) (c : Client) (d : ProjectInfo)
    (w : ResponseWriter) (method path : String) (req : PostDraftNoteRequest) :
    (postDraftNote T fuel c d w { Method := method, Path := path, Body := Body.json req }).calls
      = [Call.CreateDraftNote d.ProjectId d.MergeId (postDraftNote.opt req)] := by
  unfold postDraftNote
  simp only
  repeat' split
  all_goals first | rfl | exact encodeResponse_calls _ _ _ _

/-! ## Line codes of a range comment -/

/-- C1: for every PostComment request with a non-empty file name and a line range
whose start and end boundaries are both present, the position sent upstream has a
start line code equal to the lowercase hexadecimal SHA-1 of the bytes of the file
name, an underscore, the old line of the start boundary in decimal, an underscore
and its new line in decimal, and an end line code built in the same way from the
end boundary; the hash part has 40 characters, all of them lowercase hexadecimal
digits, and is the same in both codes. -/
theorem PostComment_line_codes (T : ErrorTexts) (fuel : Nat) (c : Client) (d : ProjectInfo)
    (w : ResponseWriter) (method path : String) (req : PostCommentRequest)
    (startRange endRange : LinePosition) (hfile : req.FileName ≠ "")
    (hrange : req.LineRange = some { StartRange := some startRange, EndRange := some endRange }) :
    ∃ (hash : String) (opt : CreateMergeRequestDiscussionOptions) (position : PositionOptions)
      (start end_ : LinePositionOptions),
      hash = String.mk (fmt.fmtSbx (sha1.Sum (bytesOf req.FileName))) ∧
      hash.length = 40 ∧ (∀ ch ∈ hash.data, ch ∈ "0123456789abcdef".data) ∧
      (PostComment T fuel c d w { Method := method, Path := path, Body := Body.json req }).calls
        = [Call.CreateMergeRequestDiscussion d.ProjectId d.MergeId opt] ∧
      opt.Position = some position ∧
      position.LineRange = some { Start := some start, End := some end_ } ∧
      start.LineCode
        = some (hash ++ "_" ++ toString startRange.OldLine ++ "_" ++ toString startRange.NewLine) ∧
      end_.LineCode
        = some (hash ++ "_" ++ toString endRange.OldLine ++ "_" ++ toString endRange.NewLine) := by
  refine ⟨String.mk (fmt.fmtSbx (sha1.Sum (bytesOf req.FileName))),
    { Body := some req.Comment,
      Position := some
        { PositionType := some req.Type_, StartSHA := some req.StartCommitSHA,
          HeadSHA := some req.HeadCommitSHA, BaseSHA := some req.BaseCommitSHA,
          NewPath := some req.FileName, OldPath := some req.FileName,
          NewLine := req.NewLine, OldLine := req.OldLine,
          LineRange := some
            { Start := some
                { Type_ := some startRange.Type_,
                  LineCode := some (fmt.Sprintf "%x_%d_%d"
                    [fmt.Arg.bytes (sha1.Sum (bytesOf req.FileName)),
                      fmt.Arg.int startRange.OldLine, fmt.Arg.int startRange.NewLine]) },
              End := some
                { Type_ := some endRange.Type_,
                  LineCode := some (fmt.Sprintf "%x_%d_%d"
                    [fmt.Arg.bytes (sha1.Sum (bytesOf req.FileName)),
                      fmt.Arg.int endRange.OldLine, fmt.Arg.int endRange.NewLine]) } } } },
    _, _, _, rfl, ?_, ?_, ?_, rfl, rfl, ?_, ?_⟩
  · simp [String.length, length_fmtSbx, length_Sum]
  · intro ch hch
    exact mem_fmtSbx _ ch hch
  · rw [PostComment_calls]
    simp only [PostComment.opt, hfile, hrange, ne_eq, not_false_eq_true, if_true]
  · simp only [Sprintf_line_code_string]
  · simp only [Sprintf_line_code_string]

/-- Witness of C1: the file `some_file.txt` with the range from (3, 5) to (3, 6). -/
theorem PostComment_line_codes_witness :
    ∃ (hash : String) (opt : CreateMergeRequestDiscussionOptions) (position : PositionOptions)
      (start end_ : LinePositionOptions),
      hash = String.mk (fmt.fmtSbx (sha1.Sum (bytesOf "some_file.txt"))) ∧
      hash.length = 40 ∧ (∀ ch ∈ hash.data, ch ∈ "0123456789abcdef".data) ∧
      (PostComment testTexts 1 fakeClient testProject ResponseWriter.fresh
        { Method := "POST", Path := "/comment",
          Body := Body.json { emptyPostCommentRequest with
            FileName := "some_file.txt",
            LineRange := some { StartRange := some { Type_ := "new", OldLine := 3, NewLine := 5 },
                                EndRange := some { Type_ := "new", OldLine := 3, NewLine := 6 } } } }).calls
        = [Call.CreateMergeRequestDiscussion testProject.ProjectId testProject.MergeId opt] ∧
      opt.Position = some position ∧
      position.LineRange = some { Start := some start, End := some end_ } ∧
      start.LineCode = some (hash ++ "_" ++ toString (3 : Int) ++ "_" ++ toString (5 : Int)) ∧
      end_.LineCode = some (hash ++ "_" ++ toString (3 : Int) ++ "_" ++ toString (6 : Int)) :=
  PostComment_line_codes testTexts 1 fakeClient testProject ResponseWriter.fresh "POST" "/comment"
    { emptyPostCommentRequest with
      FileName := "some_file.txt",
      LineRange := some { StartRange := some { Type_ := "new", OldLine := 3, NewLine := 5 },
                          EndRange := some { Type_ := "new", OldLine := 3, NewLine := 6 } } }
    { Type_ := "new", OldLine := 3, NewLine := 5 } { Type_ := "new", OldLine := 3, NewLine := 6 }
    (by decide) rfl

/-- C2: the line code is a function of the file path, the old line and the new line,
and for a fixed file path two boundaries have the same line code exactly when their
old lines and their new lines agree, for all integers, negative and zero included. -/
theorem line_code_eq_iff (fileName : String) (oldLine newLine oldLine2 newLine2 : Int) :
    fmt.Sprintf "%x_%d_%d" [fmt.Arg.bytes (sha1.Sum (bytesOf fileName)),
        fmt.Arg.int oldLine, fmt.Arg.int newLine]
      = fmt.Sprintf "%x_%d_%d" [fmt.Arg.bytes (sha1.Sum (bytesOf fileName)),
        fmt.Arg.int oldLine2, fmt.Arg.int newLine2]
    ↔ oldLine = oldLine2 ∧ newLine = newLine2 := by
  constructor
  · intro h
    rw [Sprintf_line_code, Sprintf_line_code] at h
    have h1 := List.append_cancel_left (congrArg String.data h)
    have h2 := append_underscore_inj _ _ _ _ (underscore_not_mem_fmtInteger oldLine)
      (underscore_not_mem_fmtInteger oldLine2) (List.cons.inj h1).2
    exact ⟨fmtInteger_injective _ _ h2.1, fmtInteger_injective _ _ h2.2⟩
  · rintro ⟨rfl, rfl⟩
    rfl

/-- The line code of `foo.txt` at (3, 5), evaluated. -/
theorem line_code_foo_txt :
    fmt.Sprintf "%x_%d_%d" [fmt.Arg.bytes (sha1.Sum (bytesOf "foo.txt")), fmt.Arg.int 3,
        fmt.Arg.int 5]
      = "9206ac42b532ef8e983470c251f4e1a365fd636c_3_5" := by
  decide

/-! ## Messages of a created comment -/

/-- C3, evaluated at the requests of the tests with an upstream that creates the
discussion: the response of `PostComment` has status 200 and the message
`Comment created successfully` for a note without file name and for a comment on a
line range alike, where the tests expect `Note created successfully` and
`Multiline Comment created successfully`. -/
theorem PostComment_message_is_fixed :
    ((PostComment testTexts 1 fakeClient testProject ResponseWriter.fresh
        { Method := "POST", Path := "/comment",
          Body := Body.json emptyPostCommentRequest }).w.body.map Written.envelope
      = [some { Message := "Comment created successfully", Status := 200 }]) ∧
    ((PostComment testTexts 1 fakeClient testProject ResponseWriter.fresh
        { Method := "POST", Path := "/comment",
          Body := Body.json { emptyPostCommentRequest with
            FileName := "some_file.txt",
            LineRange := some { StartRange := some emptyLinePosition,
                                EndRange := some emptyLinePosition } } }).w.body.map
        Written.envelope
      = [some { Message := "Comment created successfully", Status := 200 }]) := by
  constructor <;> decide

/-! ## The position of a single-line comment -/

/-- C4: for every PostComment request with a non-empty file name and no line range,
the one upstream call carries the comment body and a position whose old and new
path are the file name, whose commit SHAs and position type are the ones of the
request, whose old and new line are the ones of the request (absent when the
request omits them), and which has no line range, hence no line code. -/
theorem PostComment_single_line_position (T : ErrorTexts) (fuel : Nat) (c : Client)
    (d : ProjectInfo) (w : ResponseWriter) (method path : String) (req : PostCommentRequest)
    (hfile : req.FileName ≠ "") (hrange : req.LineRange = none) :
    (PostComment T fuel c d w { Method := method, Path := path, Body := Body.json req }).calls
      = [Call.CreateMergeRequestDiscussion d.ProjectId d.MergeId
          { Body := some req.Comment,
            Position := some
              { OldPath := some req.FileName, NewPath := some req.FileName,
                BaseSHA := some req.BaseCommitSHA, HeadSHA := some req.HeadCommitSHA,
                StartSHA := some req.StartCommitSHA, PositionType := some req.Type_,
                OldLine := req.OldLine, NewLine := req.NewLine, LineRange := none } }] := by
  rw [PostComment_calls]
  simp only [PostComment.opt, hfile, hrange, ne_eq, not_false_eq_true, if_true]

/-- Witness of C4: the file `x.go` with new line 10 and old line 8. -/
theorem PostComment_single_line_position_witness :
    (PostComment testTexts 1 fakeClient testProject ResponseWriter.fresh
        { Method := "POST", Path := "/comment",
          Body := Body.json { emptyPostCommentRequest with
            FileName := "x.go", NewLine := some 10, OldLine := some 8 } }).calls
      = [Call.CreateMergeRequestDiscussion "1" 2
          { Body := some "",
            Position := some
              { OldPath := some "x.go", NewPath := some "x.go", BaseSHA := some "",
                HeadSHA := some "", StartSHA := some "", PositionType := some "",
                OldLine := some 8, NewLine := some 10, LineRange := none } }] :=
  PostComment_single_line_position testTexts 1 fakeClient testProject ResponseWriter.fresh
    "POST" "/comment"
    { emptyPostCommentRequest with FileName := "x.go", NewLine := some 10, OldLine := some 8 }
    (by decide) rfl

/-! ## A range with one boundary -/

/-- C5, evaluated at a range comment whose end boundary is absent: `PostComment`
panics on the nil boundary, makes no upstream call and writes no response. -/
theorem PostComment_one_boundary_panics :
    PostComment testTexts 1 fakeClient testProject ResponseWriter.fresh
        { Method := "POST", Path := "/comment",
          Body := Body.json { emptyPostCommentRequest with
            FileName := "some_file.txt",
            LineRange := some { StartRange := some { Type_ := "new", OldLine := 3, NewLine := 5 },
                                EndRange := none } } }
      = { ending := nilDereference,
          w := ResponseWriter.fresh.SetHeader "Content-Type" "application/json",
          calls := [] } := by
  decide

/-! ## Notes without a position -/

/-- C6: the options `PostComment` builds carry a position exactly when the file name
of the request is non-empty, every upstream call it makes carries these options, and
with an empty file name it makes the one call with the comment body alone;
`postDraftNote` makes the one call with the options it builds, which carry a
position exactly when the file name is non-empty and with an empty file name hold
the note text, the reply-to discussion id when that is non-empty, and nothing else. -/
theorem position_iff_file_name (T : ErrorTexts) (fuel : Nat) (c : Client) (d : ProjectInfo)
    (w : ResponseWriter) (method path : String) (req : PostCommentRequest)
    (draft : PostDraftNoteRequest) :
    (((PostComment.opt req).1.Position.isSome = true ↔ req.FileName ≠ "") ∧
      (∀ call ∈ (PostComment T fuel c d w
            { Method := method, Path := path, Body := Body.json req }).calls,
          call = Call.CreateMergeRequestDiscussion d.ProjectId d.MergeId (PostComment.opt req).1) ∧
      (req.FileName = "" →
        (PostComment T fuel c d w
            { Method := method, Path := path, Body := Body.json req }).calls
          = [Call.CreateMergeRequestDiscussion d.ProjectId d.MergeId
              { Body := some req.Comment, Position := none }])) ∧
    ((postDraftNote T fuel c d w
          { Method := method, Path := path, Body := Body.json draft }).calls
        = [Call.CreateDraftNote d.ProjectId d.MergeId (postDraftNote.opt draft)] ∧
      ((postDraftNote.opt draft).Position.isSome = true ↔ draft.FileName ≠ "") ∧
      (draft.FileName = "" →
        postDraftNote.opt draft
          = { Note := some draft.Comment,
              InReplyToDiscussionID :=
                if draft.DiscussionId ≠ "" then some draft.DiscussionId else none,
              Position := none })) := by
  refine ⟨⟨?_, ?_, ?_⟩, postDraftNote_calls T fuel c d w method path draft, ?_, ?_⟩
  · unfold PostComment.opt
    by_cases hf : req.FileName = ""
    · simp [hf]
    · simp only [ne_eq, hf, not_false_eq_true, if_true, iff_true]
      split
      · rfl
      · split
        · rfl
        · split <;> rfl
  · intro call hcall
    rw [PostComment_calls] at hcall
    split at hcall
    · simpa using hcall
    · simp at hcall
  · intro hf
    rw [PostComment_calls]
    simp [PostComment.opt, hf]
  · unfold postDraftNote.opt
    by_cases hf : draft.FileName = ""
    · simp [hf]
      split <;> rfl
    · simp [hf]
  · intro hf
    unfold postDraftNote.opt
    simp only [hf, ne_eq, not_true_eq_false, if_false]
    split <;> rfl

/-! ## The failure envelope -/

/-- The first `WriteHeader` with a code from 100 to 999 records the code. -/
theorem WriteHeader_first (w : ResponseWriter) (code : Int) (hlo : 100 ≤ code)
    (hhi : code ≤ 999) :
    w.WriteHeader code = some { w with codes := w.codes ++ [code] } := by
  simp [ResponseWriter.WriteHeader, hlo, hhi]

/-- A `WriteHeader` after the header was written checks nothing and is recorded. -/
theorem WriteHeader_superfluous (w : ResponseWriter) (code : Int) (h : w.codes ≠ []) :
    w.WriteHeader code = some { w with codes := w.codes ++ [code] } := by
  simp [ResponseWriter.WriteHeader, h]

/-- After a first `WriteHeader` with a status that allows a body, an accepted write
appends the value to the body. -/
theorem Encode_after_WriteHeader (w : ResponseWriter) (code : Int) (v : Written)
    (hcodes : w.codes = []) (hbody : ResponseWriter.bodyAllowedForStatus code = true)
    (hnext : w.next = none) :
    ResponseWriter.Encode { w with codes := w.codes ++ [code] } v
      = ({ header := w.header, codes := w.codes ++ [code], body := w.body ++ [v],
           pending := w.pending.tail, thereafter := w.thereafter }, none) := by
  have h1 : ResponseWriter.next { w with codes := w.codes ++ [code] } = none := hnext
  have h2 : ResponseWriter.bodyAllowed { w with codes := w.codes ++ [code] } = true := by
    simp [ResponseWriter.bodyAllowed, ResponseWriter.status, hcodes, hbody]
  have h3 : ¬ (w.codes ++ [code] = []) := by simp
  simp only [ResponseWriter.Encode, h3, if_false, h2, if_true, h1]

/-- On a writer that has sent no header and accepts the next write, `handleError`
with a status that `WriteHeader` accepts and that allows a body returns after one
`WriteHeader` and one encoded envelope. -/
theorem handleError_accepted (fuel : Nat) (w : ResponseWriter) (err : GoError)
    (message : String) (status : Int) (hcodes : w.codes = []) (hlo : 100 ≤ status)
    (hhi : status ≤ 999) (hbody : ResponseWriter.bodyAllowedForStatus status = true)
    (hnext : w.next = none) :
    handleError (fuel + 1) w err message status
      = (Ending.returned,
          { header := w.header, codes := w.codes ++ [status],
            body := w.body ++
              [Written.error { Message := message, Details := err.Error, Status := status }],
            pending := w.pending.tail, thereafter := w.thereafter }) := by
  simp only [handleError, WriteHeader_first w status hlo hhi,
    Encode_after_WriteHeader w status _ hcodes hbody hnext]

/-- Every status from 300 to 999 other than 304 allows a body. -/
theorem bodyAllowedForStatus_of_ge (s : Int) (hs : 300 ≤ s) (h304 : s ≠ 304) :
    ResponseWriter.bodyAllowedForStatus s = true := by
  have h1 : ¬ (s ≤ 199) := by omega
  have h2 : s ≠ 204 := by omega
  simp [ResponseWriter.bodyAllowedForStatus, h1, h2, h304]

/-- Once the status of the response allows no body, `handleError` never returns:
every encoding is refused and starts another attempt; nothing reaches the body and
the status stays. -/
theorem handleError_body_refused (fuel : Nat) :
    ∀ (w : ResponseWriter) (err : GoError) (message : String) (status : Int),
      w.codes ≠ [] → w.bodyAllowed = false →
      (handleError fuel w err message status).1 = Ending.outOfFuel ∧
      (handleError fuel w err message status).2.body = w.body ∧
      (handleError fuel w err message status).2.status = w.status := by
  induction fuel with
  | zero => intro w err message status _ _; exact ⟨rfl, rfl, rfl⟩
  | succ fuel ih =>
    intro w err message status hc hb
    have h3 : ¬ (w.codes ++ [status] = []) := by simp
    have hst : ResponseWriter.status { w with codes := w.codes ++ [status] } = w.status := by
      cases hcs : w.codes with
      | nil => exact absurd hcs hc
      | cons c cs => simp [ResponseWriter.status, hcs]
    have h2 : ResponseWriter.bodyAllowed { w with codes := w.codes ++ [status] } = false := by
      simp only [ResponseWriter.bodyAllowed, hst]
      exact hb
    simp only [handleError, WriteHeader_superfluous w status hc, ResponseWriter.Encode, h3,
      if_false, h2]
    have h := ih { w with codes := w.codes ++ [status] } http.ErrBodyNotAllowed
      "Could not encode error response" 500 h3 h2
    rw [hst] at h
    exact h

/-- On a writer that has sent no header, `handleError` with a status that
`WriteHeader` accepts and that allows no body never returns and writes no envelope. -/
theorem handleError_status_without_body (fuel : Nat) (w : ResponseWriter) (err : GoError)
    (message : String) (status : Int) (hcodes : w.codes = []) (hlo : 100 ≤ status)
    (hhi : status ≤ 999) (hbody : ResponseWriter.bodyAllowedForStatus status = false) :
    (handleError fuel w err message status).1 = Ending.outOfFuel ∧
    (handleError fuel w err message status).2.body = w.body := by
  cases fuel with
  | zero => exact ⟨rfl, rfl⟩
  | succ fuel =>
    have h3 : ¬ (w.codes ++ [status] = []) := by simp
    have h2 : ResponseWriter.bodyAllowed { w with codes := w.codes ++ [status] } = false := by
      simp [ResponseWriter.bodyAllowed, ResponseWriter.status, hcodes, hbody]
    simp only [handleError, WriteHeader_first w status hlo hhi, ResponseWriter.Encode, h3,
      if_false, h2]
    have h := handleError_body_refused fuel { w with codes := w.codes ++ [status] }
      http.ErrBodyNotAllowed "Could not encode error response" 500 h3 h2
    exact ⟨h.1, h.2.1⟩

/-- Counterexample to C7: the attempt `handleError` makes after a failed encoding
(client.go:129) finds the header already sent with status 400; its encoding succeeds
and the envelope says 500 while the status of the response stays 400. The first
conjunct is that attempt alone, the second the whole run on a writer whose first
write fails. -/
theorem handleError_retry_status_differs :
    handleError 1
        { header := [], codes := [400], body := [], pending := [], thereafter := none }
        (errors.New "write: broken pipe") "Could not encode error response" 500
      = (Ending.returned,
          { header := [], codes := [400, 500],
            body := [Written.error
              { Message := "Could not encode error response", Details := "write: broken pipe",
                Status := 500 }],
            pending := [], thereafter := none }) ∧
    ResponseWriter.status
        { header := [], codes := [400, 500],
          body := [Written.error
            { Message := "Could not encode error response", Details := "write: broken pipe",
              Status := 500 }],
          pending := [], thereafter := none } = some 400 ∧
    handleError 2
        { header := [], codes := [], body := [],
          pending := [some (errors.New "write: broken pipe")], thereafter := none }
        (errors.New "unexpected end of JSON input") "Could not read JSON from request" 400
      = (Ending.returned,
          { header := [], codes := [400, 500],
            body := [Written.error
              { Message := "Could not encode error response", Details := "write: broken pipe",
                Status := 500 }],
            pending := [], thereafter := none }) := by
  refine ⟨?_, ?_, ?_⟩ <;> decide

/-- The statuses that allow a body: those outside 100 to 199 other than 204 and 304. -/
theorem bodyAllowedForStatus_iff (s : Int) :
    ResponseWriter.bodyAllowedForStatus s = true
      ↔ ¬ (100 ≤ s ∧ s ≤ 199) ∧ s ≠ 204 ∧ s ≠ 304 := by
  simp only [ResponseWriter.bodyAllowedForStatus, Bool.and_eq_true, Bool.not_eq_true',
    Bool.and_eq_false_iff, decide_eq_false_iff_not, bne_iff_ne, ne_eq, not_and, not_le]
  constructor
  · rintro ⟨⟨h1, h2⟩, h3⟩
    refine ⟨?_, h2, h3⟩
    intro h
    omega
  · rintro ⟨h1, h2, h3⟩
    refine ⟨⟨?_, h2⟩, h3⟩
    by_cases h : 100 ≤ s
    · exact Or.inr (h1 h)
    · exact Or.inl (by omega)

/-- On a writer that has sent no header and for a status that is not informational,
the encoding of the first attempt of `handleError` succeeds exactly when the status
is from 200 to 999, is neither 204 nor 304, and the writer accepts the write. -/
theorem first_encoding_succeeds_iff (w : ResponseWriter) (v : Written) (status : Int)
    (hcodes : w.codes = []) (h1xx : ¬ (100 ≤ status ∧ status ≤ 199)) :
    (∃ w1 : ResponseWriter, w.WriteHeader status = some w1 ∧ (w1.Encode v).2 = none)
      ↔ (200 ≤ status ∧ status ≤ 999 ∧ status ≠ 204 ∧ status ≠ 304 ∧ w.next = none) := by
  constructor
  · rintro ⟨w1, hw, henc⟩
    by_cases hv : 100 ≤ status ∧ status ≤ 999
    · rw [WriteHeader_first w status hv.1 hv.2] at hw
      have hw1 := (Option.some.inj hw).symm
      subst hw1
      have h3 : ¬ (w.codes ++ [status] = []) := by simp
      by_cases hb : ResponseWriter.bodyAllowed { w with codes := w.codes ++ [status] } = true
      · have hallowed : ResponseWriter.bodyAllowedForStatus status = true := by
          simpa [ResponseWriter.bodyAllowed, ResponseWriter.status, hcodes] using hb
        have hn : ResponseWriter.next { w with codes := w.codes ++ [status] } = w.next := rfl
        have h4 := (bodyAllowedForStatus_iff status).1 hallowed
        simp only [ResponseWriter.Encode, h3, if_false, hb, if_true, hn] at henc
        cases hnx : w.next with
        | none => exact ⟨by omega, hv.2, h4.2.1, h4.2.2, rfl⟩
        | some e => simp [hnx] at henc
      · simp [ResponseWriter.Encode, h3, hb] at henc
    · have hnone : w.WriteHeader status = none := by
        simp only [ResponseWriter.WriteHeader, hcodes, true_and]
        rw [if_pos hv]
      rw [hnone] at hw
      simp at hw
  · rintro ⟨h200, hhi, h204, h304, hnext⟩
    have hallowed : ResponseWriter.bodyAllowedForStatus status = true :=
      (bodyAllowedForStatus_iff status).2 ⟨h1xx, h204, h304⟩
    refine ⟨_, WriteHeader_first w status (by omega) hhi, ?_⟩
    rw [Encode_after_WriteHeader w status v hcodes hallowed hnext]

/-- C7, amended: for every error, message and status from 200 to 999 other than 204
and 304, on a writer that has sent no header and accepts the write, `handleError`
returns after one attempt, the status of the response is the status, and the one
value written is the failure envelope whose message is the message, whose details
are the text of the error and whose status is the status. -/
theorem handleError_writes_envelope (fuel : Nat) (w : ResponseWriter) (err : GoError)
    (message : String) (status : Int) (hcodes : w.codes = []) (hlo : 200 ≤ status)
    (hhi : status ≤ 999) (h204 : status ≠ 204) (h304 : status ≠ 304)
    (hnext : w.next = none) :
    ∃ w2 : ResponseWriter,
      handleError (fuel + 1) w err message status = (Ending.returned, w2) ∧
      w2.status = some status ∧
      w2.codes = [status] ∧
      w2.body = w.body ++
        [Written.error { Message := message, Details := err.Error, Status := status }] := by
  refine ⟨_, handleError_accepted fuel w err message status hcodes (by omega) hhi
    ((bodyAllowedForStatus_iff status).2 ⟨by omega, h204, h304⟩) hnext, ?_, ?_, rfl⟩
  · simp [ResponseWriter.status, hcodes]
  · simp [hcodes]

/-- Witness of C7, amended: a bad request reported on a fresh writer. -/
theorem handleError_writes_envelope_witness :
    ∃ w2 : ResponseWriter,
      handleError (0 + 1) ResponseWriter.fresh (errors.New "unexpected end of JSON input")
          "Could not read JSON from request" 400 = (Ending.returned, w2) ∧
      w2.status = some 400 ∧
      w2.codes = [400] ∧
      w2.body = ResponseWriter.fresh.body ++
        [Written.error
          { Message := "Could not read JSON from request",
            Details := (errors.New "unexpected end of JSON input").Error, Status := 400 }] :=
  handleError_writes_envelope 0 ResponseWriter.fresh (errors.New "unexpected end of JSON input")
    "Could not read JSON from request" 400 rfl (by decide) (by decide) (by decide) (by decide)
    rfl

/-! ## Upstream transport errors -/

/-- C8, evaluated at the request of the test with an upstream that fails with
`Some error from Gitlab`: `PostComment` answers with status 400, outside the 5xx
range, while `DeleteComment` and `EditComment` answer the same failure with 500. -/
theorem PostComment_transport_error_status :
    ((PostComment testTexts 1 (fakeClientErr (errors.New "Some error from Gitlab")) testProject
        ResponseWriter.fresh
        { Method := "POST", Path := "/comment", Body := Body.json emptyPostCommentRequest }).w
      = { header := [("Content-Type", "application/json")], codes := [400],
          body := [Written.error
            { Message := "Could not create comment", Details := "Some error from Gitlab",
              Status := 400 }],
          pending := [], thereafter := none }) ∧
    ((DeleteComment testTexts 1 (fakeClientErr (errors.New "Some error from Gitlab")) testProject
        ResponseWriter.fresh
        { Method := "DELETE", Path := "/comment",
          Body := Body.json { NoteId := 0, DiscussionId := "" } }).w
      = { header := [("Content-Type", "application/json")], codes := [500],
          body := [Written.error
            { Message := "Could not delete comment", Details := "Some error from Gitlab",
              Status := 500 }],
          pending := [], thereafter := none }) ∧
    ((EditComment testTexts 1 (fakeClientErr (errors.New "Some error from Gitlab")) testProject
        ResponseWriter.fresh
        { Method := "PATCH", Path := "/comment",
          Body := Body.json { Comment := "", NoteId := 0, DiscussionId := "",
                              Resolved := false } }).w
      = { header := [("Content-Type", "application/json")], codes := [500],
          body := [Written.error
            { Message := "Could not update comment", Details := "Some error from Gitlab",
              Status := 500 }],
          pending := [], thereafter := none }) := by
  refine ⟨?_, ?_, ?_⟩ <;> decide

/-! ## Upstream status failures -/

/-- The per-note endpoint tag, formatted. -/
theorem Sprintf_draft_note_path (id : Int) :
    fmt.Sprintf "/mr/draft_notes/%d" [fmt.Arg.int id] = "/mr/draft_notes/" ++ toString id := by
  rw [← fmtInteger_eq_toString id]
  apply String.ext
  simp [fmt.Sprintf, fmt.doPrintf, String.data_append]

/-- A handler that, having written nothing, hands a `GenericError` to `handleError`
after its one upstream call reports the upstream status, when that status is one
`WriteHeader` accepts and allows a body. -/
theorem reportsStatus_after (T : ErrorTexts) (fuel : Nat) (w w0 : ResponseWriter)
    (endpoint message : String) (s : Int) (call : Call) (hcodes : w0.codes = [])
    (hnext : w0.next = none) (hbody : w0.body = w.body) (hs : 300 ≤ s) (hhi : s ≤ 999)
    (h304 : s ≠ 304) :
    (Run.after (handleError (fuel + 1) w0 (GenericError T endpoint) message s)
      [call]).reportsStatus T w endpoint message s := by
  rw [handleError_accepted fuel w0 _ message s hcodes (by omega) hhi
    (bodyAllowedForStatus_of_ge s hs h304) hnext]
  simp [Run.reportsStatus, Run.after, ResponseWriter.status, hcodes, hbody]

/-- Counterexample to C9: an upstream that answers 304 (Not Modified) without error.
`deleteDraftNote` and `DeleteComment` pass the status to `handleError`, whose
envelope the writer refuses after a 304 header; each refusal starts another attempt,
so that for every fuel the run is cut off by the fuel: the handler does not respond,
and no envelope is written. The third conjunct is the run with fuel 3. The last one
is an upstream status of 1000, which no HTTP response carries but a test double can
return: `WriteHeader` panics on it and nothing is written. -/
theorem upstream_not_modified_unreported :
    (∀ fuel : Nat,
      (deleteDraftNote testTexts fuel (fakeClientStatus 304) testProject ResponseWriter.fresh
          ({ Method := "DELETE", Path := "/mr/draft_notes/7",
             Body := Body.json () } : Request Unit)).ending = Ending.outOfFuel ∧
      (deleteDraftNote testTexts fuel (fakeClientStatus 304) testProject ResponseWriter.fresh
          ({ Method := "DELETE", Path := "/mr/draft_notes/7",
             Body := Body.json () } : Request Unit)).w.body = []) ∧
    (∀ fuel : Nat,
      (DeleteComment testTexts fuel (fakeClientStatus 304) testProject ResponseWriter.fresh
          { Method := "DELETE", Path := "/comment",
            Body := Body.json { NoteId := 0, DiscussionId := "" } }).ending
        = Ending.outOfFuel ∧
      (DeleteComment testTexts fuel (fakeClientStatus 304) testProject ResponseWriter.fresh
          { Method := "DELETE", Path := "/comment",
            Body := Body.json { NoteId := 0, DiscussionId := "" } }).w.body = []) ∧
    deleteDraftNote testTexts 3 (fakeClientStatus 304) testProject ResponseWriter.fresh
        ({ Method := "DELETE", Path := "/mr/draft_notes/7",
           Body := Body.json () } : Request Unit)
      = { ending := Ending.outOfFuel,
          w := { header := [], codes := [304, 500, 500], body := [], pending := [],
                 thereafter := none },
          calls := [Call.DeleteDraftNote testProject.ProjectId testProject.MergeId 7] } ∧
    deleteDraftNote testTexts 3 (fakeClientStatus 1000) testProject ResponseWriter.fresh
        ({ Method := "DELETE", Path := "/mr/draft_notes/7",
           Body := Body.json () } : Request Unit)
      = { ending := Ending.panicked "invalid WriteHeader code", w := ResponseWriter.fresh,
          calls := [Call.DeleteDraftNote testProject.ProjectId testProject.MergeId 7] } := by
  refine ⟨?_, ?_, by decide, by decide⟩
  · intro fuel
    exact handleError_status_without_body fuel ResponseWriter.fresh _ _ 304 rfl (by decide)
      (by decide) (by decide)
  · intro fuel
    exact handleError_status_without_body fuel
      (ResponseWriter.fresh.SetHeader "Content-Type" "application/json") _ _ 304 rfl
      (by decide) (by decide) (by decide)

/-- C9, amended: on a writer that has sent nothing and accepts the write, every
handler whose upstream call returns no error and a status code `s` from 300 to 999
other than 304 returns after that one call with a response of HTTP status `s` whose
only written value is the failure envelope with status `s` and, for details, the
`GenericError` tagged with the path of the handler's endpoint (`/comment`,
`/mr/draft_notes/`, the per-note path `/mr/draft_notes/` followed by the note id,
`/merge_requests`, `/job`, `/mr/reviewer`, `/mr/revisions`); no success envelope is
written. The upstream call is the one the handler makes once the request has passed
the handler's own checks: the method the handler serves, a body that decodes, a note
id in the path that parses, a note text that is not empty, line-range boundaries
that are there. -/
theorem upstream_status_is_reported (T : ErrorTexts) (fuel : Nat) (c : Client)
    (d : ProjectInfo) (w : ResponseWriter) (s : Int) (α : Type)
    (hcodes : w.codes = []) (hnext : w.next = none) (hs : 300 ≤ s) (hhi : s ≤ 999)
    (h304 : s ≠ 304) :
    (∀ (method path : String) (req : DeleteCommentRequest),
      (c.DeleteMergeRequestDiscussionNote d.ProjectId d.MergeId req.DiscussionId
          req.NoteId).answered s →
      (DeleteComment T (fuel + 1) c d w
          { Method := method, Path := path, Body := Body.json req }).reportsStatus T w
        "/comment" "Gitlab returned non-200 status" s) ∧
    (∀ (method path : String) (req : PostCommentRequest),
      (PostComment.opt req).2 = true →
      (c.CreateMergeRequestDiscussion d.ProjectId d.MergeId (PostComment.opt req).1).answered s →
      (PostComment T (fuel + 1) c d w
          { Method := method, Path := path, Body := Body.json req }).reportsStatus T w
        "/comment" "Gitlab returned non-200 status" s) ∧
    (∀ (method path : String) (req : EditCommentRequest),
      (c.UpdateMergeRequestDiscussionNote d.ProjectId d.MergeId req.DiscussionId req.NoteId
          { Body := some req.Comment }).answered s →
      (EditComment T (fuel + 1) c d w
          { Method := method, Path := path, Body := Body.json req }).reportsStatus T w
        "/comment" "Gitlab returned non-200 status" s) ∧
    (∀ (r : Request α),
      (c.ListDraftNotes d.ProjectId d.MergeId {}).answered s →
      (listDraftNotes T (fuel + 1) c d w r).reportsStatus T w
        "/mr/draft_notes/" "Could not get draft notes" s) ∧
    (∀ (method path : String) (req : PostDraftNoteRequest),
      (c.CreateDraftNote d.ProjectId d.MergeId (postDraftNote.opt req)).answered s →
      (postDraftNote T (fuel + 1) c d w
          { Method := method, Path := path, Body := Body.json req }).reportsStatus T w
        "/mr/draft_notes/" "Could not create draft note" s) ∧
    (∀ (r : Request α) (id : Int),
      strconv.Atoi T (strings.TrimPrefix r.Path "/mr/draft_notes/") = Except.ok id →
      (c.DeleteDraftNote d.ProjectId d.MergeId id).answered s →
      (deleteDraftNote T (fuel + 1) c d w r).reportsStatus T w
        ("/mr/draft_notes/" ++ toString id) "Could not delete draft note" s) ∧
    (∀ (method path : String) (req : UpdateDraftNoteRequest) (id : Int),
      strconv.Atoi T (strings.TrimPrefix path "/mr/draft_notes/") = Except.ok id →
      req.Note ≠ "" →
      (c.UpdateDraftNote d.ProjectId d.MergeId id
          { Note := some req.Note, Position := some req.Position }).answered s →
      (updateDraftNote T (fuel + 1) c d w
          { Method := method, Path := path, Body := Body.json req }).reportsStatus T w
        ("/mr/draft_notes/" ++ toString id) "Could not update draft note" s) ∧
    (∀ (path : String) (req : ListProjectMergeRequestsOptions),
      (c.ListProjectMergeRequests d.ProjectId
          { State := some (req.State.getD "opened"),
            Scope := some (req.Scope.getD "all") }).answered s →
      (mergeRequestListerService.ServeHTTP T (fuel + 1) c d w
          { Method := "POST", Path := path, Body := Body.json req }).reportsStatus T w
        "/merge_requests" "Failed to list merge requests" s) ∧
    (∀ (path : String) (req : JobTraceRequest),
      (c.GetTraceFile d.ProjectId req.JobId).answered s →
      (jobHandler T (fuel + 1) c d w
          { Method := "GET", Path := path, Body := Body.json req }).reportsStatus T w
        "/job" "Could not get trace file for job" s) ∧
    (∀ (path : String) (req : ReviewerUpdateRequest),
      (c.UpdateMergeRequest d.ProjectId d.MergeId { ReviewerIDs := some req.Ids }).answered s →
      (reviewersHandler T (fuel + 1) c d w
          { Method := "PUT", Path := path, Body := Body.json req }).reportsStatus T w
        "/mr/reviewer" "Could not modify merge request reviewers" s) ∧
    (∀ (path : String) (body : Body α),
      (c.GetMergeRequestDiffVersions d.ProjectId d.MergeId {}).answered s →
      (revisionsHandler T (fuel + 1) c d w
          { Method := "GET", Path := path, Body := body }).reportsStatus T w
        "/mr/revisions" "Could not get diff version info" s) := by
  have hge : s ≥ 300 := hs
  refine ⟨?_, ?_, ?_, ?_, ?_, ?_, ?_, ?_, ?_, ?_, ?_⟩
  · rintro method path req ⟨herr, hres⟩
    simp only [DeleteComment, HandleError, herr, hres, hge, if_true]
    exact reportsStatus_after T fuel w _ _ _ s _ hcodes hnext rfl hs hhi h304
  · rintro method path req hopt ⟨herr, hres⟩
    unfold PostComment
    simp only
    rcases hp : PostComment.opt req with ⟨opt, b⟩
    rw [hp] at hopt herr hres
    simp only at hopt herr hres
    subst hopt
    simp only [HandleError, herr, hres, hge, if_true]
    exact reportsStatus_after T fuel w _ _ _ s _ hcodes hnext rfl hs hhi h304
  · rintro method path req ⟨herr, hres⟩
    simp only [EditComment, HandleError, herr, hres, hge, if_true]
    exact reportsStatus_after T fuel w _ _ _ s _ hcodes hnext rfl hs hhi h304
  · rintro r ⟨herr, hres⟩
    simp only [listDraftNotes, herr, hres, hge, if_true]
    exact reportsStatus_after T fuel w _ _ _ s _ hcodes hnext rfl hs hhi h304
  · rintro method path req ⟨herr, hres⟩
    simp only [postDraftNote, herr, hres, hge, if_true]
    exact reportsStatus_after T fuel w _ _ _ s _ hcodes hnext rfl hs hhi h304
  · rintro r id hid ⟨herr, hres⟩
    simp only [deleteDraftNote, hid, herr, hres, hge, if_true, Sprintf_draft_note_path]
    exact reportsStatus_after T fuel w _ _ _ s _ hcodes hnext rfl hs hhi h304
  · rintro method path req id hid hnote ⟨herr, hres⟩
    simp only [updateDraftNote, hid, hnote, herr, hres, hge, if_true, if_false,
      Sprintf_draft_note_path]
    exact reportsStatus_after T fuel w _ _ _ s _ hcodes hnext rfl hs hhi h304
  · rintro path req ⟨herr, hres⟩
    have hopt : (if (if req.State = none then
            ({ req with State := some "opened" } : ListProjectMergeRequestsOptions)
          else req).Scope = none then
          ({ (if req.State = none then
              ({ req with State := some "opened" } : ListProjectMergeRequestsOptions)
            else req) with Scope := some "all" } : ListProjectMergeRequestsOptions)
        else (if req.State = none then
            ({ req with State := some "opened" } : ListProjectMergeRequestsOptions)
          else req))
        = { State := some (req.State.getD "opened"), Scope := some (req.Scope.getD "all") } := by
      rcases req with ⟨_ | st, _ | sc⟩ <;> rfl
    simp only [mergeRequestListerService.ServeHTTP, ne_eq, not_true_eq_false, if_false, hopt,
      herr, hres, hge, if_true]
    exact reportsStatus_after T fuel w _ _ _ s _ hcodes hnext rfl hs hhi h304
  · rintro path req ⟨herr, hres⟩
    simp only [jobHandler, ne_eq, not_true_eq_false, if_false, herr, hres, hge, if_true]
    exact reportsStatus_after T fuel w _ _ _ s _ hcodes hnext rfl hs hhi h304
  · rintro path req ⟨herr, hres⟩
    simp only [reviewersHandler, ne_eq, not_true_eq_false, if_false, herr, hres, hge, if_true]
    exact reportsStatus_after T fuel w _ _ _ s _ hcodes hnext rfl hs hhi h304
  · rintro path body ⟨herr, hres⟩
    simp only [revisionsHandler, ne_eq, not_true_eq_false, if_false, herr, hres, hge, if_true]
    exact reportsStatus_after T fuel w _ _ _ s _ hcodes hnext rfl hs hhi h304

/-- Witness of C9, amended: every handler against an upstream that answers 303 (See Other)
without error, on a fresh writer. -/
theorem upstream_status_is_reported_witness :
    (DeleteComment testTexts (0 + 1) (fakeClientStatus 303) testProject ResponseWriter.fresh
        { Method := "DELETE", Path := "/comment",
          Body := Body.json { NoteId := 0, DiscussionId := "" } }).reportsStatus testTexts
      ResponseWriter.fresh "/comment" "Gitlab returned non-200 status" 303 ∧
    (PostComment testTexts (0 + 1) (fakeClientStatus 303) testProject ResponseWriter.fresh
        { Method := "POST", Path := "/comment",
          Body := Body.json emptyPostCommentRequest }).reportsStatus testTexts
      ResponseWriter.fresh "/comment" "Gitlab returned non-200 status" 303 ∧
    (EditComment testTexts (0 + 1) (fakeClientStatus 303) testProject ResponseWriter.fresh
        { Method := "PATCH", Path := "/comment",
          Body := Body.json { Comment := "", NoteId := 0, DiscussionId := "",
                              Resolved := false } }).reportsStatus testTexts
      ResponseWriter.fresh "/comment" "Gitlab returned non-200 status" 303 ∧
    (listDraftNotes testTexts (0 + 1) (fakeClientStatus 303) testProject ResponseWriter.fresh
        ({ Method := "GET", Path := "/mr/draft_notes/",
           Body := Body.json () } : Request Unit)).reportsStatus testTexts
      ResponseWriter.fresh "/mr/draft_notes/" "Could not get draft notes" 303 ∧
    (postDraftNote testTexts (0 + 1) (fakeClientStatus 303) testProject ResponseWriter.fresh
        { Method := "POST", Path := "/mr/draft_notes/",
          Body := Body.json emptyPostDraftNoteRequest }).reportsStatus testTexts
      ResponseWriter.fresh "/mr/draft_notes/" "Could not create draft note" 303 ∧
    (updateDraftNote testTexts (0 + 1) (fakeClientStatus 303) testProject ResponseWriter.fresh
        { Method := "PATCH", Path := "/mr/draft_notes/7",
          Body := Body.json { Note := "text", Position := emptyPositionOptions } }).reportsStatus
      testTexts ResponseWriter.fresh ("/mr/draft_notes/" ++ toString (7 : Int))
      "Could not update draft note" 303 ∧
    (deleteDraftNote testTexts (0 + 1) (fakeClientStatus 303) testProject ResponseWriter.fresh
        ({ Method := "DELETE", Path := "/mr/draft_notes/7",
           Body := Body.json () } : Request Unit)).reportsStatus testTexts
      ResponseWriter.fresh ("/mr/draft_notes/" ++ toString (7 : Int))
      "Could not delete draft note" 303 ∧
    (mergeRequestListerService.ServeHTTP testTexts (0 + 1) (fakeClientStatus 303) testProject
        ResponseWriter.fresh
        { Method := "POST", Path := "/merge_requests",
          Body := Body.json { State := none, Scope := none } }).reportsStatus testTexts
      ResponseWriter.fresh "/merge_requests" "Failed to list merge requests" 303 ∧
    (jobHandler testTexts (0 + 1) (fakeClientStatus 303) testProject ResponseWriter.fresh
        { Method := "GET", Path := "/job",
          Body := Body.json { JobId := 5 } }).reportsStatus testTexts
      ResponseWriter.fresh "/job" "Could not get trace file for job" 303 ∧
    (reviewersHandler testTexts (0 + 1) (fakeClientStatus 303) testProject ResponseWriter.fresh
        { Method := "PUT", Path := "/mr/reviewer",
          Body := Body.json { Ids := [1] } }).reportsStatus testTexts
      ResponseWriter.fresh "/mr/reviewer" "Could not modify merge request reviewers" 303 ∧
    (revisionsHandler testTexts (0 + 1) (fakeClientStatus 303) testProject ResponseWriter.fresh
        ({ Method := "GET", Path := "/mr/revisions",
           Body := Body.json () } : Request Unit)).reportsStatus testTexts
      ResponseWriter.fresh "/mr/revisions" "Could not get diff version info" 303 :=
  have h := upstream_status_is_reported testTexts 0 (fakeClientStatus 303) testProject
    ResponseWriter.fresh 303 Unit rfl rfl (by decide) (by decide) (by decide)
  ⟨h.1 "DELETE" "/comment" { NoteId := 0, DiscussionId := "" } ⟨rfl, rfl⟩,
    h.2.1 "POST" "/comment" emptyPostCommentRequest rfl ⟨rfl, rfl⟩,
    h.2.2.1 "PATCH" "/comment"
      { Comment := "", NoteId := 0, DiscussionId := "", Resolved := false } ⟨rfl, rfl⟩,
    h.2.2.2.1 { Method := "GET", Path := "/mr/draft_notes/", Body := Body.json () } ⟨rfl, rfl⟩,
    h.2.2.2.2.1 "POST" "/mr/draft_notes/" emptyPostDraftNoteRequest ⟨rfl, rfl⟩,
    h.2.2.2.2.2.2.1 "PATCH" "/mr/draft_notes/7"
      { Note := "text", Position := emptyPositionOptions } 7 rfl (by decide) ⟨rfl, rfl⟩,
    h.2.2.2.2.2.1 { Method := "DELETE", Path := "/mr/draft_notes/7", Body := Body.json () } 7
      rfl ⟨rfl, rfl⟩,
    h.2.2.2.2.2.2.2.1 "/merge_requests" { State := none, Scope := none } ⟨rfl, rfl⟩,
    h.2.2.2.2.2.2.2.2.1 "/job" { JobId := 5 } ⟨rfl, rfl⟩,
    h.2.2.2.2.2.2.2.2.2.1 "/mr/reviewer" { Ids := [1] } ⟨rfl, rfl⟩,
    h.2.2.2.2.2.2.2.2.2.2 "/mr/revisions" (Body.json ()) ⟨rfl, rfl⟩⟩

/-! ## Messages of the two upstream failures -/

/-- C10, evaluated at the requests of the tests: for the three comment operations
the response to an upstream status 303 carries the message
`Gitlab returned non-200 status`, not the message of the response to a transport
error of the same operation (`Could not delete comment`, `Could not update comment`,
`Could not create comment`). -/
theorem comment_failure_messages_differ :
    ((DeleteComment testTexts 1 (fakeClientStatus 303) testProject ResponseWriter.fresh
          { Method := "DELETE", Path := "/comment",
            Body := Body.json { NoteId := 0, DiscussionId := "" } }).w.body
        = [Written.error
            { Message := "Gitlab returned non-200 status",
              Details := "An error occured on the /comment endpoint", Status := 303 }] ∧
      (DeleteComment testTexts 1 (fakeClientErr (errors.New "Some error from Gitlab"))
          testProject ResponseWriter.fresh
          { Method := "DELETE", Path := "/comment",
            Body := Body.json { NoteId := 0, DiscussionId := "" } }).w.body
        = [Written.error
            { Message := "Could not delete comment", Details := "Some error from Gitlab",
              Status := 500 }]) ∧
    ((EditComment testTexts 1 (fakeClientStatus 303) testProject ResponseWriter.fresh
          { Method := "PATCH", Path := "/comment",
            Body := Body.json { Comment := "", NoteId := 0, DiscussionId := "",
                                Resolved := false } }).w.body
        = [Written.error
            { Message := "Gitlab returned non-200 status",
              Details := "An error occured on the /comment endpoint", Status := 303 }] ∧
      (EditComment testTexts 1 (fakeClientErr (errors.New "Some error from Gitlab"))
          testProject ResponseWriter.fresh
          { Method := "PATCH", Path := "/comment",
            Body := Body.json { Comment := "", NoteId := 0, DiscussionId := "",
                                Resolved := false } }).w.body
        = [Written.error
            { Message := "Could not update comment", Details := "Some error from Gitlab",
              Status := 500 }]) ∧
    ((PostComment testTexts 1 (fakeClientStatus 303) testProject ResponseWriter.fresh
          { Method := "POST", Path := "/comment",
            Body := Body.json emptyPostCommentRequest }).w.body
        = [Written.error
            { Message := "Gitlab returned non-200 status",
              Details := "An error occured on the /comment endpoint", Status := 303 }] ∧
      (PostComment testTexts 1 (fakeClientErr (errors.New "Some error from Gitlab"))
          testProject ResponseWriter.fresh
          { Method := "POST", Path := "/comment",
            Body := Body.json emptyPostCommentRequest }).w.body
        = [Written.error
            { Message := "Could not create comment", Details := "Some error from Gitlab",
              Status := 400 }]) := by
  refine ⟨⟨?_, ?_⟩, ⟨?_, ?_⟩, ⟨?_, ?_⟩⟩ <;> decide

/-! ## Methods that are not allowed -/

/-- C11, evaluated at a PUT request to the comment endpoint, whose allowed methods
are DELETE, POST and PATCH: `CommentHandler` answers with status 405 and makes no
upstream call, but sets no `Access-Control-Allow-Methods` header (and writes no
body), while `draftNoteService.ServeHTTP` answers a PUT request with the header
listing its four methods. -/
theorem CommentHandler_wrong_method_no_header :
    (CommentHandler testTexts 1 fakeClient testProject ResponseWriter.fresh
        { Method := "PUT", Path := "/comment", Body := Body.json emptyCommentBodies }
      = { ending := Ending.returned,
          w := { header := [], codes := [405], body := [], pending := [], thereafter := none },
          calls := [] }) ∧
    ((CommentHandler testTexts 1 fakeClient testProject ResponseWriter.fresh
        { Method := "PUT", Path := "/comment",
          Body := Body.json emptyCommentBodies }).w.GetHeader "Access-Control-Allow-Methods"
      = none) ∧
    ((draftNoteService.ServeHTTP testTexts 1 fakeClient testProject ResponseWriter.fresh
        { Method := "PUT", Path := "/mr/draft_notes/",
          Body := Body.json emptyDraftNoteBodies }).w.GetHeader "Access-Control-Allow-Methods"
      = some "DELETE, POST, PATCH, GET") ∧
    ((draftNoteService.ServeHTTP testTexts 1 fakeClient testProject ResponseWriter.fresh
        { Method := "PUT", Path := "/mr/draft_notes/",
          Body := Body.json emptyDraftNoteBodies }).w.status = some 405) := by
  refine ⟨?_, ?_, ?_, ?_⟩ <;> decide

/-! ## The body of a failure response -/

/-- C12, evaluated at a PUT request to the comment endpoint: the response of
`CommentHandler` has status 405 and an empty body, no failure envelope. -/
theorem CommentHandler_wrong_method_empty_body :
    ((CommentHandler testTexts 1 fakeClient testProject ResponseWriter.fresh
        { Method := "PUT", Path := "/comment",
          Body := Body.json emptyCommentBodies }).w.status = some 405) ∧
    ((CommentHandler testTexts 1 fakeClient testProject ResponseWriter.fresh
        { Method := "PUT", Path := "/comment",
          Body := Body.json emptyCommentBodies }).w.body = []) := by
  constructor <;> decide

/-! ## The status field of a success envelope -/

/-- C13, evaluated at a POST request to the merge-request list with an upstream that
lists one merge request: the response has HTTP status 200 and a success envelope
whose status field is 0. -/
theorem mergeRequestLister_success_status_field :
    ((mergeRequestListerService.ServeHTTP testTexts 1 fakeClient testProject
        ResponseWriter.fresh
        { Method := "POST", Path := "/merge_requests",
          Body := Body.json { State := none, Scope := none } }).w.status = some 200) ∧
    ((mergeRequestListerService.ServeHTTP testTexts 1 fakeClient testProject
        ResponseWriter.fresh
        { Method := "POST", Path := "/merge_requests",
          Body := Body.json { State := none, Scope := none } }).w.body.map Written.envelope
      = [some { Message := "Merge requests fetched successfully", Status := 0 }]) := by
  constructor <;> decide

/-! ## Required fields that are empty -/

/-- A handler or stage that, having written nothing and made no call, hands an error
to `handleError` with a status that `WriteHeader` accepts and that allows a body
rejects the request. -/
theorem rejects_after (fuel : Nat) (w w0 : ResponseWriter) (err : GoError)
    (message : String) (s : Int) (hcodes : w0.codes = []) (hnext : w0.next = none)
    (hbody : w0.body = w.body) (hlo : 100 ≤ s) (hhi : s ≤ 999)
    (hallowed : ResponseWriter.bodyAllowedForStatus s = true) :
    (Run.after (handleError (fuel + 1) w0 err message s) []).rejects w message err.Error s := by
  rw [handleError_accepted fuel w0 _ message s hcodes hlo hhi hallowed hnext]
  simp [Run.rejects, Run.after, ResponseWriter.status, hcodes, hbody]

/-- Counterexample to C14: a draft-note update whose note text is empty is answered
with the message `Must provide draft note text`, not `Invalid payload`; and when
the path carries no note id it is answered with `Could not parse draft note ID`. -/
theorem updateDraftNote_empty_note_message :
    ((updateDraftNote testTexts 1 fakeClient testProject ResponseWriter.fresh
        { Method := "PATCH", Path := "/mr/draft_notes/7",
          Body := Body.json { Note := "", Position := emptyPositionOptions } }).w.body
      = [Written.error
          { Message := "Must provide draft note text", Details := "Draft note text missing",
            Status := 400 }]) ∧
    (¬ ∃ details : String,
      (updateDraftNote testTexts 1 fakeClient testProject ResponseWriter.fresh
        { Method := "PATCH", Path := "/mr/draft_notes/7",
          Body := Body.json { Note := "", Position := emptyPositionOptions } }).w.body
      = [Written.error { Message := "Invalid payload", Details := details, Status := 400 }]) ∧
    ((updateDraftNote testTexts 1 fakeClient testProject ResponseWriter.fresh
        { Method := "PATCH", Path := "/mr/draft_notes/",
          Body := Body.json { Note := "", Position := emptyPositionOptions } }).w.body
      = [Written.error
          { Message := "Could not parse draft note ID",
            Details := testTexts.atoiSyntax "", Status := 400 }]) := by
  have h : (updateDraftNote testTexts 1 fakeClient testProject ResponseWriter.fresh
        { Method := "PATCH", Path := "/mr/draft_notes/7",
          Body := Body.json { Note := "", Position := emptyPositionOptions } }).w.body
      = [Written.error
          { Message := "Must provide draft note text", Details := "Draft note text missing",
            Status := 400 }] := by
    rfl
  refine ⟨h, ?_, rfl⟩
  rintro ⟨details, hd⟩
  rw [h] at hd
  have hm := congrArg (fun b => b.map (fun v => match v with
    | Written.error r => r.Message
    | _ => "")) hd
  simp at hm

/-- C14, amended: on a writer that has sent nothing and accepts the write, a resolve
request that decodes with an empty discussion id is rejected by the payload
validation with status 400, message `Invalid payload` and details
`DiscussionID is required`, whatever the next handler is; a draft-note update that
decodes with an empty note text is rejected by `updateDraftNote` with status 400:
when the note id of the path parses, with message `Must provide draft note text` and
details `Draft note text missing`; when it does not parse, with message
`Could not parse draft note ID` and the text of the error of `strconv.Atoi` for
details. In every case no upstream operation is invoked. -/
theorem empty_required_field_rejected (T : ErrorTexts) (fuel : Nat) (c : Client)
    (d : ProjectInfo) (w : ResponseWriter)
    (next : Handler DiscussionResolveRequest) (resolve : DiscussionResolveRequest)
    (update : UpdateDraftNoteRequest) (hcodes : w.codes = []) (hnext : w.next = none)
    (hresolve : resolve.DiscussionID = "") (hupdate : update.Note = "") :
    (withPayloadValidation (fuel + 1) [("PUT", DiscussionResolveRequest.shape)] next d w
        { Method := "PUT", Path := "/mr/discussions/resolve",
          Body := Body.json resolve }).rejects w "Invalid payload" "DiscussionID is required"
      400 ∧
    (∀ (method path : String) (id : Int),
      strconv.Atoi T (strings.TrimPrefix path "/mr/draft_notes/") = Except.ok id →
      (updateDraftNote T (fuel + 1) c d w
          { Method := method, Path := path,
            Body := Body.json update }).rejects w "Must provide draft note text"
        "Draft note text missing" 400) ∧
    (∀ (method path : String) (err : GoError),
      strconv.Atoi T (strings.TrimPrefix path "/mr/draft_notes/") = Except.error err →
      (updateDraftNote T (fuel + 1) c d w
          { Method := method, Path := path,
            Body := Body.json update }).rejects w "Could not parse draft note ID"
        err.Error 400) := by
  refine ⟨?_, ?_, ?_⟩
  · have hl : List.lookup "PUT" [("PUT", DiscussionResolveRequest.shape)]
        = some DiscussionResolveRequest.shape := by
      simp [List.lookup]
    simp only [withPayloadValidation, hl, DiscussionResolveRequest.shape, hresolve, if_true]
    exact rejects_after fuel w w (errors.New ("DiscussionID" ++ " is required")) _ 400 hcodes
      hnext rfl (by decide) (by decide) (by decide)
  · intro method path id hid
    simp only [updateDraftNote, hid, hupdate, if_true]
    exact rejects_after fuel w w (errors.New "Draft note text missing") _ 400 hcodes hnext rfl
      (by decide) (by decide) (by decide)
  · intro method path err herr
    simp only [updateDraftNote, herr]
    exact rejects_after fuel w w err _ 400 hcodes hnext rfl (by decide) (by decide) (by decide)

/-- Witness of C14, amended: the resolve request of the test with an empty discussion
id, an update of draft note 7 with an empty text, and an update with an empty text
on the path `/mr/draft_notes/`, which carries no note id. -/
theorem empty_required_field_rejected_witness :
    (withPayloadValidation (0 + 1) [("PUT", DiscussionResolveRequest.shape)] echoMergeId
        testProject ResponseWriter.fresh
        { Method := "PUT", Path := "/mr/discussions/resolve",
          Body := Body.json { DiscussionID := "", Resolved := true } }).rejects
      ResponseWriter.fresh "Invalid payload" "DiscussionID is required" 400 ∧
    (updateDraftNote testTexts (0 + 1) fakeClient testProject ResponseWriter.fresh
        { Method := "PATCH", Path := "/mr/draft_notes/7",
          Body := Body.json { Note := "", Position := emptyPositionOptions } }).rejects
      ResponseWriter.fresh "Must provide draft note text" "Draft note text missing" 400 ∧
    (updateDraftNote testTexts (0 + 1) fakeClient testProject ResponseWriter.fresh
        { Method := "PATCH", Path := "/mr/draft_notes/",
          Body := Body.json { Note := "", Position := emptyPositionOptions } }).rejects
      ResponseWriter.fresh "Could not parse draft note ID"
      (errors.New (testTexts.atoiSyntax "")).Error 400 :=
  have h := empty_required_field_rejected testTexts 0 fakeClient testProject
    ResponseWriter.fresh echoMergeId { DiscussionID := "", Resolved := true }
    { Note := "", Position := emptyPositionOptions } rfl rfl rfl rfl
  ⟨h.1, h.2.1 "PATCH" "/mr/draft_notes/7" 7 rfl,
    h.2.2 "PATCH" "/mr/draft_notes/" (errors.New (testTexts.atoiSyntax "")) rfl⟩

/-! ## The order of a chain -/

/-- A chain with a stage that ignores its next handler does not depend on what is
declared before that stage. -/
theorem middleware_ignores_before {H : Type} (T T2 : H) (before before2 after : List (H → H))
    (m : H → H) (hm : ∀ h h2 : H, m h = m h2) :
    middleware T (before ++ m :: after) = middleware T2 (before2 ++ m :: after) := by
  simp only [middleware, List.foldl_append, List.foldl_cons]
  rw [hm (List.foldl (fun h mw => mw h) T before) (List.foldl (fun h mw => mw h) T2 before2)]

/-- C15: for every terminal handler `T` and stages `A`, `B`, `C`, the handler
`middleware(T, A, B, C)` is `C` applied to `B` applied to `A` applied to `T`; when
every stage calls its next handler the handlers run in the order C, B, A, T; and a
chain with a stage that answers without its next handler is the same whatever the
terminal handler and the stages declared before that stage are (with `B` answering,
the run is C, B). -/
theorem middleware_order (H : Type) (T : H) (A B C : H → H) :
    middleware T [A, B, C] = C (B (A T)) ∧
    (∀ (T2 : H) (before before2 after : List (H → H)) (m : H → H),
      (∀ h h2 : H, m h = m h2) →
      middleware T (before ++ m :: after) = middleware T2 (before2 ++ m :: after)) ∧
    middleware (Recorder.terminal "T")
        [Recorder.pass "A", Recorder.pass "B", Recorder.pass "C"] [] = ["C", "B", "A", "T"] ∧
    middleware (Recorder.terminal "T")
        [Recorder.pass "A", Recorder.stop "B", Recorder.pass "C"] [] = ["C", "B"] := by
  refine ⟨rfl, ?_, by decide, by decide⟩
  intro T2 before before2 after m hm
  exact middleware_ignores_before T T2 before before2 after m hm

/-! ## The place of `withMr` in the chains -/

/-- C16, evaluated on the routes of `CreateRouter`: the chain of
`/mr/discussions/list` declares `withMr` after `withPayloadValidation` and
`withMethodCheck`, so that it runs before them; it is the only such route. With the
stages as the spec describes them, a GET request to that chain is refused with
status 405 only after `withMr` has listed the merge requests upstream. -/
theorem discussions_list_declares_withMr_last :
    CreateRouter.routes.lookup "/mr/discussions/list"
      = some (Registration.chain "discussionsListerService"
          [Stage.withPayloadValidation [("POST", "DiscussionsRequest")],
            Stage.withMethodCheck ["POST"], Stage.withMr, Stage.withLogging]) ∧
    mrDeclaredFirst
        [Stage.withPayloadValidation [("POST", "DiscussionsRequest")],
          Stage.withMethodCheck ["POST"], Stage.withMr, Stage.withLogging] = false ∧
    CreateRouter.mrAfterValidation = ["/mr/discussions/list"] ∧
    (middleware (echoMergeId : Handler Unit)
        [withPayloadValidation 1 [("POST", fun _ => none)], withMethodCheck 1 ["POST"],
          withMr testTexts 1 { BranchName := "" } fakeClient, withLogging]
        unresolvedProject ResponseWriter.fresh
        { Method := "GET", Path := "/mr/discussions/list", Body := Body.json () }).calls
      = [Call.ListProjectMergeRequests "1" withMr.options] ∧
    (middleware (echoMergeId : Handler Unit)
        [withPayloadValidation 1 [("POST", fun _ => none)], withMethodCheck 1 ["POST"],
          withMr testTexts 1 { BranchName := "" } fakeClient, withLogging]
        unresolvedProject ResponseWriter.fresh
        { Method := "GET", Path := "/mr/discussions/list", Body := Body.json () }).w.status
      = some 405 := by
  refine ⟨?_, ?_, ?_, ?_, ?_⟩ <;> decide

/-! ## Resolution of the merge request -/

/-- Counterexample to C17: with the merge-request id of the context already set to
7, the stage lists nothing and the terminal handler sees 7, although the entry
(2, "b") matches the local branch "b". -/
theorem withMr_keeps_pinned_id :
    withMr testTexts 1 { BranchName := "b" }
        (listingClient [{ IID := 1, SourceBranch := "a", Reviewers := [] },
          { IID := 2, SourceBranch := "b", Reviewers := [] }])
        (echoMergeId : Handler Unit) { ProjectId := "1", MergeId := 7 } ResponseWriter.fresh
        { Method := "GET", Path := "/mr/info", Body := Body.json () }
      = { ending := Ending.returned,
          w := { header := [], codes := [200], body := [Written.text "7\n"], pending := [],
                 thereafter := none },
          calls := [] } := by
  decide

/-- C17, amended: when the merge-request id of the context is not set yet (zero) and
the upstream lists the open merge requests without error and with a status below
300, then, if an entry of the list has the local branch for source branch, the
terminal handler runs after that one upstream call on the context with the id of
the first such entry, and if no entry has, the stage answers with the not-found
failure (status 404) after that one call, whatever the terminal handler is. -/
theorem withMr_resolves (T : ErrorTexts) (fuel : Nat) (gitInfo : GitData) (c : Client)
    (α : Type) (next : Handler α) (d : ProjectInfo) (w : ResponseWriter) (r : Request α)
    (mergeRequests : List MergeRequest) (s : Int) (hpin : d.MergeId = 0)
    (hlist : c.ListProjectMergeRequests d.ProjectId withMr.options
      = { value := mergeRequests, res := some { StatusCode := s }, err := none })
    (hs : s < 300) :
    (∀ mr : MergeRequest,
      mergeRequests.find? (fun mr => mr.SourceBranch = gitInfo.BranchName) = some mr →
      mr ∈ mergeRequests ∧ mr.SourceBranch = gitInfo.BranchName ∧
      withMr T (fuel + 1) gitInfo c next d w r
        = (next { d with MergeId := mr.IID } w r).precededBy
            [Call.ListProjectMergeRequests d.ProjectId withMr.options]) ∧
    ((∀ mr ∈ mergeRequests, mr.SourceBranch ≠ gitInfo.BranchName) →
      w.codes = [] → w.next = none →
      (withMr T (fuel + 1) gitInfo c next d w r).ending = Ending.returned ∧
      (withMr T (fuel + 1) gitInfo c next d w r).calls
        = [Call.ListProjectMergeRequests d.ProjectId withMr.options] ∧
      (withMr T (fuel + 1) gitInfo c next d w r).w.status = some 404 ∧
      (withMr T (fuel + 1) gitInfo c next d w r).w.body
        = w.body ++ [Written.error
            { Message := "No merge requests found", Details := "No merge requests found",
              Status := 404 }]) := by
  have hge : ¬ s ≥ 300 := by omega
  constructor
  · intro mr hfind
    refine ⟨List.mem_of_find?_eq_some hfind, ?_, ?_⟩
    · simpa using List.find?_some hfind
    · simp only [withMr, hpin, ne_eq, not_true_eq_false, if_false, hlist, hge, hfind]
  · intro hnone hcodes hnext
    have hfind : mergeRequests.find? (fun mr => mr.SourceBranch = gitInfo.BranchName)
        = none := by
      rw [List.find?_eq_none]
      intro mr hmr
      simpa using hnone mr hmr
    simp only [withMr, hpin, ne_eq, not_true_eq_false, if_false, hlist, hge, hfind]
    rw [handleError_accepted fuel w _ _ 404 hcodes (by decide) (by decide) (by decide) hnext]
    simp [Run.after, ResponseWriter.status, hcodes, errors.New]

/-- Witness of C17, amended: the entries (1, "a") and (2, "b"); the local branch "b"
resolves to 2, the local branch "c" to nothing. -/
theorem withMr_resolves_witness :
    (withMr testTexts (0 + 1) { BranchName := "b" }
        (listingClient [{ IID := 1, SourceBranch := "a", Reviewers := [] },
          { IID := 2, SourceBranch := "b", Reviewers := [] }])
        (echoMergeId : Handler Unit) unresolvedProject ResponseWriter.fresh
        { Method := "GET", Path := "/mr/info", Body := Body.json () }
      = ((echoMergeId : Handler Unit) { unresolvedProject with MergeId := 2 }
          ResponseWriter.fresh
          { Method := "GET", Path := "/mr/info", Body := Body.json () }).precededBy
            [Call.ListProjectMergeRequests unresolvedProject.ProjectId withMr.options]) ∧
    (withMr testTexts (0 + 1) { BranchName := "c" }
        (listingClient [{ IID := 1, SourceBranch := "a", Reviewers := [] },
          { IID := 2, SourceBranch := "b", Reviewers := [] }])
        (echoMergeId : Handler Unit) unresolvedProject ResponseWriter.fresh
        { Method := "GET", Path := "/mr/info", Body := Body.json () }).w.status = some 404 :=
  ⟨((withMr_resolves testTexts 0 { BranchName := "b" }
      (listingClient [{ IID := 1, SourceBranch := "a", Reviewers := [] },
        { IID := 2, SourceBranch := "b", Reviewers := [] }])
      Unit echoMergeId unresolvedProject ResponseWriter.fresh
      { Method := "GET", Path := "/mr/info", Body := Body.json () }
      [{ IID := 1, SourceBranch := "a", Reviewers := [] },
        { IID := 2, SourceBranch := "b", Reviewers := [] }] 200 rfl rfl (by decide)).1
      { IID := 2, SourceBranch := "b", Reviewers := [] } (by decide)).2.2,
    ((withMr_resolves testTexts 0 { BranchName := "c" }
      (listingClient [{ IID := 1, SourceBranch := "a", Reviewers := [] },
        { IID := 2, SourceBranch := "b", Reviewers := [] }])
      Unit echoMergeId unresolvedProject ResponseWriter.fresh
      { Method := "GET", Path := "/mr/info", Body := Body.json () }
      [{ IID := 1, SourceBranch := "a", Reviewers := [] },
        { IID := 2, SourceBranch := "b", Reviewers := [] }] 200 rfl rfl (by decide)).2
      (by decide) rfl rfl).2.2.1⟩

/-! ## The liveness path -/

/-- The writer `pingHandler` leaves when it is the first to write and its write is
accepted. -/
theorem pingHandler_accepted {α : Type} (w : ResponseWriter) (r : Request α)
    (hcodes : w.codes = []) (hnext : w.next = none) :
    pingHandler w r
      = { ending := Ending.returned,
          w := { header := w.header, codes := w.codes ++ [200],
                 body := w.body ++ [Written.text "pong\n"], pending := w.pending.tail,
                 thereafter := w.thereafter },
          calls := [] } := by
  simp only [pingHandler, WriteHeader_first w 200 (by decide) (by decide),
    ResponseWriter.Fprintln, Encode_after_WriteHeader w 200 _ hcodes (by decide) hnext]
  rfl

/-- C18: on a writer that has sent nothing and accepts the write, `pingHandler`
answers every request, whatever its method, path and body, with status 200 and
the text `pong` followed by a newline, making no upstream call; and `CreateRouter`
registers it at `/ping` as it is, not wrapped in a chain of stages. -/
theorem pingHandler_pong (α : Type) (w : ResponseWriter) (r : Request α)
    (hcodes : w.codes = []) (hnext : w.next = none) :
    (pingHandler w r).ending = Ending.returned ∧
    (pingHandler w r).calls = [] ∧
    (pingHandler w r).w.status = some 200 ∧
    (pingHandler w r).w.body = w.body ++ [Written.text "pong\n"] ∧
    CreateRouter.routes.lookup "/ping" = some (Registration.direct "pingHandler") := by
  have h := pingHandler_accepted w r hcodes hnext
  refine ⟨?_, ?_, ?_, ?_, by decide⟩
  · rw [h]
  · rw [h]
  · rw [h]
    simp [ResponseWriter.status, hcodes]
  · rw [h]

/-- Witness of C18: a DELETE request to `/ping` with an unreadable body. -/
theorem pingHandler_pong_witness :
    (pingHandler ResponseWriter.fresh
        ({ Method := "DELETE", Path := "/ping",
           Body := Body.unreadable (errors.New "EOF") } : Request Unit)).ending
      = Ending.returned ∧
    (pingHandler ResponseWriter.fresh
        ({ Method := "DELETE", Path := "/ping",
           Body := Body.unreadable (errors.New "EOF") } : Request Unit)).calls = [] ∧
    (pingHandler ResponseWriter.fresh
        ({ Method := "DELETE", Path := "/ping",
           Body := Body.unreadable (errors.New "EOF") } : Request Unit)).w.status = some 200 ∧
    (pingHandler ResponseWriter.fresh
        ({ Method := "DELETE", Path := "/ping",
           Body := Body.unreadable (errors.New "EOF") } : Request Unit)).w.body
      = ResponseWriter.fresh.body ++ [Written.text "pong\n"] ∧
    CreateRouter.routes.lookup "/ping" = some (Registration.direct "pingHandler") :=
  pingHandler_pong Unit ResponseWriter.fresh
    { Method := "DELETE", Path := "/ping", Body := Body.unreadable (errors.New "EOF") } rfl rfl

/-! ## Readiness polling -/

/-- C19, evaluated at a server that does not accept connections yet, so that the
first `http.Get` returns an error and no response: `checkServer` panics on the nil
response at the first attempt instead of returning `Could not start server!`, and
`StartServer` crashes instead of exiting with status 1; when every attempt is
answered with status 503 the error is returned after ten attempts and `StartServer`
exits with status 1 without announcing the port. -/
theorem checkServer_panics_on_failed_get :
    checkServer (fun _ => { resp := none, err := some (errors.New "connection refused") })
      = { ending := nilDereference, result := none, attempts := 1, slept := 0 } ∧
    StartServer.readiness 8080
        (fun _ => { resp := none, err := some (errors.New "connection refused") })
      = { ending := nilDereference, stdout := [], stderr := [], exit := none } ∧
    checkServer (fun _ => { resp := some { StatusCode := 503 }, err := none })
      = { ending := Ending.returned, result := some (errors.New "Could not start server!"),
          attempts := 10, slept := 1000000 } ∧
    StartServer.readiness 8080 (fun _ => { resp := some { StatusCode := 503 }, err := none })
      = { ending := Ending.returned, stdout := [],
          stderr := ["Server did not respond: Could not start server!\n"], exit := some 1 } := by
  refine ⟨?_, ?_, ?_, ?_⟩ <;> decide

/-- C20, evaluated at a server that answers every ping with status 503: after the
ten attempts `checkServer` has slept ten times 100 microseconds, which is one
millisecond, a thousandth of the second its comment announces. -/
theorem checkServer_sleeps_one_millisecond :
    (checkServer (fun _ => { resp := some { StatusCode := 503 }, err := none })).attempts = 10 ∧
    (checkServer (fun _ => { resp := some { StatusCode := 503 }, err := none })).slept
      = 10 * (100 * time.Microsecond) ∧
    1000 * (checkServer (fun _ => { resp := some { StatusCode := 503 }, err := none })).slept
      = time.Second := by
  refine ⟨?_, ?_, ?_⟩ <;> decide

/-! ## The exit status when `Serve` returns -/

/-- The line `StartServer` prints for an error, formatted. -/
theorem Sprintf_server_did_not_respond (text : String) :
    fmt.Sprintf "Server did not respond: %s\n" [fmt.Arg.str text]
      = "Server did not respond: " ++ text ++ "\n" := by
  apply String.ext
  simp [fmt.Sprintf, fmt.doPrintf, String.data_append]

/-- `errors.Is` finds the target exactly when an error of the unwrap chain has the
identity of the target. -/
theorem Is_iff_unwrapChain (e target : ErrorValue) :
    errors.Is e target = true ↔ ∃ x ∈ e.unwrapChain, x.identity = target.identity := by
  induction e with
  | plain identity text =>
    simp [errors.Is, ErrorValue.unwrapChain, ErrorValue.identity]
  | wrapping identity text inner ih =>
    simp [errors.Is, ErrorValue.unwrapChain, ErrorValue.identity, ih]

/-- C21: when `server.Serve` returns, the process exits with status 0 exactly when
the returned error is (or wraps) `http.ErrServerClosed`, and with status 1 for every
other non-nil error. In particular `http.ErrServerClosed` itself gives status 0 with
nothing on stderr, and so does every error that wraps it; an error with no unwrap
chain that is not `http.ErrServerClosed` gives status 1 after one line on stderr, and
so does an error that wraps such an error; a nil error gives no exit. The errors
that give status 0 are those with `http.ErrServerClosed` in the chain of the error
and the errors it unwraps to. -/
theorem served_exit_status (err : Option ErrorValue) :
    ((StartServer.served err).exit = some 0 ↔
      ∃ e : ErrorValue, err = some e ∧ errors.Is e http.ErrServerClosed = true) ∧
    (∀ e : ErrorValue, err = some e → errors.Is e http.ErrServerClosed = false →
      (StartServer.served err).exit = some 1) ∧
    ((StartServer.served err).exit = some 0 ↔
      ∃ e : ErrorValue, err = some e ∧
        ∃ x ∈ e.unwrapChain, x.identity = http.ErrServerClosed.identity) ∧
    StartServer.served (some http.ErrServerClosed)
      = { ending := Ending.returned, stdout := [], stderr := [], exit := some 0 } ∧
    (∀ (identity : Nat) (text : String),
      (StartServer.served
        (some (ErrorValue.wrapping identity text http.ErrServerClosed))).exit = some 0) ∧
    (∀ (identity : Nat) (text : String), identity ≠ http.ErrServerClosed.identity →
      StartServer.served (some (ErrorValue.plain identity text))
        = { ending := Ending.returned, stdout := [],
            stderr := ["Server did not respond: " ++ text ++ "\n"], exit := some 1 }) ∧
    (∀ (identity outer : Nat) (text outerText : String),
      identity ≠ http.ErrServerClosed.identity → outer ≠ http.ErrServerClosed.identity →
      (StartServer.served
        (some (ErrorValue.wrapping outer outerText
          (ErrorValue.plain identity text)))).exit = some 1) ∧
    (StartServer.served none).exit = none := by
  refine ⟨?_, ?_, ?_, by decide, ?_, ?_, ?_, by decide⟩
  · cases err with
    | none => simp [StartServer.served]
    | some e => cases h : errors.Is e http.ErrServerClosed <;> simp [StartServer.served, h]
  · intro e he hIs
    subst he
    simp [StartServer.served, hIs]
  · cases err with
    | none => simp [StartServer.served]
    | some e =>
      have hchain := Is_iff_unwrapChain e http.ErrServerClosed
      cases h : errors.Is e http.ErrServerClosed
      · have hno : ¬ ∃ x ∈ e.unwrapChain, x.identity = http.ErrServerClosed.identity := by
          rw [← hchain, h]
          simp
        simp only [StartServer.served, h, Bool.false_eq_true, if_false, Option.some.injEq,
          exists_eq_left']
        constructor
        · intro h1
          simp at h1
        · intro h2
          exact absurd h2 hno
      · have hyes := hchain.1 h
        simp only [StartServer.served, h, if_true, Option.some.injEq, exists_eq_left', true_iff]
        exact hyes
  · intro identity text
    simp [StartServer.served, errors.Is, http.ErrServerClosed, ErrorValue.identity]
  · intro identity text hne
    have h : errors.Is (ErrorValue.plain identity text) http.ErrServerClosed = false := by
      simpa [errors.Is] using hne
    simp only [StartServer.served, h, Bool.false_eq_true, if_false, ErrorValue.Error]
    rw [Sprintf_server_did_not_respond]
  · intro identity outer text outerText h1 h2
    have h : errors.Is (ErrorValue.wrapping outer outerText (ErrorValue.plain identity text))
        http.ErrServerClosed = false := by
      simp only [errors.Is, Bool.or_eq_false_iff, beq_eq_false_iff_ne, ne_eq]
      exact ⟨h2, h1⟩
    simp [StartServer.served, h]

/-! ## Shutdown -/

/-- A trigger outside `Running` changes nothing. -/
theorem step_trigger_not_running (s : ShutdownState) (t : Trigger)
    (h : s.phase ≠ ShutdownPhase.Running) : s.step (ShutdownEvent.trigger t) = s := by
  cases hp : s.phase
  · exact absurd hp h
  · simp [ShutdownState.step, hp]
  · simp [ShutdownState.step, hp]

/-- Once stopped, the coordinator stays as it is. -/
theorem run_stopped (events : List ShutdownEvent) :
    ∀ s : ShutdownState, s.phase = ShutdownPhase.Stopped → s.run events = s := by
  induction events with
  | nil => intro s _; rfl
  | cons e es ih =>
    intro s hs
    have hstep : s.step e = s := by
      cases e <;> simp [ShutdownState.step, hs]
    simp only [ShutdownState.run, List.foldl_cons, hstep]
    exact ih s hs

/-- While draining, further triggers change nothing. -/
theorem run_triggers_draining (ts : List Trigger) :
    ∀ s : ShutdownState, s.phase = ShutdownPhase.Draining →
      s.run (ts.map ShutdownEvent.trigger) = s := by
  induction ts with
  | nil => intro s _; rfl
  | cons t ts ih =>
    intro s hs
    have hstep : s.step (ShutdownEvent.trigger t) = s :=
      step_trigger_not_running s t (by rw [hs]; decide)
    simp only [ShutdownState.run, List.map_cons, List.foldl_cons, hstep]
    exact ih s hs

/-- The counters of the coordinator never pass one, whatever the events. -/
theorem run_counts_le_one (events : List ShutdownEvent) :
    ∀ s : ShutdownState,
      (s.phase = ShutdownPhase.Running → s.listenerCloses = 0 ∧ s.exits = 0) →
      (s.phase = ShutdownPhase.Draining → s.listenerCloses ≤ 1 ∧ s.exits = 0) →
      (s.phase = ShutdownPhase.Stopped → s.listenerCloses ≤ 1 ∧ s.exits ≤ 1) →
      (s.run events).listenerCloses ≤ 1 ∧ (s.run events).exits ≤ 1 := by
  induction events with
  | nil =>
    intro s h1 h2 h3
    cases hp : s.phase
    · have := h1 hp; simp [ShutdownState.run]; omega
    · have := h2 hp; simp [ShutdownState.run]; omega
    · exact h3 hp
  | cons e es ih =>
    intro s h1 h2 h3
    simp only [ShutdownState.run, List.foldl_cons]
    apply ih
    · intro hp
      cases e <;> cases hs : s.phase <;> simp [ShutdownState.step, hs] at hp
    · intro hp
      cases e <;> cases hs : s.phase <;> simp [ShutdownState.step, hs] at hp ⊢
      · have := h1 hs; omega
      · have := h2 hs; omega
    · intro hp
      cases e <;> cases hs : s.phase <;> simp [ShutdownState.step, hs] at hp ⊢
      · exact h3 hs
      · have := h1 hs; omega
      · have := h2 hs; omega
      · exact h3 hs

/-- C22: from `Running`, a sequence of one or more shutdown triggers (signals or
shutdown requests, in any order) asks the listener to close exactly once and leaves
the coordinator draining; once the listener has reported its closure the process
has exited exactly once, whatever events follow; a trigger received in `Draining`
or `Stopped` changes nothing; and for every sequence of events neither the number
of listener closes nor the number of process exits passes one. -/
theorem shutdown_idempotent (t : Trigger) (ts : List Trigger) (events : List ShutdownEvent) :
    ShutdownState.init.run ((t :: ts).map ShutdownEvent.trigger)
      = { phase := ShutdownPhase.Draining, listenerCloses := 1, exits := 0 } ∧
    ShutdownState.init.run
        ((t :: ts).map ShutdownEvent.trigger ++ ShutdownEvent.listenerClosed :: events)
      = { phase := ShutdownPhase.Stopped, listenerCloses := 1, exits := 1 } ∧
    (∀ (s : ShutdownState) (t2 : Trigger), s.phase ≠ ShutdownPhase.Running →
      s.step (ShutdownEvent.trigger t2) = s) ∧
    ((ShutdownState.init.run events).listenerCloses ≤ 1 ∧
      (ShutdownState.init.run events).exits ≤ 1) := by
  have h1 : ShutdownState.init.run ((t :: ts).map ShutdownEvent.trigger)
      = { phase := ShutdownPhase.Draining, listenerCloses := 1, exits := 0 } := by
    simp only [ShutdownState.run, List.map_cons, List.foldl_cons]
    exact run_triggers_draining ts _ rfl
  refine ⟨h1, ?_, step_trigger_not_running, ?_⟩
  · have h2 := h1
    simp only [ShutdownState.run] at h2
    simp only [ShutdownState.run, List.foldl_append, List.foldl_cons, h2]
    exact run_stopped events _ rfl
  · apply run_counts_le_one
    · intro _; exact ⟨rfl, rfl⟩
    · intro h; simp [ShutdownState.init] at h
    · intro h; simp [ShutdownState.init] at h

/-! ## Termination of `handleError` -/

/-- On a writer that has sent its header and refuses every write, no attempt of
`handleError` succeeds: the run is cut off by the fuel. -/
theorem handleError_refused (fuel : Nat) :
    ∀ (w : ResponseWriter) (err : GoError) (message : String) (status : Int),
      w.codes ≠ [] → w.pending = [] → w.thereafter ≠ none →
      (handleError fuel w err message status).1 = Ending.outOfFuel := by
  induction fuel with
  | zero => intro w err message status _ _ _; rfl
  | succ fuel ih =>
    intro w err message status hc hp ht
    obtain ⟨e, he⟩ := Option.ne_none_iff_exists'.1 ht
    have h3 : ¬ (w.codes ++ [status] = []) := by simp
    have hnext : ResponseWriter.next { w with codes := w.codes ++ [status] } = some e := by
      simp [ResponseWriter.next, hp, he]
    by_cases hb : ResponseWriter.bodyAllowed { w with codes := w.codes ++ [status] } = true
    · simp only [handleError, WriteHeader_superfluous w status hc, ResponseWriter.Encode, h3,
        if_false, hb, if_true, hnext]
      apply ih
      all_goals first | exact ht | simp [hp]
    · simp only [handleError, WriteHeader_superfluous w status hc, ResponseWriter.Encode, h3,
        if_false, hb]
      apply ih
      all_goals first | exact ht | simp [hp]

/-- C23, evaluated at a writer that refuses every write: whatever the fuel, the
error, the message and the status, `handleError` does not return. With a status
from 100 to 999 the run is cut off by the fuel, each refused write starting another
attempt; with a status outside that range the first `WriteHeader` panics. -/
theorem handleError_never_returns (fuel : Nat) (err : GoError) (message : String)
    (status : Int) :
    (handleError fuel brokenWriter err message status).1 ≠ Ending.returned ∧
    (handleError fuel brokenWriter err message status).1
      = if fuel = 0 ∨ (100 ≤ status ∧ status ≤ 999) then Ending.outOfFuel
        else invalidWriteHeaderCode := by
  have key : (handleError fuel brokenWriter err message status).1
      = if fuel = 0 ∨ (100 ≤ status ∧ status ≤ 999) then Ending.outOfFuel
        else invalidWriteHeaderCode := by
    cases fuel with
    | zero => simp [handleError]
    | succ fuel =>
      by_cases hv : 100 ≤ status ∧ status ≤ 999
      · have h3 : ¬ (brokenWriter.codes ++ [status] = []) := by simp
        have hnext : ResponseWriter.next
            { brokenWriter with codes := brokenWriter.codes ++ [status] }
            = some (errors.New "write: broken pipe") := rfl
        by_cases hb : ResponseWriter.bodyAllowed
            { brokenWriter with codes := brokenWriter.codes ++ [status] } = true
        · simp only [hv, and_self, or_true, if_true, handleError,
            WriteHeader_first brokenWriter status hv.1 hv.2, ResponseWriter.Encode, h3,
            if_false, hb, hnext]
          apply handleError_refused
          all_goals first | decide | simp [brokenWriter]
        · simp only [hv, and_self, or_true, if_true, handleError,
            WriteHeader_first brokenWriter status hv.1 hv.2, ResponseWriter.Encode, h3,
            if_false, hb]
          apply handleError_refused
          all_goals first | decide | simp [brokenWriter]
      · have hw : brokenWriter.WriteHeader status = none := by
          simp only [ResponseWriter.WriteHeader, brokenWriter, true_and]
          rw [if_pos hv]
        simp [handleError, hw, hv]
  refine ⟨?_, key⟩
  rw [key]
  split <;> decide

/-! ## A failed ping -/

/-- C24, evaluated at a server whose first ping fails with an error and whose second
ping would be answered with status 200: `checkServer` reads the status code of the
nil response of the first attempt and panics; it does not go on to the second
attempt. -/
theorem checkServer_reads_nil_response :
    checkServer (fun i =>
        if i = 0 then { resp := none, err := some (errors.New "connection refused") }
        else { resp := some { StatusCode := 200 }, err := none })
      = { ending := nilDereference, result := none, attempts := 1, slept := 0 } := by
  decide

/-! ## Draft note ids in the path -/

/-- A list is a leading part of itself followed by anything. -/
theorem isPrefixOf_append_self (p s : List Char) : p.isPrefixOf (p ++ s) = true := by
  induction p with
  | nil => simp [List.isPrefixOf]
  | cons a p ih => simp [List.isPrefixOf, ih]

/-- Trimming a leading part that is there leaves the rest. -/
theorem TrimPrefix_append (p s : String) : strings.TrimPrefix (p ++ s) p = s := by
  simp [strings.TrimPrefix, String.data_append, isPrefixOf_append_self]

/-- The digits `Nat.toDigitsCore` produces come on top of the ones it is given. -/
theorem length_le_toDigitsCore (fuel : Nat) :
    ∀ (n : Nat) (ds : List Char), ds.length ≤ (Nat.toDigitsCore 10 fuel n ds).length := by
  induction fuel with
  | zero => intro n ds; simp [Nat.toDigitsCore]
  | succ fuel ih =>
    intro n ds
    simp only [Nat.toDigitsCore]
    split
    · simp
    · have := ih (n / 10) (Nat.digitChar (n % 10) :: ds)
      simp only [List.length_cons] at this
      omega

/-- A natural number has at least one decimal digit. -/
theorem toDigits_ne_nil (n : Nat) : Nat.toDigits 10 n ≠ [] := by
  intro h
  have hlen : 1 ≤ (Nat.toDigits 10 n).length := by
    simp only [Nat.toDigits, Nat.toDigitsCore]
    split
    · simp
    · have := length_le_toDigitsCore n (n / 10) [Nat.digitChar (n % 10)]
      simpa using this
  rw [h] at hlen
  simp at hlen

/-- Reading further digits does not lower the value. -/
theorem le_foldl_digits : ∀ (cs : List Char) (acc : Nat),
    acc ≤ cs.foldl (fun a ch => 10 * a + (ch.toNat - 48)) acc
  | [], _ => Nat.le_refl _
  | ch :: cs, acc => by
    have h := le_foldl_digits cs (10 * acc + (ch.toNat - 48))
    simp only [List.foldl_cons]
    omega

/-- On digit characters whose value fits 64 bits `digitsValue` is the reading by
Horner's rule. -/
theorem digitsValue_digits : ∀ (cs : List Char) (acc : Nat),
    (∀ ch ∈ cs, 48 ≤ ch.toNat ∧ ch.toNat ≤ 57) →
    cs.foldl (fun a ch => 10 * a + (ch.toNat - 48)) acc < 2 ^ 64 →
    strconv.digitsValue cs acc
      = Except.ok (cs.foldl (fun a ch => 10 * a + (ch.toNat - 48)) acc)
  | [], _, _, _ => rfl
  | ch :: cs, acc, h, hlt => by
    have hch := h ch (List.mem_cons_self _ _)
    have hle := le_foldl_digits cs (10 * acc + (ch.toNat - 48))
    simp only [List.foldl_cons] at hlt
    have h1 : ¬ (acc ≥ (2 ^ 64 - 1) / 10 + 1) := by
      norm_num at hlt ⊢
      omega
    have h2 : ¬ (acc * 10 + (ch.toNat - 48) > 2 ^ 64 - 1) := by
      norm_num at hlt ⊢
      omega
    simp only [strconv.digitsValue, hch, and_self, if_true, h1, h2, if_false, List.foldl_cons]
    rw [Nat.mul_comm acc 10]
    exact digitsValue_digits cs _ (fun c hc => h c (List.mem_cons_of_mem _ hc)) hlt

/-- A character that is no digit makes `digitsValue` fail. -/
theorem digitsValue_not_digits : ∀ (cs : List Char) (acc : Nat),
    cs.all (fun ch => decide (48 ≤ ch.toNat) && decide (ch.toNat ≤ 57)) = false →
    strconv.digitsValue cs acc = Except.error strconv.Failure.ErrSyntax ∨
    strconv.digitsValue cs acc = Except.error strconv.Failure.ErrRange
  | [], _, h => by simp at h
  | ch :: cs, acc, h => by
    by_cases hch : 48 ≤ ch.toNat ∧ ch.toNat ≤ 57
    · simp only [strconv.digitsValue, hch, and_self, if_true]
      split
      · exact Or.inr rfl
      · split
        · exact Or.inr rfl
        · apply digitsValue_not_digits cs
          simpa [hch.1, hch.2] using h
    · simp [strconv.digitsValue, hch]

/-- On at most `k` characters, from a value that leaves room for `k` more digits,
`digitsValue` meets a character that is no digit before the value can pass 64 bits. -/
theorem digitsValue_short : ∀ (cs : List Char) (acc k : Nat),
    cs.length ≤ k → (acc + 1) * 10 ^ k ≤ 2 ^ 64 →
    cs.all (fun ch => decide (48 ≤ ch.toNat) && decide (ch.toNat ≤ 57)) = false →
    strconv.digitsValue cs acc = Except.error strconv.Failure.ErrSyntax
  | [], _, _, _, _, h => by simp at h
  | ch :: cs, acc, k, hk, hb, h => by
    by_cases hch : 48 ≤ ch.toNat ∧ ch.toNat ≤ 57
    · obtain ⟨j, rfl⟩ : ∃ j, k = j + 1 := ⟨k - 1, by simp at hk; omega⟩
      have hb2 : (acc + 1) * 10 * 10 ^ j ≤ 2 ^ 64 := by
        rw [pow_succ] at hb
        calc (acc + 1) * 10 * 10 ^ j = (acc + 1) * (10 ^ j * 10) := by ring
          _ ≤ 2 ^ 64 := hb
      have hp : 1 ≤ 10 ^ j := Nat.one_le_pow _ _ (by decide)
      have h10 : (acc + 1) * 10 ≤ 2 ^ 64 :=
        le_trans (Nat.le_mul_of_pos_right _ hp) hb2
      have h1 : ¬ (acc ≥ (2 ^ 64 - 1) / 10 + 1) := by
        norm_num at h10 ⊢
        omega
      have h2 : ¬ (acc * 10 + (ch.toNat - 48) > 2 ^ 64 - 1) := by
        norm_num at h10 ⊢
        omega
      simp only [strconv.digitsValue, hch, and_self, if_true, h1, h2, if_false]
      apply digitsValue_short cs _ j
      · simpa using hk
      · exact le_trans (Nat.mul_le_mul_right _ (by omega)) hb2
      · simpa [hch.1, hch.2] using h
    · simp [strconv.digitsValue, hch]

/-- The value of the decimal digits of a natural number that fits 64 bits. -/
theorem digitsValue_toDigits (m : Nat) (hm : m < 2 ^ 64) :
    strconv.digitsValue (Nat.toDigits 10 m) 0 = Except.ok m := by
  have hfold : (Nat.toDigits 10 m).foldl (fun a ch => 10 * a + (ch.toNat - 48)) 0 = m := by
    have := foldl_toDigitsCore (m + 1) m [] (by omega)
    simp only [Nat.toDigits]
    rw [this]
    rfl
  rw [digitsValue_digits _ _ (fun ch hch => mem_toDigits m ch hch) (by rw [hfold]; exact hm),
    hfold]

/-- The characters of the decimal notation of an integer. -/
theorem data_toString (n : Int) : (toString n).data = fmt.fmtInteger n := by
  rw [← fmtInteger_eq_toString]

/-- The sign-stripping of `strconv.Atoi` leaves a string that starts with neither
sign as it is. -/
theorem strip_sign_unsigned (c : Char) (cs : List Char) (h1 : c ≠ '-') (h2 : c ≠ '+') :
    (match c :: cs with
      | '-' :: rest => rest
      | '+' :: rest => rest
      | rest => rest) = c :: cs := by
  split
  · rename_i heq
    exact absurd (List.cons.inj heq).1 h1
  · rename_i heq
    exact absurd (List.cons.inj heq).1 h2
  · rfl

/-- `strconv.Atoi` reads back the decimal notation of an `int`. -/
theorem Atoi_toString (T : ErrorTexts) (n : Int) (hlo : -(2 ^ 63) ≤ n) (hhi : n < 2 ^ 63) :
    strconv.Atoi T (toString n) = Except.ok n := by
  unfold strconv.Atoi
  simp only [data_toString]
  cases n with
  | ofNat m =>
    have hm : m < 2 ^ 63 := by
      have : (m : Int) < 2 ^ 63 := hhi
      exact_mod_cast this
    have hv := digitsValue_toDigits m (by norm_num at hm ⊢; omega)
    simp only [fmt.fmtInteger]
    obtain ⟨c, cs, hd⟩ : ∃ c cs, Nat.toDigits 10 m = c :: cs := by
      cases h : Nat.toDigits 10 m with
      | nil => exact absurd h (toDigits_ne_nil m)
      | cons c cs => exact ⟨c, cs, rfl⟩
    have hc := mem_toDigits m c (by rw [hd]; exact List.mem_cons_self _ _)
    have h1 : c ≠ '-' := by
      intro h; rw [h] at hc; simp at hc
    have h2 : c ≠ '+' := by
      intro h; rw [h] at hc; simp at hc
    rw [hd] at hv
    have hm2 : m < 9223372036854775808 := by
      norm_num at hm
      omega
    simp only [hd, strip_sign_unsigned c cs h1 h2]
    simp [hv, h1, hm2]
  | negSucc k =>
    have hk : k + 1 ≤ 2 ^ 63 := by
      have h : -(2 ^ 63 : Int) ≤ Int.negSucc k := hlo
      rw [Int.negSucc_eq] at h
      have h2 : ((k : Int) + 1) ≤ 2 ^ 63 := by omega
      exact_mod_cast h2
    have hne := toDigits_ne_nil (k + 1)
    have hv := digitsValue_toDigits (k + 1) (by norm_num at hk ⊢; omega)
    have hk2 : k ≤ 9223372036854775807 := by
      norm_num at hk
      omega
    simp [fmt.fmtInteger, hne, hv, hk2, Int.negSucc_eq]

/-- `strconv.Atoi` refuses what is not a decimal integer: with a syntax error, or
with a range error when the leading digits pass 64 bits before the byte that is no
digit. -/
theorem Atoi_not_decimal (T : ErrorTexts) (s : String) (h : isDecimalInteger s = false) :
    strconv.Atoi T s = Except.error { Error := T.atoiSyntax s } ∨
    strconv.Atoi T s = Except.error { Error := T.atoiRange s } := by
  unfold isDecimalInteger at h
  unfold strconv.Atoi
  simp only [] at h ⊢
  generalize (match s.data with
    | '-' :: rest => rest
    | '+' :: rest => rest
    | cs => cs) = digits at h ⊢
  simp only [Bool.and_eq_false_iff, decide_eq_false_iff_not, ne_eq, Decidable.not_not] at h
  rcases h with h | h
  · simp [h]
  · split
    · exact Or.inl rfl
    · rcases digitsValue_not_digits _ 0 h with hd | hd
      · rw [hd]
        exact Or.inl rfl
      · rw [hd]
        exact Or.inr rfl

/-- On a string of at most 19 characters that is not a decimal integer, the error of
`strconv.Atoi` is the syntax error. -/
theorem Atoi_short_not_decimal (T : ErrorTexts) (s : String)
    (h : isDecimalInteger s = false) (hlen : s.length ≤ 19) :
    strconv.Atoi T s = Except.error { Error := T.atoiSyntax s } := by
  have hl : (match s.data with
    | '-' :: rest => rest
    | '+' :: rest => rest
    | cs => cs).length ≤ 19 := by
    have hd : s.data.length ≤ 19 := hlen
    split
    · rename_i rest heq
      rw [heq] at hd
      simp only [List.length_cons] at hd
      omega
    · rename_i rest heq
      rw [heq] at hd
      simp only [List.length_cons] at hd
      omega
    · exact hd
  unfold isDecimalInteger at h
  unfold strconv.Atoi
  simp only [] at h ⊢
  generalize (match s.data with
    | '-' :: rest => rest
    | '+' :: rest => rest
    | cs => cs) = digits at h hl ⊢
  simp only [Bool.and_eq_false_iff, decide_eq_false_iff_not, ne_eq, Decidable.not_not] at h
  rcases h with h | h
  · simp [h]
  · split
    · rfl
    · rw [digitsValue_short digits 0 19 hl (by norm_num) h]

/-- The calls of `deleteDraftNote` on a path whose note id parses: the one delete. -/
theorem deleteDraftNote_calls {α : Type} (T : ErrorTexts) (fuel : Nat) (c : Client)
    (d : ProjectInfo) (w : ResponseWriter) (r : Request α) (id : Int)
    (hid : strconv.Atoi T (strings.TrimPrefix r.Path "/mr/draft_notes/") = Except.ok id) :
    (deleteDraftNote T fuel c d w r).calls = [Call.DeleteDraftNote d.ProjectId d.MergeId id] := by
  simp only [deleteDraftNote, hid]
  repeat' split
  all_goals first | rfl | exact encodeResponse_calls _ _ _ _

/-- Counterexample to C25: the decimal rendering of the integer 2^63, which is not
in the range of `int`, does not parse; `deleteDraftNote` answers 400 and makes no
upstream call. -/
theorem deleteDraftNote_out_of_range :
    toString ((2 : Int) ^ 63) = "9223372036854775808" ∧
    (deleteDraftNote testTexts 1 fakeClient testProject ResponseWriter.fresh
        ({ Method := "DELETE", Path := "/mr/draft_notes/9223372036854775808",
           Body := Body.json () } : Request Unit)).calls = [] ∧
    (deleteDraftNote testTexts 1 fakeClient testProject ResponseWriter.fresh
        ({ Method := "DELETE", Path := "/mr/draft_notes/9223372036854775808",
           Body := Body.json () } : Request Unit)).w.status = some 400 := by
  refine ⟨?_, ?_, ?_⟩ <;> decide

/-- C25, amended: for every integer `n` in the range of `int`, a request on the path
`/mr/draft_notes/` followed by the decimal rendering of `n` makes `deleteDraftNote`
call the upstream delete operation exactly once, with note id `n`; and on a writer
that has sent nothing and accepts the write, for every path whose remainder after
the leading `/mr/draft_notes/` is not a decimal integer (the empty remainder
included), `deleteDraftNote` and `updateDraftNote` answer with status 400 and the
message `Could not parse draft note ID` and call no upstream operation; the details
are the text of the error of `strconv.Atoi`: the syntax error when the remainder has
at most 19 characters, and in general the syntax error or, when the leading digits pass
64 bits before the byte that is no digit, the range error. -/
theorem draft_note_id_of_path (T : ErrorTexts) (fuel : Nat) (c : Client) (d : ProjectInfo)
    (w : ResponseWriter) (α : Type) (hcodes : w.codes = []) (hnext : w.next = none) :
    (∀ (n : Int) (method : String) (body : Body α), -(2 ^ 63) ≤ n → n < 2 ^ 63 →
      (deleteDraftNote T fuel c d w
          { Method := method, Path := "/mr/draft_notes/" ++ toString n, Body := body }).calls
        = [Call.DeleteDraftNote d.ProjectId d.MergeId n]) ∧
    (∀ r : Request α,
      isDecimalInteger (strings.TrimPrefix r.Path "/mr/draft_notes/") = false →
      ∃ err : GoError,
        strconv.Atoi T (strings.TrimPrefix r.Path "/mr/draft_notes/") = Except.error err ∧
        (err.Error = T.atoiSyntax (strings.TrimPrefix r.Path "/mr/draft_notes/") ∨
          err.Error = T.atoiRange (strings.TrimPrefix r.Path "/mr/draft_notes/")) ∧
        (deleteDraftNote T (fuel + 1) c d w r).rejects w "Could not parse draft note ID"
          err.Error 400) ∧
    (∀ r : Request UpdateDraftNoteRequest,
      isDecimalInteger (strings.TrimPrefix r.Path "/mr/draft_notes/") = false →
      ∃ err : GoError,
        strconv.Atoi T (strings.TrimPrefix r.Path "/mr/draft_notes/") = Except.error err ∧
        (err.Error = T.atoiSyntax (strings.TrimPrefix r.Path "/mr/draft_notes/") ∨
          err.Error = T.atoiRange (strings.TrimPrefix r.Path "/mr/draft_notes/")) ∧
        (updateDraftNote T (fuel + 1) c d w r).rejects w "Could not parse draft note ID"
          err.Error 400) ∧
    isDecimalInteger "" = false ∧
    (∀ r : Request α,
      isDecimalInteger (strings.TrimPrefix r.Path "/mr/draft_notes/") = false →
      (strings.TrimPrefix r.Path "/mr/draft_notes/").length ≤ 19 →
      (deleteDraftNote T (fuel + 1) c d w r).rejects w "Could not parse draft note ID"
        (T.atoiSyntax (strings.TrimPrefix r.Path "/mr/draft_notes/")) 400) ∧
    (∀ r : Request UpdateDraftNoteRequest,
      isDecimalInteger (strings.TrimPrefix r.Path "/mr/draft_notes/") = false →
      (strings.TrimPrefix r.Path "/mr/draft_notes/").length ≤ 19 →
      (updateDraftNote T (fuel + 1) c d w r).rejects w "Could not parse draft note ID"
        (T.atoiSyntax (strings.TrimPrefix r.Path "/mr/draft_notes/")) 400) ∧
    strconv.Atoi T "7x" = Except.error { Error := T.atoiSyntax "7x" } ∧
    strconv.Atoi T "99999999999999999999x"
      = Except.error { Error := T.atoiRange "99999999999999999999x" } := by
  refine ⟨?_, ?_, ?_, by decide, ?_, ?_, rfl, rfl⟩
  · intro n method body hlo hhi
    apply deleteDraftNote_calls
    simp only [TrimPrefix_append]
    exact Atoi_toString T n hlo hhi
  · intro r hr
    rcases Atoi_not_decimal T _ hr with h | h
    · refine ⟨_, h, Or.inl rfl, ?_⟩
      simp only [deleteDraftNote, h]
      exact rejects_after fuel w w _ _ 400 hcodes hnext rfl (by decide) (by decide) (by decide)
    · refine ⟨_, h, Or.inr rfl, ?_⟩
      simp only [deleteDraftNote, h]
      exact rejects_after fuel w w _ _ 400 hcodes hnext rfl (by decide) (by decide) (by decide)
  · intro r hr
    rcases Atoi_not_decimal T _ hr with h | h
    · refine ⟨_, h, Or.inl rfl, ?_⟩
      simp only [updateDraftNote, h]
      exact rejects_after fuel w w _ _ 400 hcodes hnext rfl (by decide) (by decide) (by decide)
    · refine ⟨_, h, Or.inr rfl, ?_⟩
      simp only [updateDraftNote, h]
      exact rejects_after fuel w w _ _ 400 hcodes hnext rfl (by decide) (by decide) (by decide)
  · intro r hr hlen
    simp only [deleteDraftNote, Atoi_short_not_decimal T _ hr hlen]
    exact rejects_after fuel w w _ _ 400 hcodes hnext rfl (by decide) (by decide) (by decide)
  · intro r hr hlen
    simp only [updateDraftNote, Atoi_short_not_decimal T _ hr hlen]
    exact rejects_after fuel w w _ _ 400 hcodes hnext rfl (by decide) (by decide) (by decide)

/-- Witness of C25, amended: the note id minus seven on the path that ends in its
decimal rendering, and the path `/mr/draft_notes/` with the empty remainder. -/
theorem draft_note_id_of_path_witness :
    (deleteDraftNote testTexts 1 fakeClient testProject ResponseWriter.fresh
        ({ Method := "DELETE", Path := "/mr/draft_notes/" ++ toString (-7 : Int),
           Body := Body.json () } : Request Unit)).calls
      = [Call.DeleteDraftNote testProject.ProjectId testProject.MergeId (-7)] ∧
    (deleteDraftNote testTexts (0 + 1) fakeClient testProject ResponseWriter.fresh
        ({ Method := "DELETE", Path := "/mr/draft_notes/",
           Body := Body.json () } : Request Unit)).rejects ResponseWriter.fresh
      "Could not parse draft note ID"
      (testTexts.atoiSyntax (strings.TrimPrefix "/mr/draft_notes/" "/mr/draft_notes/")) 400 :=
  have h := draft_note_id_of_path testTexts 0 fakeClient testProject ResponseWriter.fresh Unit
    rfl rfl
  ⟨(draft_note_id_of_path testTexts 1 fakeClient testProject ResponseWriter.fresh Unit
      rfl rfl).1 (-7) "DELETE" (Body.json ()) (by decide) (by decide),
    h.2.2.2.2.1 { Method := "DELETE", Path := "/mr/draft_notes/", Body := Body.json () }
      (by decide) (by decide)⟩
end Gitlab
